import Mathlib

/-!
RK3588 screenshot engine: capture -> RGA -> MPP pipeline.

A shallow embedding of `src/src/rk_mpp_encoder.cpp`, `src/src/rk_rga_processor.cpp`,
`src/src/rk_surfaceflinger_capture.cpp`, `src/src/rk_dmabuf_utils.cpp` and
`src/src/rk_screenshot.cpp`.

* C `int` values are `Int`s; every arithmetic result is reduced with `wrap32`
  (two's complement, 32 bits), division is C's truncating division.
* `size_t` / `uint64_t` values are `Nat`s reduced modulo `2^64`.
* Pointers to mapped memory are `Nat` addresses, `0` is the null pointer.
* Vendor back ends (compositor, DMA-HEAP, RGA, MPP, libc allocation, clock) are
  oracles collected in `Env`; what the code does to them is recorded in a trace.
-/

namespace RkScreenshot

/-! ## Machine integers -/

/-- Two's complement reduction of an integer to the range of a C `int`. -/
def wrap32 (x : Int) : Int := (x + 2147483648) % 4294967296 - 2147483648

/-- Largest C `int`. -/
def INT32_MAX : Int := 2147483647

/-- Smallest C `int`. -/
def INT32_MIN : Int := -2147483648

/-- Conversion of an integer value to `size_t` / `uint64_t`. -/
def toU64 (x : Int) : Nat := (x % 18446744073709551616).toNat

/-- Conversion of a `uint64_t` to `int64_t`. -/
def toI64 (n : Nat) : Int :=
  ((n : Int) + 9223372036854775808) % 18446744073709551616 - 9223372036854775808

/-- C `int` addition. -/
def add32 (a b : Int) : Int := wrap32 (a + b)

/-- C `int` multiplication. -/
def mul32 (a b : Int) : Int := wrap32 (a * b)

/-- C `int` division: the quotient is truncated towards zero. -/
def div32 (a b : Int) : Int := wrap32 (Int.tdiv a b)

/-! ## Public types (`rk_screenshot.h`) -/

/-- The enum `RkScreenshotError`. -/
inductive RkScreenshotError where
  | RKSS_SUCCESS
  | RKSS_ERROR_INVALID_PARAM
  | RKSS_ERROR_NOT_INITIALIZED
  | RKSS_ERROR_ALREADY_INITIALIZED
  | RKSS_ERROR_INIT_FAILED
  | RKSS_ERROR_NO_MEMORY
  | RKSS_ERROR_DRM_FAILED
  | RKSS_ERROR_RGA_FAILED
  | RKSS_ERROR_MPP_FAILED
  | RKSS_ERROR_NPU_FAILED
  | RKSS_ERROR_CAPTURE_FAILED
  | RKSS_ERROR_ENCODE_FAILED
  | RKSS_ERROR_UNSUPPORTED
  | RKSS_ERROR_TIMEOUT
  | RKSS_ERROR_DEVICE_BUSY
  deriving DecidableEq, Repr

open RkScreenshotError

/-- The enumerator `RK_FORMAT_RGBA8888` of `RkImageFormat`. -/
def RK_FORMAT_RGBA8888 : Int := 0

/-- The enumerator `RK_FORMAT_JPEG` of `RkImageFormat`. -/
def RK_FORMAT_JPEG : Int := 20

/-- The struct `RkScreenshotConfig`. -/
structure RkScreenshotConfig where
  width : Int
  height : Int
  format : Int
  quality : Int
  rotation : Int
  flip_vertical : Bool
  flip_horizontal : Bool
  crop_x : Int
  crop_y : Int
  crop_width : Int
  crop_height : Int
  scale_width : Int
  scale_height : Int
  enable_npu_enhance : Bool
  timeout_ms : Int
  reserved : List Nat
  deriving DecidableEq, Repr

/-- The struct `RkScreenshotResult`; `data = none` is the null pointer. -/
structure RkScreenshotResult where
  data : Option (List Nat)
  size : Nat
  width : Int
  height : Int
  format : Int
  timestamp_us : Int
  capture_time_us : Int
  process_time_us : Int
  encode_time_us : Int
  total_time_us : Int
  reserved : List Nat
  deriving DecidableEq, Repr

/-! ## Internal types (`rk_internal.h`) -/

/-- The struct `RkDmaBuffer`; `vir_addr = 0` is the null pointer. -/
structure RkDmaBuffer where
  fd : Int
  size : Nat
  width : Int
  height : Int
  stride : Int
  format : Int
  vir_addr : Nat
  deriving DecidableEq, Repr

/-! ## Encoder arithmetic (`rk_mpp_encode_jpeg`, lines 80-96) -/

/-- The 16-pixel alignment `((n + 15) / 16) * 16` in C `int` arithmetic. -/
def align16 (n : Int) : Int := mul32 (div32 (add32 n 15) 16) 16

/-- The local `hor_stride_aligned`. -/
def hor_stride_aligned (src : RkDmaBuffer) : Int := align16 src.width

/-- The local `ver_stride_aligned`. -/
def ver_stride_aligned (src : RkDmaBuffer) : Int := align16 src.height

/-- The local `hor_stride_bytes`. -/
def hor_stride_bytes (src : RkDmaBuffer) : Int := mul32 (hor_stride_aligned src) 4

/-- The initial value of the local `zero_copy`, computed before any import. -/
def zero_copy_flag (src : RkDmaBuffer) : Bool :=
  decide (src.width = hor_stride_aligned src) &&
  decide (src.height = ver_stride_aligned src) &&
  decide (src.fd ≥ 0)

/-- The local `mpp_quant`: `(quality * 10 + 50) / 100`, then the two clamps. -/
def mpp_quant (quality : Int) : Int :=
  let q0 := div32 (add32 (mul32 quality 10) 50) 100
  let q1 := if q0 < 1 then 1 else q0
  if q1 > 10 then 10 else q1

/-- The spec's quality mapping: `round(quality * 10 / 100)` clamped to `[1, 10]`. -/
def spec_level (quality : Int) : Int :=
  max 1 (min 10 (round ((quality : ℚ) * 10 / 100)))

/-! ## Back ends and process state -/

/-- The accelerator call issued by `rk_rga_process`. -/
inductive RgaOp where
  | rotate90
  | rotate180
  | rotate270
  | copy
  | resize
  deriving DecidableEq, Repr

/-- The calls the code makes to the outside world, in program order; a call that
returns a descriptor or an address carries what it returned. -/
inductive Event where
  | calloc_result
  | free_result
  | capture_display
  | dup (fd : Int)
  | close (fd : Int)
  | heap_open (fd : Int)
  | heap_alloc (len : Nat) (fd : Option Int)
  | free_dmabuf (buf : RkDmaBuffer)
  | mmap (fd : Int) (size : Nat) (addr : Option Nat)
  | munmap (addr : Nat) (size : Nat)
  | rga (op : RgaOp) (src dst : RkDmaBuffer)
  | malloc_payload (size : Nat)
  | memcpy_payload (addr : Nat) (size : Nat)
  | mpp_enc_cfg (width height hor_stride ver_stride quant : Int)
  | mpp_control
  | malloc_pkt (size : Nat)
  | free_pkt
  | mpp_buffer_import (fd : Int) (size : Nat)
  | mpp_buffer_get (size : Nat)
  | mpp_buffer_put
  | memcpy_frame (dst_off src_off : Int) (len : Nat)
  | mpp_frame_init (width height hor_stride ver_stride : Int)
  | mpp_frame_deinit
  | mpp_packet_init (size : Nat)
  | mpp_packet_deinit
  | encode_put_frame
  | encode_get_packet
  | mpp_reset
  | malloc_out (size : Nat)
  deriving DecidableEq, Repr

/-- The frame the compositor hands back: `getWidth()`, `getHeight()`, `getStride()`,
`getPixelFormat()` as stored into `int` fields, and `handle->data[0]` when the
native handle exists and carries at least one descriptor. -/
structure GraphicBuffer where
  width : Int
  height : Int
  stride : Int
  format : Int
  handle_fd : Option Int
  deriving DecidableEq, Repr

/-- The answers of the external collaborators during one call. -/
structure Env where
  /-- The `n`-th reading of `CLOCK_MONOTONIC`, in microseconds. -/
  clock : Nat → Nat
  /-- Oracle: `calloc(1, sizeof(RkScreenshotResult))` returns non-null. -/
  calloc_result_ok : Bool
  /-- Oracle: `getInternalDisplayToken()` returns a display. -/
  display_ok : Bool
  /-- Oracle: `getDisplayState` returns `NO_ERROR`. -/
  display_state_ok : Bool
  /-- Oracle: `captureDisplay` returns `NO_ERROR`. -/
  capture_display_ok : Bool
  /-- Oracle: `waitForResults()`: `none` when `result != NO_ERROR` or the buffer is null. -/
  capture_results : Option GraphicBuffer
  /-- The value returned by `dup`. -/
  dup_fd : Int
  /-- Oracle: `calloc(1, sizeof(RkDmaBuffer))` in `rk_sf_capture` returns non-null. -/
  sf_calloc_ok : Bool
  /-- The value returned by `open` on the CMA heap. -/
  open_cma : Int
  /-- The value returned by `open` on the system heap. -/
  open_system : Int
  /-- Oracle: `DMA_HEAP_IOCTL_ALLOC` for a length: the new descriptor, `none` on failure. -/
  heap_alloc : Nat → Option Int
  /-- Oracle: `calloc(1, sizeof(RkDmaBuffer))` in `rk_dmabuf_alloc` returns non-null. -/
  alloc_calloc_ok : Bool
  /-- The accelerator reports `IM_STATUS_SUCCESS` for the operation. -/
  rga_ok : RgaOp → Bool
  /-- Oracle: `mmap` for a descriptor and a length: the address, `none` for `MAP_FAILED`. -/
  mmap : Int → Nat → Option Nat
  /-- The byte read at an address of mapped memory. -/
  mem : Nat → Nat
  /-- Oracle: `malloc(res->size)` for the raw payload returns non-null. -/
  malloc_payload_ok : Bool
  /-- Oracle: `control(MPP_ENC_SET_CFG)` returns `MPP_OK`. -/
  mpp_control_ok : Bool
  /-- Oracle: `malloc(frame_size)` for the output packet returns non-null. -/
  malloc_pkt_ok : Bool
  /-- Oracle: `mpp_buffer_import`: returns `MPP_OK`, and leaves `frame_buf` non-null. -/
  mpp_import : Bool × Bool
  /-- Oracle: `mpp_buffer_get`: returns `MPP_OK`, and leaves `frame_buf` non-null. -/
  mpp_get : Bool × Bool
  /-- Oracle: `encode_put_frame` returns `MPP_OK`. -/
  put_frame_ok : Bool
  /-- Oracle: `encode_get_packet` returns `MPP_OK`. -/
  get_packet_ok : Bool
  /-- The packet after `encode_get_packet`: its bytes from `pos`, `none` when null. -/
  packet : Option (List Nat)
  /-- Oracle: `malloc(pkt_len)` for the encoded payload returns non-null. -/
  malloc_out_ok : Bool

/-- The struct `RkSurfaceFlingerContext`. -/
structure RkSurfaceFlingerContext where
  initialized : Bool
  total_captures : Nat
  total_time_us : Nat
  deriving DecidableEq, Repr

/-- The struct `RkRgaProcessor` (the mutex has no observable content). -/
structure RkRgaProcessor where
  initialized : Bool
  total_ops : Nat
  total_time_us : Nat
  deriving DecidableEq, Repr

/-- The struct `RkMppEncoder`; a pointer field is `true` when non-null. -/
structure RkMppEncoder where
  ctx : Bool
  api : Bool
  cfg : Bool
  buf_grp : Bool
  initialized : Bool
  deriving DecidableEq, Repr

/-- The struct `RkScreenshotContext`; `sf_ctx = true` points at `g_sf_ctx`. -/
structure RkScreenshotContext where
  initialized : Bool
  sf_ctx : Bool
  rga : RkRgaProcessor
  mpp : RkMppEncoder
  deriving DecidableEq, Repr

/-- The globals of the process, the clock position and the trace so far. -/
structure World where
  g_ctx : RkScreenshotContext
  g_sf_ctx : RkSurfaceFlingerContext
  g_heap_fd : Int
  ticks : Nat
  trace : List Event
  deriving DecidableEq, Repr

/-- Append one event to the trace. -/
def World.emit (w : World) (e : Event) : World := { w with trace := w.trace ++ [e] }

/-- Subtraction of two `uint64_t` values. -/
def sub64 (a b : Nat) : Nat := (a + 18446744073709551616 - b % 18446744073709551616) % 18446744073709551616

/-- Addition of two `uint64_t` values. -/
def add64 (a b : Nat) : Nat := (a + b) % 18446744073709551616

/-- The function `rk_get_time_us`: the reading and the advanced clock. -/
def rk_get_time_us (env : Env) (w : World) : Nat × World :=
  (env.clock w.ticks % 18446744073709551616, { w with ticks := w.ticks + 1 })

/-! ## Shared buffers (`rk_dmabuf_utils.cpp`) -/

/-- The static function `open_dma_heap`: the heap descriptor, or `-1`. -/
def open_dma_heap (env : Env) (w : World) : Int × World :=
  if w.g_heap_fd ≥ 0 then (w.g_heap_fd, w)
  else
    let w1 := { w with g_heap_fd := env.open_cma }.emit (Event.heap_open env.open_cma)
    if w1.g_heap_fd ≥ 0 then (w1.g_heap_fd, w1)
    else
      let w2 := { w1 with g_heap_fd := env.open_system }.emit
        (Event.heap_open env.open_system)
      if w2.g_heap_fd ≥ 0 then (w2.g_heap_fd, w2)
      else (-1, w2)

/-- The function `rk_dmabuf_alloc`; `none` is the null pointer. -/
def rk_dmabuf_alloc (env : Env) (w : World) (width height : Int) :
    Option RkDmaBuffer × World :=
  let h := open_dma_heap env w
  if h.1 < 0 then (none, h.2)
  else
    let size : Nat := (toU64 width * toU64 height * 4) % 18446744073709551616
    let w1 := h.2.emit (Event.heap_alloc size (env.heap_alloc size))
    match env.heap_alloc size with
    | none => (none, w1)
    | some fd =>
      if !env.alloc_calloc_ok then (none, w1.emit (Event.close fd))
      else
        (some { fd := fd, size := size, width := width, height := height,
                stride := width, format := RK_FORMAT_RGBA8888, vir_addr := 0 }, w1)

/-- The function `rk_dmabuf_map`: the returned address, the buffer afterwards. -/
def rk_dmabuf_map (env : Env) (w : World) (buf : Option RkDmaBuffer) :
    Nat × Option RkDmaBuffer × World :=
  match buf with
  | none => (0, none, w)
  | some b =>
    if b.vir_addr ≠ 0 then (b.vir_addr, some b, w)
    else if b.fd < 0 then (0, some b, w)
    else
      let w1 := w.emit (Event.mmap b.fd b.size (env.mmap b.fd b.size))
      match env.mmap b.fd b.size with
      | none => (0, some b, w1)
      | some addr => (addr, some { b with vir_addr := addr }, w1)

/-- The function `rk_dmabuf_unmap`: the buffer afterwards. -/
def rk_dmabuf_unmap (w : World) (buf : Option RkDmaBuffer) : Option RkDmaBuffer × World :=
  match buf with
  | none => (none, w)
  | some b =>
    if b.vir_addr = 0 then (some b, w)
    else (some { b with vir_addr := 0 }, w.emit (Event.munmap b.vir_addr b.size))

/-- The function `rk_dmabuf_free`: unmap if mapped, close the handle, free the struct. -/
def rk_dmabuf_free (w : World) (buf : Option RkDmaBuffer) : World :=
  match buf with
  | none => w
  | some b =>
    let u := if b.vir_addr ≠ 0 then rk_dmabuf_unmap w (some b) else (some b, w)
    let w1 := if b.fd ≥ 0 then u.2.emit (Event.close b.fd) else u.2
    w1.emit (Event.free_dmabuf b)

/-! ## Capture stage (`rk_surfaceflinger_capture.cpp`) -/

/-- The function `rk_sf_capture`; `ctx` and `out_buf` are `true` when non-null. -/
def rk_sf_capture (env : Env) (w : World) (ctx out_buf : Bool) :
    Except RkScreenshotError RkDmaBuffer × World :=
  if !ctx || !w.g_sf_ctx.initialized then (.error RKSS_ERROR_NOT_INITIALIZED, w)
  else if !out_buf then (.error RKSS_ERROR_INVALID_PARAM, w)
  else
    let t0 := rk_get_time_us env w
    let w0 := t0.2
    if !env.display_ok then (.error RKSS_ERROR_CAPTURE_FAILED, w0)
    else if !env.display_state_ok then (.error RKSS_ERROR_CAPTURE_FAILED, w0)
    else
      let w1 := w0.emit Event.capture_display
      if !env.capture_display_ok then (.error RKSS_ERROR_CAPTURE_FAILED, w1)
      else
        match env.capture_results with
        | none => (.error RKSS_ERROR_CAPTURE_FAILED, w1)
        | some buffer =>
          match buffer.handle_fd with
          | none => (.error RKSS_ERROR_CAPTURE_FAILED, w1)
          | some _ =>
            let fd := env.dup_fd
            let w2 := w1.emit (Event.dup fd)
            if fd < 0 then (.error RKSS_ERROR_CAPTURE_FAILED, w2)
            else
              if !env.sf_calloc_ok then (.error RKSS_ERROR_NO_MEMORY, w2.emit (Event.close fd))
              else
                let buf : RkDmaBuffer :=
                  { fd := fd, width := buffer.width, height := buffer.height,
                    stride := buffer.stride, format := buffer.format,
                    size := toU64 (mul32 (mul32 buffer.stride buffer.height) 4),
                    vir_addr := 0 }
                let t1 := rk_get_time_us env w2
                let elapsed := sub64 t1.1 t0.1
                let w3 := { t1.2 with g_sf_ctx :=
                  { t1.2.g_sf_ctx with
                    total_captures := add64 t1.2.g_sf_ctx.total_captures 1,
                    total_time_us := add64 t1.2.g_sf_ctx.total_time_us elapsed } }
                (.ok buf, w3)

/-! ## Transform stage (`rk_rga_processor.cpp`) -/

/-- The accelerator call chosen by `rk_rga_process` (lines 62-72). -/
def rga_select (src dst : RkDmaBuffer) (rotation : Int) : RgaOp :=
  if rotation = 90 then RgaOp.rotate90
  else if rotation = 180 then RgaOp.rotate180
  else if rotation = 270 then RgaOp.rotate270
  else if src.width = dst.width ∧ src.height = dst.height then RgaOp.copy
  else RgaOp.resize

/-- The function `rk_rga_process` on `g_ctx.rga`; `proc` is `true` when non-null. -/
def rk_rga_process (env : Env) (w : World) (proc : Bool)
    (src dst : Option RkDmaBuffer) (rotation : Int) : RkScreenshotError × World :=
  if !proc || !w.g_ctx.rga.initialized then (RKSS_ERROR_NOT_INITIALIZED, w)
  else
    match src, dst with
    | some s, some d =>
      if s.fd < 0 ∨ d.fd < 0 then (RKSS_ERROR_INVALID_PARAM, w)
      else
        let t0 := rk_get_time_us env w
        let op := rga_select s d rotation
        let w1 := t0.2.emit (Event.rga op s d)
        let t1 := rk_get_time_us env w1
        let elapsed := sub64 t1.1 t0.1
        let w2 := { t1.2 with g_ctx := { t1.2.g_ctx with rga :=
          { t1.2.g_ctx.rga with
            total_ops := add64 t1.2.g_ctx.rga.total_ops 1,
            total_time_us := add64 t1.2.g_ctx.rga.total_time_us elapsed } } }
        if !env.rga_ok op then (RKSS_ERROR_RGA_FAILED, w2)
        else (RKSS_SUCCESS, w2)
    | _, _ => (RKSS_ERROR_INVALID_PARAM, w)

/-! ## Encode stage (`rk_mpp_encoder.cpp`) -/

/-- What `rk_mpp_encode_jpeg` leaves behind: the return code, what was stored through
`out_data` and `out_size` (`none`: not written), the source buffer and the world. -/
structure EncodeOutcome where
  err : RkScreenshotError
  out_data : Option (Option (List Nat))
  out_size : Option Nat
  src : Option RkDmaBuffer
  world : World

/-- The local `frame_size`: `(size_t)hor_stride_bytes * ver_stride_aligned`. -/
def frame_size (src : RkDmaBuffer) : Nat :=
  (toU64 (hor_stride_bytes src) * toU64 (ver_stride_aligned src)) % 18446744073709551616

/-- The copy of lines 162-177: one `memcpy` when the strides agree, else one per row. -/
def copy_rows (src : RkDmaBuffer) : List Event :=
  let src_stride := mul32 src.width 4
  if hor_stride_bytes src = src_stride then
    [Event.memcpy_frame 0 0 (toU64 (mul32 src.height src_stride))]
  else
    (List.range src.height.toNat).map (fun y =>
      Event.memcpy_frame ((y : Int) * hor_stride_bytes src) ((y : Int) * src_stride)
        (toU64 src_stride))

/-- The label `cleanup` of `rk_mpp_encode_jpeg` (lines 228-245). -/
def mpp_cleanup (w : World) (frame frame_buf packet : Bool) : World :=
  let w1 := if w.g_ctx.mpp.api && w.g_ctx.mpp.ctx then w.emit Event.mpp_reset else w
  let w2 := if frame then w1.emit Event.mpp_frame_deinit else w1
  let w3 := if frame_buf then w2.emit Event.mpp_buffer_put else w2
  let w4 := if packet then w3.emit Event.mpp_packet_deinit else w3
  w4.emit Event.free_pkt

/-- Lines 181-247 of `rk_mpp_encode_jpeg`: frame and packet set-up, the submission,
the retrieval, the copy of the packet and the clean-up. -/
def encode_submit (env : Env) (w : World) (s : RkDmaBuffer) (src : Option RkDmaBuffer)
    (frame_buf : Bool) : EncodeOutcome :=
  let w1 := (w.emit (Event.mpp_frame_init s.width s.height (hor_stride_aligned s)
    (ver_stride_aligned s))).emit (Event.mpp_packet_init (frame_size s))
  let w2 := w1.emit Event.encode_put_frame
  if !env.put_frame_ok then
    ⟨RKSS_ERROR_ENCODE_FAILED, none, none, src, mpp_cleanup w2 true frame_buf true⟩
  else
    let w3 := w2.emit Event.encode_get_packet
    match env.get_packet_ok, env.packet with
    | true, some bytes =>
      let pkt_len := bytes.length
      let w4 := w3.emit (Event.malloc_out pkt_len)
      if !env.malloc_out_ok then
        ⟨RKSS_ERROR_NO_MEMORY, some none, none, src, mpp_cleanup w4 true frame_buf true⟩
      else
        let t := rk_get_time_us env w4
        ⟨RKSS_SUCCESS, some (some bytes), some pkt_len, src,
          mpp_cleanup t.2 true frame_buf true⟩
    | _, p =>
      ⟨RKSS_ERROR_ENCODE_FAILED, none, none, src, mpp_cleanup w3 true frame_buf p.isSome⟩

/-- The function `rk_mpp_encode_jpeg` on `g_ctx.mpp`; `enc`, `out_data` and `out_size`
are `true` when non-null. -/
def rk_mpp_encode_jpeg (env : Env) (w : World) (enc : Bool) (src : Option RkDmaBuffer)
    (out_data out_size : Bool) (quality : Int) : EncodeOutcome :=
  if !enc || !w.g_ctx.mpp.initialized then ⟨RKSS_ERROR_NOT_INITIALIZED, none, none, src, w⟩
  else
    match src with
    | none => ⟨RKSS_ERROR_INVALID_PARAM, none, none, src, w⟩
    | some s =>
      if !out_data || !out_size then ⟨RKSS_ERROR_INVALID_PARAM, none, none, src, w⟩
      else
        let t0 := rk_get_time_us env w
        let zero_copy := zero_copy_flag s
        let w1 := (t0.2.emit (Event.mpp_enc_cfg s.width s.height (hor_stride_bytes s)
          (ver_stride_aligned s) (mpp_quant quality))).emit Event.mpp_control
        if !env.mpp_control_ok then ⟨RKSS_ERROR_ENCODE_FAILED, none, none, src, w1⟩
        else
          let w2 := w1.emit (Event.malloc_pkt (frame_size s))
          if !env.malloc_pkt_ok then ⟨RKSS_ERROR_NO_MEMORY, none, none, src, w2⟩
          else
            let w3 := if zero_copy then w2.emit (Event.mpp_buffer_import s.fd s.size) else w2
            let zero_copy1 := zero_copy && env.mpp_import.1 && env.mpp_import.2
            if zero_copy1 then encode_submit env w3 s src true
            else
              let w4 := w3.emit (Event.mpp_buffer_get (frame_size s))
              if !env.mpp_get.1 || !env.mpp_get.2 then
                ⟨RKSS_ERROR_NO_MEMORY, none, none, src, w4.emit Event.free_pkt⟩
              else
                let m := rk_dmabuf_map env w4 src
                if m.1 = 0 then
                  ⟨RKSS_ERROR_ENCODE_FAILED, none, none, m.2.1,
                    (m.2.2.emit Event.mpp_buffer_put).emit Event.free_pkt⟩
                else
                  let w5 := { m.2.2 with trace := m.2.2.trace ++ copy_rows s }
                  let u := rk_dmabuf_unmap w5 m.2.1
                  encode_submit env u.2 s u.1 true

/-! ## Orchestrator (`rk_screenshot.cpp`) -/

/-- What `rk_screenshot_capture` leaves behind: the return code, what was stored
through `result` (`none`: `*result` was not written) and the world. -/
structure CaptureOutcome where
  err : RkScreenshotError
  result : Option RkScreenshotResult
  world : World

/-- The result struct as `calloc` returns it. -/
def zero_result : RkScreenshotResult :=
  { data := none, size := 0, width := 0, height := 0, format := 0, timestamp_us := 0,
    capture_time_us := 0, process_time_us := 0, encode_time_us := 0, total_time_us := 0,
    reserved := List.replicate 8 0 }

/-- The local `need_scale` of `rk_screenshot_capture` (lines 117-119). -/
def need_scale (cfg : RkScreenshotConfig) (capture_buf : RkDmaBuffer) : Bool :=
  (decide (cfg.scale_width > 0) && decide (cfg.scale_height > 0)) &&
  (decide (cfg.scale_width ≠ capture_buf.width) ||
   decide (cfg.scale_height ≠ capture_buf.height))

/-- The epilogue of `rk_screenshot_capture` (lines 184-203). -/
def capture_finish (env : Env) (w : World) (cfg : RkScreenshotConfig)
    (res : RkScreenshotResult) (process_buf : RkDmaBuffer) (t_start : Nat) :
    CaptureOutcome :=
  let res1 := { res with width := process_buf.width, height := process_buf.height,
                         format := cfg.format, timestamp_us := toI64 t_start }
  let w1 := rk_dmabuf_free w (some process_buf)
  let t_end := rk_get_time_us env w1
  ⟨RKSS_SUCCESS, some res1, t_end.2⟩

/-- Stage 3 of `rk_screenshot_capture` (lines 149-182), followed by the epilogue. -/
def capture_output (env : Env) (w : World) (cfg : RkScreenshotConfig)
    (res : RkScreenshotResult) (process_buf : RkDmaBuffer) (t_start : Nat) :
    CaptureOutcome :=
  if cfg.format = RK_FORMAT_JPEG then
    let t_enc := rk_get_time_us env w
    let e := rk_mpp_encode_jpeg env t_enc.2 true (some process_buf) true true cfg.quality
    let pb := e.src.getD process_buf
    let res1 := { res with data := e.out_data.getD res.data,
                           size := e.out_size.getD res.size }
    if e.err ≠ RKSS_SUCCESS then
      ⟨e.err, none, (rk_dmabuf_free e.world (some pb)).emit Event.free_result⟩
    else
      let t1 := rk_get_time_us env e.world
      let res2 := { res1 with encode_time_us := toI64 (sub64 t1.1 t_enc.1) }
      capture_finish env t1.2 cfg res2 pb t_start
  else
    let m := rk_dmabuf_map env w (some process_buf)
    let vir := m.1
    let pb := m.2.1.getD process_buf
    if vir = 0 then
      ⟨RKSS_ERROR_CAPTURE_FAILED, none,
        (rk_dmabuf_free m.2.2 (some pb)).emit Event.free_result⟩
    else
      let res1 := { res with size := pb.size }
      let w1 := m.2.2.emit (Event.malloc_payload res1.size)
      if !env.malloc_payload_ok then
        ⟨RKSS_ERROR_NO_MEMORY, none, (rk_dmabuf_free w1 (some pb)).emit Event.free_result⟩
      else
        let payload := (List.range res1.size).map (fun i => env.mem (vir + i))
        let res2 := { res1 with data := some payload }
        capture_finish env (w1.emit (Event.memcpy_payload vir res1.size)) cfg res2 pb t_start

/-- Stage 2 of `rk_screenshot_capture` (lines 115-147), followed by the rest. -/
def capture_transform (env : Env) (w : World) (cfg : RkScreenshotConfig)
    (res : RkScreenshotResult) (capture_buf : RkDmaBuffer) (t_start : Nat) :
    CaptureOutcome :=
  if need_scale cfg capture_buf then
    let t_rga := rk_get_time_us env w
    let a := rk_dmabuf_alloc env t_rga.2 cfg.scale_width cfg.scale_height
    match a.1 with
    | none =>
      ⟨RKSS_ERROR_NO_MEMORY, none,
        (rk_dmabuf_free a.2 (some capture_buf)).emit Event.free_result⟩
    | some scaled_buf =>
      let r := rk_rga_process env a.2 true (some capture_buf) (some scaled_buf) cfg.rotation
      if r.1 ≠ RKSS_SUCCESS then
        ⟨r.1, none, (rk_dmabuf_free (rk_dmabuf_free r.2 (some scaled_buf))
          (some capture_buf)).emit Event.free_result⟩
      else
        let t1 := rk_get_time_us env r.2
        let res1 := { res with process_time_us := toI64 (sub64 t1.1 t_rga.1) }
        let w1 := rk_dmabuf_free t1.2 (some capture_buf)
        capture_output env w1 cfg res1 scaled_buf t_start
  else
    capture_output env w cfg res capture_buf t_start

/-- The function `rk_screenshot_capture`; `cfg = none` is a null config pointer and
`result` is `true` when the result pointer is non-null. -/
def rk_screenshot_capture (env : Env) (w : World) (cfg : Option RkScreenshotConfig)
    (result : Bool) : CaptureOutcome :=
  if !w.g_ctx.initialized then ⟨RKSS_ERROR_NOT_INITIALIZED, none, w⟩
  else
    match cfg with
    | none => ⟨RKSS_ERROR_INVALID_PARAM, none, w⟩
    | some c =>
      if !result then ⟨RKSS_ERROR_INVALID_PARAM, none, w⟩
      else
        let t_start := rk_get_time_us env w
        if !env.calloc_result_ok then ⟨RKSS_ERROR_NO_MEMORY, none, t_start.2⟩
        else
          let w0 := t_start.2.emit Event.calloc_result
          let t_capture := rk_get_time_us env w0
          let s := rk_sf_capture env t_capture.2 w.g_ctx.sf_ctx true
          match s.1 with
          | .error err => ⟨err, none, s.2.emit Event.free_result⟩
          | .ok capture_buf =>
            let t1 := rk_get_time_us env s.2
            let res := { zero_result with
              capture_time_us := toI64 (sub64 t1.1 t_capture.1) }
            capture_transform env t1.2 c res capture_buf t_start.1

/-! ## Concrete scenarios -/

/-- The globals once `rk_screenshot_init` has succeeded, before any capture. -/
def ready_world : World :=
  { g_ctx := { initialized := true, sf_ctx := true,
               rga := { initialized := true, total_ops := 0, total_time_us := 0 },
               mpp := { ctx := true, api := true, cfg := true, buf_grp := false,
                        initialized := true } },
    g_sf_ctx := { initialized := true, total_captures := 0, total_time_us := 0 },
    g_heap_fd := -1, ticks := 0, trace := [] }

/-- Back ends that all succeed on a display of the given geometry; the clock
advances by 100 microseconds per reading. -/
def display_env (width height stride : Int) : Env :=
  { clock := fun n => 1000 + 100 * n,
    calloc_result_ok := true,
    display_ok := true, display_state_ok := true, capture_display_ok := true,
    capture_results := some { width := width, height := height, stride := stride,
                              format := 1, handle_fd := some 7 },
    dup_fd := 8, sf_calloc_ok := true,
    open_cma := 5, open_system := 6,
    heap_alloc := fun _ => some 9, alloc_calloc_ok := true,
    rga_ok := fun _ => true,
    mmap := fun _ _ => some 4096, mem := fun _ => 0,
    malloc_payload_ok := true,
    mpp_control_ok := true, malloc_pkt_ok := true,
    mpp_import := (true, true), mpp_get := (true, true),
    put_frame_ok := true, get_packet_ok := true,
    packet := some [255, 216, 255, 217], malloc_out_ok := true }

/-- The request written by `rk_screenshot_get_default_config` (lines 78-85). -/
def default_config : RkScreenshotConfig :=
  { width := 1920, height := 1080, format := RK_FORMAT_RGBA8888, quality := 90,
    rotation := 0, flip_vertical := false, flip_horizontal := false,
    crop_x := 0, crop_y := 0, crop_width := 0, crop_height := 0,
    scale_width := 0, scale_height := 0, enable_npu_enhance := false,
    timeout_ms := 0, reserved := List.replicate 8 0 }

/-! ## Observations on traces -/

/-- The quantization level carried by an encoder configuration call. -/
def Event.quant : Event → Option Int
  | .mpp_enc_cfg _ _ _ _ q => some q
  | _ => none

/-- The quantization levels handed to the encoder configuration, in program order. -/
def quant_levels (t : List Event) : List Int := t.filterMap Event.quant

/-- The calls only the transform stage makes: opening the DMA-HEAP, allocating the
destination from it, and the accelerator operation. -/
def Event.is_transform : Event → Bool
  | .heap_open _ => true
  | .heap_alloc _ _ => true
  | .rga _ _ _ => true
  | _ => false

/-- The transform-stage calls of a trace, in program order. -/
def transform_calls (t : List Event) : List Event := t.filter Event.is_transform

/-- The operation of an accelerator call. -/
def Event.rga_op : Event → Option RgaOp
  | .rga op _ _ => some op
  | _ => none

/-- The accelerator operations issued, in program order. -/
def rga_ops (t : List Event) : List RgaOp := t.filterMap Event.rga_op

/-! ## Lifecycle (`rk_screenshot.cpp`, lines 66-76) -/

/-- The function `rk_sf_deinit` on `g_sf_ctx`; `ctx` is `true` when non-null. -/
def rk_sf_deinit (w : World) (ctx : Bool) : World :=
  if !ctx || !w.g_sf_ctx.initialized then w
  else { w with g_sf_ctx := { w.g_sf_ctx with initialized := false } }

/-- The function `rk_rga_deinit` on `g_ctx.rga`; `proc` is `true` when non-null. -/
def rk_rga_deinit (w : World) (proc : Bool) : World :=
  if !proc || !w.g_ctx.rga.initialized then w
  else { w with g_ctx := { w.g_ctx with rga := { w.g_ctx.rga with initialized := false } } }

/-- The function `rk_mpp_deinit` on `g_ctx.mpp`; `enc` is `true` when non-null. -/
def rk_mpp_deinit (w : World) (enc : Bool) : World :=
  if !enc || !w.g_ctx.mpp.initialized then w
  else
    let m := w.g_ctx.mpp
    let m1 := if m.cfg then { m with cfg := false } else m
    let m2 := if m1.ctx then { m1 with ctx := false, api := false } else m1
    { w with g_ctx := { w.g_ctx with mpp := { m2 with initialized := false } } }

/-- The function `rk_screenshot_deinit`. -/
def rk_screenshot_deinit (w : World) : World :=
  if !w.g_ctx.initialized then w
  else
    let w1 := rk_mpp_deinit w true
    let w2 := rk_rga_deinit w1 true
    let w3 := rk_sf_deinit w2 w2.g_ctx.sf_ctx
    { w3 with g_ctx := { w3.g_ctx with sf_ctx := false, initialized := false } }

/-- The globals at program start: `g_ctx` and `g_sf_ctx` are zero-initialized and
`g_heap_fd` is `-1`. -/
def initial_world : World :=
  { g_ctx := { initialized := false, sf_ctx := false,
               rga := { initialized := false, total_ops := 0, total_time_us := 0 },
               mpp := { ctx := false, api := false, cfg := false, buf_grp := false,
                        initialized := false } },
    g_sf_ctx := { initialized := false, total_captures := 0, total_time_us := 0 },
    g_heap_fd := -1, ticks := 0, trace := [] }

/-! ## The copy path of the encoder -/

/-- The copy path of `rk_mpp_encode_jpeg` (lines 143-247), entered with the local
`zero_copy` false: pool buffer, map, copy, unmap, then submission and clean-up. -/
def encode_copy (env : Env) (w : World) (s : RkDmaBuffer) : EncodeOutcome :=
  let w4 := w.emit (Event.mpp_buffer_get (frame_size s))
  if !env.mpp_get.1 || !env.mpp_get.2 then
    ⟨RKSS_ERROR_NO_MEMORY, none, none, some s, w4.emit Event.free_pkt⟩
  else
    let m := rk_dmabuf_map env w4 (some s)
    if m.1 = 0 then
      ⟨RKSS_ERROR_ENCODE_FAILED, none, none, m.2.1,
        (m.2.2.emit Event.mpp_buffer_put).emit Event.free_pkt⟩
    else
      let w5 := { m.2.2 with trace := m.2.2.trace ++ copy_rows s }
      let u := rk_dmabuf_unmap w5 m.2.1
      encode_submit env u.2 s u.1 true

/-- The bytes of the encoder's frame buffer after one traced call: a `memcpy_frame`
copies `len` bytes of the mapped source, from offset `src_off`, to offset `dst_off`. -/
def Event.write_frame (src dst : Int → Nat) : Event → Int → Nat
  | .memcpy_frame dst_off src_off len =>
    fun i => if dst_off ≤ i ∧ i < dst_off + len then src (src_off + (i - dst_off)) else dst i
  | _ => dst

/-- The bytes of the encoder's frame buffer after the calls of a trace, in order. -/
def frame_after (src dst : Int → Nat) (t : List Event) : Int → Nat :=
  t.foldl (fun d e => e.write_frame src d) dst

/-! ## Resource accounting on traces -/

/-- The sum of a weight over the calls of a trace. -/
def tally (f : Event → Int) (t : List Event) : Int := (t.map f).sum

/-- The change one call makes to the number of open descriptors equal to `fd`: `dup`
and a DMA-HEAP allocation open one, `close` closes one; negative values are not
descriptors. -/
def Event.handle_delta (fd : Int) : Event → Int
  | .dup g => if g = fd ∧ 0 ≤ g then 1 else 0
  | .heap_alloc _ (some g) => if g = fd ∧ 0 ≤ g then 1 else 0
  | .close g => if g = fd ∧ 0 ≤ g then -1 else 0
  | _ => 0

/-- The number of buffer descriptors equal to `fd` a trace leaves open. -/
def open_handles (fd : Int) (t : List Event) : Int := tally (Event.handle_delta fd) t

/-- One for the release of a buffer struct whose descriptor is `fd`. -/
def Event.release_of (fd : Int) : Event → Int
  | .free_dmabuf b => if b.fd = fd then 1 else 0
  | _ => 0

/-- The number of buffer structs with descriptor `fd` that `rk_dmabuf_free` released. -/
def released (fd : Int) (t : List Event) : Int := tally (Event.release_of fd) t

/-- The change one call makes to the number of live result structs. -/
def Event.result_delta : Event → Int
  | .calloc_result => 1
  | .free_result => -1
  | _ => 0

/-- The number of result structs a trace leaves allocated. -/
def live_results (t : List Event) : Int := tally Event.result_delta t

/-- The calls that take part in the accounting of buffers and result structs. -/
def Event.is_resource : Event → Bool
  | .dup _ => true
  | .heap_alloc _ _ => true
  | .close _ => true
  | .free_dmabuf _ => true
  | .calloc_result => true
  | .free_result => true
  | _ => false

/-- The number of calls of a trace that satisfy a test. -/
def calls (p : Event → Bool) (t : List Event) : Nat := (t.filter p).length

/-- A weight that accounts for resources: it is silent on every other call, a value
that is not a descriptor weighs nothing, opening and then closing a descriptor cancels,
and the release of a buffer struct is weighed by its descriptor alone. -/
def Accounts (f : Event → Int) : Prop :=
  (∀ e : Event, e.is_resource = false → f e = 0) ∧
  (∀ g : Int, g < 0 → f (Event.dup g) = 0 ∧ f (Event.close g) = 0) ∧
  (∀ g : Int, 0 ≤ g → f (Event.dup g) + f (Event.close g) = 0) ∧
  (∀ len : Nat, f (Event.heap_alloc len none) = 0) ∧
  (∀ (len : Nat) (g : Int), f (Event.heap_alloc len (some g)) + f (Event.close g) = 0) ∧
  (∀ (b : RkDmaBuffer) (v : Nat),
    f (Event.free_dmabuf { b with vir_addr := v }) = f (Event.free_dmabuf b))

/-- The buffers the stages hand to the orchestrator during one call: the captured
buffer, and the destination of the transform stage when it is allocated. -/
def obtained_buffers (env : Env) (w : World) (cfg : Option RkScreenshotConfig)
    (result : Bool) : List RkDmaBuffer :=
  if !w.g_ctx.initialized then []
  else
    match cfg with
    | none => []
    | some c =>
      if !result || !env.calloc_result_ok then []
      else
        match (rk_sf_capture env w w.g_ctx.sf_ctx true).1 with
        | .error _ => []
        | .ok buf =>
          buf :: (if need_scale c buf then
            (rk_dmabuf_alloc env w c.scale_width c.scale_height).1.toList else [])

/-! ## Encoder steps on traces -/

/-- The world when `rk_mpp_encode_jpeg` reaches line 127: after the clock reading, the
configuration, the control call and the allocation of the output packet buffer. -/
def encode_entry (env : Env) (w : World) (s : RkDmaBuffer) (quality : Int) : World :=
  (((rk_get_time_us env w).2.emit (Event.mpp_enc_cfg s.width s.height (hor_stride_bytes s)
    (ver_stride_aligned s) (mpp_quant quality))).emit Event.mpp_control).emit
      (Event.malloc_pkt (frame_size s))

/-- The frame submission `encode_put_frame`. -/
def Event.is_submission : Event → Bool
  | .encode_put_frame => true
  | _ => false

/-- The packet retrieval `encode_get_packet`. -/
def Event.is_retrieval : Event → Bool
  | .encode_get_packet => true
  | _ => false

/-- The allocation of the output packet buffer, `malloc(frame_size)`. -/
def Event.is_packet_alloc : Event → Bool
  | .malloc_pkt _ => true
  | _ => false

/-- The allocation of the frame buffer from the encoder's pool, `mpp_buffer_get`. -/
def Event.is_pool_alloc : Event → Bool
  | .mpp_buffer_get _ => true
  | _ => false

/-- The allocation of the output payload, `malloc(pkt_len)`. -/
def Event.is_payload_alloc : Event → Bool
  | .malloc_out _ => true
  | _ => false

/-- The steps of the encoder the failure taxonomy speaks about. -/
def Event.is_encoder_step (e : Event) : Bool :=
  e.is_submission || e.is_retrieval || e.is_packet_alloc || e.is_pool_alloc ||
    e.is_payload_alloc

/-! ## Alignment as the spec words it -/

/-- The spec's alignment: `aligned(n) = ceil(n / 16) * 16`. -/
def spec_aligned (n : Int) : Int := Int.ceil ((n : ℚ) / 16) * 16

/-! ## Lifecycle: initialisation (`rk_screenshot.cpp`, lines 24-64) -/

/-- The answers of the vendor libraries during `rk_screenshot_init`. -/
structure InitEnv where
  /-- Oracle: `querystring(RGA_VERSION)` returns non-null. -/
  rga_version_ok : Bool
  /-- Oracle: `mpp_create` returns `MPP_OK` (and sets `ctx` and `api`). -/
  mpp_create_ok : Bool
  /-- Oracle: `mpp_init` returns `MPP_OK`. -/
  mpp_init_ok : Bool
  /-- Oracle: `mpp_enc_cfg_init` returns `MPP_OK` (and sets `cfg`). -/
  mpp_enc_cfg_init_ok : Bool
  deriving DecidableEq, Repr

/-- The function `rk_sf_init`, called with `&g_ctx.sf_ctx`; `out_ctx` is `true` when
non-null. -/
def rk_sf_init (w : World) (out_ctx : Bool) : RkScreenshotError × World :=
  if !out_ctx then (RKSS_ERROR_INVALID_PARAM, w)
  else if w.g_sf_ctx.initialized then
    (RKSS_SUCCESS, { w with g_ctx := { w.g_ctx with sf_ctx := true } })
  else
    (RKSS_SUCCESS,
      { w with
        g_sf_ctx := { initialized := true, total_captures := 0, total_time_us := 0 },
        g_ctx := { w.g_ctx with sf_ctx := true } })

/-- The function `rk_rga_init` on `g_ctx.rga`; `proc` is `true` when non-null. -/
def rk_rga_init (ienv : InitEnv) (w : World) (proc : Bool) : RkScreenshotError × World :=
  if !proc then (RKSS_ERROR_INVALID_PARAM, w)
  else
    let w1 := { w with g_ctx := { w.g_ctx with
      rga := { initialized := false, total_ops := 0, total_time_us := 0 } } }
    if !ienv.rga_version_ok then (RKSS_ERROR_RGA_FAILED, w1)
    else
      (RKSS_SUCCESS,
        { w1 with g_ctx := { w1.g_ctx with rga := { w1.g_ctx.rga with initialized := true } } })

/-- The function `rk_mpp_init` on `g_ctx.mpp`; `enc` is `true` when non-null. After a
failing `mpp_init` or `mpp_enc_cfg_init` the context is destroyed and `enc->ctx` keeps its
value. -/
def rk_mpp_init (ienv : InitEnv) (w : World) (enc : Bool) : RkScreenshotError × World :=
  if !enc then (RKSS_ERROR_INVALID_PARAM, w)
  else
    let m0 : RkMppEncoder :=
      { ctx := false, api := false, cfg := false, buf_grp := false, initialized := false }
    if !ienv.mpp_create_ok then
      (RKSS_ERROR_ENCODE_FAILED, { w with g_ctx := { w.g_ctx with mpp := m0 } })
    else
      let m1 := { m0 with ctx := true, api := true }
      if !ienv.mpp_init_ok then
        (RKSS_ERROR_ENCODE_FAILED, { w with g_ctx := { w.g_ctx with mpp := m1 } })
      else if !ienv.mpp_enc_cfg_init_ok then
        (RKSS_ERROR_ENCODE_FAILED, { w with g_ctx := { w.g_ctx with mpp := m1 } })
      else
        (RKSS_SUCCESS,
          { w with g_ctx := { w.g_ctx with
            mpp := { m1 with cfg := true, initialized := true } } })

/-- The function `rk_screenshot_init`. -/
def rk_screenshot_init (ienv : InitEnv) (w : World) : RkScreenshotError × World :=
  if w.g_ctx.initialized then (RKSS_SUCCESS, w)
  else
    let s := rk_sf_init w true
    if s.1 ≠ RKSS_SUCCESS then (s.1, s.2)
    else
      let r := rk_rga_init ienv s.2 true
      if r.1 ≠ RKSS_SUCCESS then (r.1, rk_sf_deinit r.2 r.2.g_ctx.sf_ctx)
      else
        let m := rk_mpp_init ienv r.2 true
        if m.1 ≠ RKSS_SUCCESS then
          let w1 := rk_rga_deinit m.2 true
          (m.1, rk_sf_deinit w1 w1.g_ctx.sf_ctx)
        else
          (RKSS_SUCCESS, { m.2 with g_ctx := { m.2.g_ctx with initialized := true } })

/-- Vendor libraries that all answer with success. -/
def vendor_ok : InitEnv :=
  { rga_version_ok := true, mpp_create_ok := true, mpp_init_ok := true,
    mpp_enc_cfg_init_ok := true }

/-! ## Default request (`rk_screenshot.cpp`, lines 78-85) -/

/-- A request after `memset(cfg, 0, sizeof(*cfg))`. -/
def zero_config : RkScreenshotConfig :=
  { width := 0, height := 0, format := 0, quality := 0, rotation := 0,
    flip_vertical := false, flip_horizontal := false,
    crop_x := 0, crop_y := 0, crop_width := 0, crop_height := 0,
    scale_width := 0, scale_height := 0, enable_npu_enhance := false,
    timeout_ms := 0, reserved := List.replicate 8 0 }

/-- The function `rk_screenshot_get_default_config`: the request behind `cfg`
afterwards; `none` is the null pointer. -/
def rk_screenshot_get_default_config (cfg : Option RkScreenshotConfig) :
    Option RkScreenshotConfig :=
  match cfg with
  | none => none
  | some _ =>
    some { zero_config with width := 1920, height := 1080, format := RK_FORMAT_RGBA8888,
                            quality := 90 }

/-! ## Further observations on traces -/

/-- A successful `mmap`. -/
def Event.is_mapping : Event → Bool
  | .mmap _ _ (some _) => true
  | _ => false

/-- The calls only the encode stage makes. -/
def Event.is_encode : Event → Bool
  | .mpp_enc_cfg _ _ _ _ _ => true
  | .mpp_control => true
  | .malloc_pkt _ => true
  | .free_pkt => true
  | .mpp_buffer_import _ _ => true
  | .mpp_buffer_get _ => true
  | .mpp_buffer_put => true
  | .memcpy_frame _ _ _ => true
  | .mpp_frame_init _ _ _ _ => true
  | .mpp_frame_deinit => true
  | .mpp_packet_init _ => true
  | .mpp_packet_deinit => true
  | .encode_put_frame => true
  | .encode_get_packet => true
  | .mpp_reset => true
  | .malloc_out _ => true
  | _ => false

/-- The release of the output packet buffer, `free(pkt_data)`. -/
def Event.is_packet_free : Event → Bool
  | .free_pkt => true
  | _ => false

/-- The release of a frame buffer, `mpp_buffer_put`. -/
def Event.is_buffer_put : Event → Bool
  | .mpp_buffer_put => true
  | _ => false

/-- The creation of the frame, `mpp_frame_init`. -/
def Event.is_frame_init : Event → Bool
  | .mpp_frame_init _ _ _ _ => true
  | _ => false

/-- The release of the frame, `mpp_frame_deinit`. -/
def Event.is_frame_deinit : Event → Bool
  | .mpp_frame_deinit => true
  | _ => false

/-- The creation of the packet, `mpp_packet_init`. -/
def Event.is_packet_init : Event → Bool
  | .mpp_packet_init _ => true
  | _ => false

/-- The release of the packet, `mpp_packet_deinit`. -/
def Event.is_packet_deinit : Event → Bool
  | .mpp_packet_deinit => true
  | _ => false

/-- The reset of the encoder context. -/
def Event.is_reset : Event → Bool
  | .mpp_reset => true
  | _ => false

/-! ## Defined behaviour and buffer invariant -/

/-- C `int` multiplication where the C standard defines it: `none` on signed overflow. -/
def checked_mul32 (a b : Int) : Option Int :=
  if INT32_MIN ≤ a * b ∧ a * b ≤ INT32_MAX then some (a * b) else none

/-- C `int` addition where the C standard defines it: `none` on signed overflow. -/
def checked_add32 (a b : Int) : Option Int :=
  if INT32_MIN ≤ a + b ∧ a + b ≤ INT32_MAX then some (a + b) else none

/-- The local `mpp_quant` where the computation of line 94 is defined: `none` when
`quality * 10` or the sum with 50 overflows `int`, which is undefined behaviour. -/
def mpp_quant_checked (quality : Int) : Option Int :=
  (checked_mul32 quality 10).bind fun p =>
    (checked_add32 p 50).map fun s =>
      let q0 := Int.tdiv s 100
      let q1 := if q0 < 1 then 1 else q0
      if q1 > 10 then 10 else q1

/-- The invariant of the shared buffers the code builds: a buffer with a mapped view has
a valid handle. -/
def RkDmaBuffer.view_has_handle (b : RkDmaBuffer) : Bool :=
  decide (b.vir_addr = 0) || decide (b.fd ≥ 0)

/-! ## Machine-integer lemmas -/

theorem wrap32_of_fits (x : Int) (h1 : -2147483648 ≤ x) (h2 : x ≤ 2147483647) :
    wrap32 x = x := by
  unfold wrap32; omega

theorem wrap32_range (x : Int) : -2147483648 ≤ wrap32 x ∧ wrap32 x ≤ 2147483647 := by
  unfold wrap32; omega

theorem wrap32_add_wrap32 (a b : Int) : wrap32 (wrap32 a + b) = wrap32 (a + b) := by
  unfold wrap32; omega

theorem wrap32_mul10 (a : Int) : wrap32 (wrap32 a * 10) = wrap32 (a * 10) := by
  unfold wrap32; omega

theorem tdiv_of_nonneg (a b : Int) (ha : 0 ≤ a) (hb : 0 ≤ b) : Int.tdiv a b = a / b :=
  Int.tdiv_eq_ediv ha hb

theorem tdiv_of_neg (a b : Int) (ha : a ≤ 0) (hb : 0 ≤ b) : Int.tdiv a b = -((-a) / b) := by
  have h := Int.tdiv_eq_ediv (a := -a) (b := b) (by omega) hb
  rw [Int.neg_tdiv] at h
  omega

/-- Within `0 ≤ n ≤ INT32_MAX - 15` the alignment is computed without overflow. -/
theorem align16_eq (n : Int) (h0 : 0 ≤ n) (h1 : n ≤ INT32_MAX - 15) :
    align16 n = (n + 15) / 16 * 16 := by
  unfold INT32_MAX at h1
  unfold align16 mul32 div32 add32
  rw [wrap32_of_fits (n + 15) (by omega) (by omega),
      tdiv_of_nonneg (n + 15) 16 (by omega) (by omega),
      wrap32_of_fits ((n + 15) / 16) (by omega) (by omega),
      wrap32_of_fits ((n + 15) / 16 * 16) (by omega) (by omega)]

/-- The quotient `(quality * 10 + 50) / 100` when the numerator fits a C `int`. -/
theorem mpp_quant_eq (q : Int) (h1 : INT32_MIN ≤ q * 10 + 50) (h2 : q * 10 + 50 ≤ INT32_MAX) :
    mpp_quant q = max 1 (min 10 (Int.tdiv (q * 10 + 50) 100)) := by
  unfold INT32_MIN at h1
  unfold INT32_MAX at h2
  have hq : div32 (add32 (mul32 q 10) 50) 100 = Int.tdiv (q * 10 + 50) 100 := by
    unfold div32 add32 mul32
    rw [wrap32_add_wrap32, wrap32_of_fits (q * 10 + 50) h1 h2]
    rcases le_total 0 (q * 10 + 50) with h | h
    · rw [tdiv_of_nonneg _ _ h (by omega)]
      exact wrap32_of_fits _ (by omega) (by omega)
    · rw [tdiv_of_neg _ _ h (by omega)]
      exact wrap32_of_fits _ (by omega) (by omega)
  unfold mpp_quant
  simp only [hq]
  split_ifs <;> omega

/-- Rounding a tenth of an integer, halves up, is a floored division. -/
theorem round_tenth (q : Int) : round ((q : ℚ) * 10 / 100) = (q * 10 + 50) / 100 := by
  rw [round_eq, Int.floor_eq_iff]
  have h1 : (q * 10 + 50) / 100 * 100 ≤ q * 10 + 50 := Int.ediv_mul_le _ (by norm_num)
  have h2 : q * 10 + 50 < ((q * 10 + 50) / 100 + 1) * 100 := Int.lt_ediv_add_one_mul_self _ (by norm_num)
  have h1q : (((q * 10 + 50) / 100 * 100 : Int) : ℚ) ≤ ((q * 10 + 50 : Int) : ℚ) := by exact_mod_cast h1
  have h2q : ((q * 10 + 50 : Int) : ℚ) < ((((q * 10 + 50) / 100 + 1) * 100 : Int) : ℚ) := by exact_mod_cast h2
  push_cast at h1q h2q
  constructor <;> linarith

/-! ## Trace lemmas: encoder configuration -/

@[simp]
theorem trace_clock (env : Env) (w : World) : (rk_get_time_us env w).2.trace = w.trace := rfl

theorem mpp_quant_range (quality : Int) : 1 ≤ mpp_quant quality ∧ mpp_quant quality ≤ 10 := by
  unfold mpp_quant
  simp only []
  split_ifs <;> omega

@[simp]
theorem quant_levels_append (a b : List Event) : quant_levels (a ++ b) = quant_levels a ++ quant_levels b := by
  simp [quant_levels]

@[simp]
theorem quant_levels_emit (w : World) (e : Event) : quant_levels (w.emit e).trace = quant_levels w.trace ++ (e.quant).toList := by
  cases h : e.quant <;> simp [quant_levels, World.emit, List.filterMap_cons, h]

theorem quant_levels_copy_rows (s : RkDmaBuffer) : quant_levels (copy_rows s) = [] := by
  unfold copy_rows quant_levels
  simp only
  split_ifs
  · rfl
  · rw [List.filterMap_map]; simp [Function.comp_def, Event.quant]

theorem quant_levels_cleanup (w : World) (a b c : Bool) : quant_levels (mpp_cleanup w a b c).trace = quant_levels w.trace := by
  unfold mpp_cleanup
  simp only
  split_ifs <;> simp [Event.quant]

theorem quant_levels_submit (env : Env) (w : World) (s : RkDmaBuffer) (src : Option RkDmaBuffer) (fb : Bool) :
   quant_levels (encode_submit env w s src fb).world.trace = quant_levels w.trace := by
  unfold encode_submit
  simp only
  split
  · simp [quant_levels_cleanup, Event.quant]
  · split
    · split <;> simp [quant_levels_cleanup, Event.quant]
    · simp [quant_levels_cleanup, Event.quant]

theorem quant_levels_map (env : Env) (w : World) (b : Option RkDmaBuffer) :
   quant_levels (rk_dmabuf_map env w b).2.2.trace = quant_levels w.trace := by
  unfold rk_dmabuf_map
  split
  · rfl
  · split_ifs
    · rfl
    · rfl
    · split <;> simp [Event.quant]

theorem quant_levels_unmap (w : World) (b : Option RkDmaBuffer) :
   quant_levels (rk_dmabuf_unmap w b).2.trace = quant_levels w.trace := by
  unfold rk_dmabuf_unmap
  split
  · rfl
  · split_ifs <;> simp [Event.quant]

theorem quant_levels_encode (env : Env) (w : World) (enc : Bool) (src : Option RkDmaBuffer)
    (od os : Bool) (quality : Int) :
    quant_levels (rk_mpp_encode_jpeg env w enc src od os quality).world.trace =
      quant_levels w.trace ++
        (if enc && w.g_ctx.mpp.initialized && src.isSome && od && os then [mpp_quant quality] else []) := by
  unfold rk_mpp_encode_jpeg
  simp only []
  repeat' split
  all_goals simp_all [quant_levels_submit, quant_levels_unmap, quant_levels_map, quant_levels_copy_rows, Event.quant]

/-! ## Trace lemmas: transform-stage calls -/

@[simp]
theorem transform_calls_append (a b : List Event) :
    transform_calls (a ++ b) = transform_calls a ++ transform_calls b := by
  simp [transform_calls]

@[simp]
theorem transform_calls_emit (w : World) (e : Event) :
    transform_calls (w.emit e).trace =
      transform_calls w.trace ++ (if e.is_transform then [e] else []) := by
  cases h : e.is_transform <;> simp [transform_calls, World.emit, List.filter_cons, h]

theorem transform_calls_unmap (w : World) (b : Option RkDmaBuffer) :
    transform_calls (rk_dmabuf_unmap w b).2.trace = transform_calls w.trace := by
  unfold rk_dmabuf_unmap
  repeat' split
  all_goals simp [Event.is_transform]

theorem transform_calls_map (env : Env) (w : World) (b : Option RkDmaBuffer) :
    transform_calls (rk_dmabuf_map env w b).2.2.trace = transform_calls w.trace := by
  unfold rk_dmabuf_map
  repeat' split
  all_goals simp [Event.is_transform]

theorem transform_calls_free (w : World) (b : Option RkDmaBuffer) :
    transform_calls (rk_dmabuf_free w b).trace = transform_calls w.trace := by
  unfold rk_dmabuf_free
  repeat' split
  all_goals simp [Event.is_transform, transform_calls_unmap]

theorem transform_calls_sf_capture (env : Env) (w : World) (a b : Bool) :
    transform_calls (rk_sf_capture env w a b).2.trace = transform_calls w.trace := by
  unfold rk_sf_capture
  simp only []
  repeat' split
  all_goals simp [Event.is_transform]

theorem transform_calls_copy_rows (s : RkDmaBuffer) : transform_calls (copy_rows s) = [] := by
  unfold copy_rows transform_calls
  simp only
  split_ifs
  · rfl
  · simp [List.filter_map, Function.comp_def, Event.is_transform]

theorem transform_calls_cleanup (w : World) (a b c : Bool) :
    transform_calls (mpp_cleanup w a b c).trace = transform_calls w.trace := by
  unfold mpp_cleanup
  simp only
  split_ifs <;> simp [Event.is_transform]

theorem transform_calls_submit (env : Env) (w : World) (s : RkDmaBuffer)
    (src : Option RkDmaBuffer) (fb : Bool) :
    transform_calls (encode_submit env w s src fb).world.trace = transform_calls w.trace := by
  unfold encode_submit
  simp only
  repeat' split
  all_goals simp [transform_calls_cleanup, Event.is_transform]

theorem transform_calls_encode (env : Env) (w : World) (enc : Bool) (src : Option RkDmaBuffer)
    (od os : Bool) (quality : Int) :
    transform_calls (rk_mpp_encode_jpeg env w enc src od os quality).world.trace =
      transform_calls w.trace := by
  unfold rk_mpp_encode_jpeg
  simp only []
  repeat' split
  all_goals simp_all [transform_calls_submit, transform_calls_unmap, transform_calls_map,
    transform_calls_copy_rows, Event.is_transform]

theorem transform_calls_finish (env : Env) (w : World) (c : RkScreenshotConfig)
    (res : RkScreenshotResult) (pb : RkDmaBuffer) (t : Nat) :
    transform_calls (capture_finish env w c res pb t).world.trace = transform_calls w.trace := by
  simp [capture_finish, transform_calls_free]

theorem transform_calls_output (env : Env) (w : World) (c : RkScreenshotConfig)
    (res : RkScreenshotResult) (pb : RkDmaBuffer) (t : Nat) :
    transform_calls (capture_output env w c res pb t).world.trace = transform_calls w.trace := by
  unfold capture_output
  simp only []
  repeat' split
  all_goals simp [transform_calls_finish, transform_calls_free, transform_calls_encode,
    transform_calls_map, Event.is_transform]

@[simp]
theorem rga_ops_append (a b : List Event) : rga_ops (a ++ b) = rga_ops a ++ rga_ops b := by
  simp [rga_ops]

theorem rga_ops_transform_calls (t : List Event) : rga_ops (transform_calls t) = rga_ops t := by
  induction t with
  | nil => rfl
  | cons e t ih =>
    cases e <;> simp_all [rga_ops, transform_calls, List.filter_cons, List.filterMap_cons,
      Event.is_transform, Event.rga_op]

theorem transform_calls_heap (env : Env) (w : World) :
    ∃ x, transform_calls (open_dma_heap env w).2.trace = transform_calls w.trace ++ x ∧
      rga_ops x = [] ∧ ((open_dma_heap env w).1 < 0 → x ≠ []) := by
  unfold open_dma_heap
  simp only []
  split
  · exact ⟨[], by simp, rfl, fun h => by omega⟩
  · split
    · exact ⟨[Event.heap_open env.open_cma], by simp [Event.is_transform], rfl, by simp⟩
    · split
      · exact ⟨[Event.heap_open env.open_cma, Event.heap_open env.open_system],
          by simp [Event.is_transform, World.emit, transform_calls, List.filter_cons], rfl, by simp⟩
      · exact ⟨[Event.heap_open env.open_cma, Event.heap_open env.open_system],
          by simp [Event.is_transform, World.emit, transform_calls, List.filter_cons], rfl, by simp⟩

theorem transform_calls_alloc (env : Env) (w : World) (width height : Int) :
    ∃ x, transform_calls (rk_dmabuf_alloc env w width height).2.trace =
        transform_calls w.trace ++ x ∧ rga_ops x = [] ∧ x ≠ [] := by
  obtain ⟨x, hx, hr, hne⟩ := transform_calls_heap env w
  unfold rk_dmabuf_alloc
  simp only []
  generalize (toU64 width * toU64 height * 4) % 18446744073709551616 = size
  split
  · rename_i h
    exact ⟨x, hx, hr, hne h⟩
  · refine ⟨x ++ [Event.heap_alloc size (env.heap_alloc size)], ?_, ?_, by simp⟩
    · repeat' split
      all_goals simp [hx, Event.is_transform]
    · rw [rga_ops_append, hr]; rfl

theorem alloc_dims (env : Env) (w : World) (width height : Int) (b : RkDmaBuffer)
    (h : (rk_dmabuf_alloc env w width height).1 = some b) :
    b.width = width ∧ b.height = height := by
  unfold rk_dmabuf_alloc at h
  simp only [] at h
  repeat' split at h
  all_goals simp_all
  all_goals (subst h; simp)

theorem transform_calls_rga (env : Env) (w : World) (p : Bool) (s d : RkDmaBuffer) (rot : Int) :
    ∃ x, transform_calls (rk_rga_process env w p (some s) (some d) rot).2.trace =
        transform_calls w.trace ++ x ∧
      ((rk_rga_process env w p (some s) (some d) rot).1 = RKSS_SUCCESS →
        x = [Event.rga (rga_select s d rot) s d]) := by
  unfold rk_rga_process
  simp only []
  split
  · exact ⟨[], by simp, by simp⟩
  · split
    · exact ⟨[], by simp, by simp⟩
    · refine ⟨[Event.rga (rga_select s d rot) s d], ?_, fun _ => rfl⟩
      split <;> simp [Event.is_transform]

theorem map_src (env : Env) (w : World) (s : RkDmaBuffer) :
    ∃ v, (rk_dmabuf_map env w (some s)).2.1 = some { s with vir_addr := v } := by
  unfold rk_dmabuf_map
  simp only []
  repeat' split
  all_goals first
    | exact ⟨s.vir_addr, rfl⟩
    | exact ⟨_, rfl⟩

theorem unmap_src (w : World) (s : RkDmaBuffer) :
    ∃ v, (rk_dmabuf_unmap w (some s)).1 = some { s with vir_addr := v } := by
  unfold rk_dmabuf_unmap
  simp only []
  split
  · exact ⟨s.vir_addr, rfl⟩
  · exact ⟨0, rfl⟩

theorem submit_src (env : Env) (w : World) (s : RkDmaBuffer) (src : Option RkDmaBuffer)
    (fb : Bool) : (encode_submit env w s src fb).src = src := by
  unfold encode_submit
  simp only []
  repeat' split
  all_goals rfl

theorem unmap_map_src (env : Env) (w w1 : World) (s : RkDmaBuffer) :
    ∃ v, (rk_dmabuf_unmap w1 (rk_dmabuf_map env w (some s)).2.1).1 =
      some { s with vir_addr := v } := by
  obtain ⟨v, hv⟩ := map_src env w s
  rw [hv]
  exact unmap_src w1 _

theorem encode_src (env : Env) (w : World) (enc : Bool) (s : RkDmaBuffer)
    (od os : Bool) (quality : Int) :
    ∃ v, (rk_mpp_encode_jpeg env w enc (some s) od os quality).src =
      some { s with vir_addr := v } := by
  unfold rk_mpp_encode_jpeg
  simp only []
  repeat' split
  all_goals first
    | exact ⟨s.vir_addr, rfl⟩
    | exact map_src _ _ _
    | (rw [submit_src]; first | exact ⟨s.vir_addr, rfl⟩ | exact unmap_map_src _ _ _ _)

theorem finish_result (env : Env) (w : World) (c : RkScreenshotConfig)
    (res : RkScreenshotResult) (pb : RkDmaBuffer) (t : Nat) :
    (capture_finish env w c res pb t).err = RKSS_SUCCESS ∧
    (capture_finish env w c res pb t).result =
      some { res with width := pb.width, height := pb.height, format := c.format,
                      timestamp_us := toI64 t } := ⟨rfl, rfl⟩

/-- What stage 3 stores in a delivered result. -/
theorem output_result (env : Env) (w : World) (c : RkScreenshotConfig)
    (res : RkScreenshotResult) (pb : RkDmaBuffer) (t : Nat) (r : RkScreenshotResult)
    (h : (capture_output env w c res pb t).result = some r) :
    r.width = pb.width ∧ r.height = pb.height ∧ r.format = c.format ∧
    r.capture_time_us = res.capture_time_us ∧ r.process_time_us = res.process_time_us ∧
    r.total_time_us = res.total_time_us ∧
    (c.format ≠ RK_FORMAT_JPEG → r.encode_time_us = res.encode_time_us ∧ r.size = pb.size) := by
  unfold capture_output at h
  simp only [] at h
  split at h
  · rename_i hj
    split at h
    · simp at h
    · obtain ⟨v, hv⟩ := encode_src env (rk_get_time_us env w).2 true pb true true c.quality
      rw [hv] at h
      simp [capture_finish] at h
      subst h
      simp [hj]
  · rename_i hj
    obtain ⟨v, hv⟩ := map_src env w pb
    rw [hv] at h
    split at h
    · simp at h
    · split at h
      · simp at h
      · simp [capture_finish] at h
        subst h
        simp [hj]

theorem output_success (env : Env) (w : World) (c : RkScreenshotConfig)
    (res : RkScreenshotResult) (pb : RkDmaBuffer) (t : Nat) :
    (capture_output env w c res pb t).err = RKSS_SUCCESS ↔
      (capture_output env w c res pb t).result ≠ none := by
  unfold capture_output
  simp only []
  repeat' split
  all_goals simp_all [capture_finish]

theorem sf_capture_fst (env : Env) (w w1 : World) (a b : Bool)
    (h : w1.g_sf_ctx.initialized = w.g_sf_ctx.initialized) :
    (rk_sf_capture env w1 a b).1 = (rk_sf_capture env w a b).1 := by
  unfold rk_sf_capture
  simp only [h]
  repeat' split
  all_goals rfl

theorem sf_capture_error (env : Env) (w : World) (a b : Bool) (e : RkScreenshotError)
    (h : (rk_sf_capture env w a b).1 = .error e) : e ≠ RKSS_SUCCESS := by
  unfold rk_sf_capture at h
  simp only [] at h
  repeat' split at h
  all_goals simp_all
  all_goals (subst h; simp)

theorem transform_success (env : Env) (w : World) (c : RkScreenshotConfig)
    (res : RkScreenshotResult) (buf : RkDmaBuffer) (t : Nat) :
    (capture_transform env w c res buf t).err = RKSS_SUCCESS ↔
      (capture_transform env w c res buf t).result ≠ none := by
  unfold capture_transform
  simp only []
  repeat' split
  all_goals first
    | exact output_success _ _ _ _ _ _
    | simp_all

/-- What a delivered result holds after stages 2 and 3. -/
theorem transform_result (env : Env) (w : World) (c : RkScreenshotConfig)
    (res : RkScreenshotResult) (buf : RkDmaBuffer) (t : Nat) (r : RkScreenshotResult)
    (h : (capture_transform env w c res buf t).result = some r) :
    (need_scale c buf = false →
      r.width = buf.width ∧ r.height = buf.height ∧
      r.process_time_us = res.process_time_us ∧
      (c.format ≠ RK_FORMAT_JPEG → r.size = buf.size)) ∧
    (need_scale c buf = true → r.width = c.scale_width ∧ r.height = c.scale_height) ∧
    r.format = c.format ∧ r.capture_time_us = res.capture_time_us ∧
    r.total_time_us = res.total_time_us ∧
    (c.format ≠ RK_FORMAT_JPEG → r.encode_time_us = res.encode_time_us) := by
  unfold capture_transform at h
  simp only [] at h
  split at h
  · rename_i hn
    split at h
    · simp at h
    · rename_i scaled hs
      split at h
      · simp at h
      · have ho := output_result _ _ _ _ _ _ _ h
        have hd := alloc_dims _ _ _ _ _ hs
        simp only [hn] 
        refine ⟨by simp, fun _ => ⟨by rw [ho.1, hd.1], by rw [ho.2.1, hd.2]⟩, ho.2.2.1, ho.2.2.2.1,
          ho.2.2.2.2.2.1, fun hj => (ho.2.2.2.2.2.2 hj).1⟩
  · rename_i hn
    have ho := output_result _ _ _ _ _ _ _ h
    simp only [hn]
    exact ⟨fun _ => ⟨ho.1, ho.2.1, ho.2.2.2.2.1, fun hj => (ho.2.2.2.2.2.2 hj).2⟩, by simp,
      ho.2.2.1, ho.2.2.2.1, ho.2.2.2.2.2.1, fun hj => (ho.2.2.2.2.2.2 hj).1⟩

/-- The transform-stage calls made by stages 2 and 3. -/
theorem transform_trace (env : Env) (w : World) (c : RkScreenshotConfig)
    (res : RkScreenshotResult) (buf : RkDmaBuffer) (t : Nat) :
    (need_scale c buf = false →
      transform_calls (capture_transform env w c res buf t).world.trace =
        transform_calls w.trace) ∧
    (need_scale c buf = true →
      ∃ x, x ≠ [] ∧
        transform_calls (capture_transform env w c res buf t).world.trace =
          transform_calls w.trace ++ x ∧
        ((capture_transform env w c res buf t).err = RKSS_SUCCESS →
          ∃ scaled : RkDmaBuffer, scaled.width = c.scale_width ∧
            scaled.height = c.scale_height ∧
            rga_ops x = [rga_select buf scaled c.rotation])) := by
  unfold capture_transform
  simp only []
  split
  · rename_i hn
    refine ⟨fun h => by simp [hn] at h, fun _ => ?_⟩
    obtain ⟨x, hx, hr, hne⟩ := transform_calls_alloc env (rk_get_time_us env w).2
      c.scale_width c.scale_height
    split
    · refine ⟨x, hne, ?_, by simp⟩
      simp [transform_calls_free, hx, Event.is_transform]
    · rename_i scaled hs
      obtain ⟨y, hy, hsucc⟩ := transform_calls_rga env
        (rk_dmabuf_alloc env (rk_get_time_us env w).2 c.scale_width c.scale_height).2 true
        buf scaled c.rotation
      refine ⟨x ++ y, by simp [hne], ?_, ?_⟩
      · split
        · simp [transform_calls_free, hx, hy, Event.is_transform]
        · simp [transform_calls_output, transform_calls_free, hx, hy]
      · split
        · rename_i hbad
          intro h
          exact absurd h hbad
        · rename_i hok
          intro _
          have hd := alloc_dims _ _ _ _ _ hs
          refine ⟨scaled, hd.1, hd.2, ?_⟩
          rw [hsucc (by simpa using hok), rga_ops_append, hr]
          rfl
  · rename_i hn
    refine ⟨fun _ => transform_calls_output _ _ _ _ _ _, fun h => by simp [h] at hn⟩

/-- The call reduces to stages 2 and 3 once the capture stage has produced a buffer. -/
theorem capture_reduce (env : Env) (w : World) (c : RkScreenshotConfig) (buf : RkDmaBuffer)
    (hinit : w.g_ctx.initialized = true) (hcal : env.calloc_result_ok = true)
    (hcap : (rk_sf_capture env w w.g_ctx.sf_ctx true).1 = .ok buf) :
    ∃ w1 ct, rk_screenshot_capture env w (some c) true =
        capture_transform env w1 c { zero_result with capture_time_us := ct } buf
          (rk_get_time_us env w).1 ∧
      transform_calls w1.trace = transform_calls w.trace := by
  unfold rk_screenshot_capture
  simp only [hinit, hcal]
  have h1 := sf_capture_fst env w
    (rk_get_time_us env ((rk_get_time_us env w).2.emit Event.calloc_result)).2
    w.g_ctx.sf_ctx true rfl
  rw [hcap] at h1
  simp only [Bool.not_true, Bool.false_eq_true, if_false]
  split
  · rename_i e he
    rw [h1] at he
    simp at he
  · rename_i b hb
    rw [h1] at hb
    simp at hb
    subst hb
    refine ⟨_, _, rfl, ?_⟩
    simp [transform_calls_sf_capture, Event.is_transform]

/-- A result is delivered only after a capture stage that produced a buffer. -/
theorem capture_delivers (env : Env) (w : World) (cfg : Option RkScreenshotConfig)
    (result : Bool) (r : RkScreenshotResult)
    (h : (rk_screenshot_capture env w cfg result).result = some r) :
    ∃ c buf, cfg = some c ∧ result = true ∧ w.g_ctx.initialized = true ∧
      env.calloc_result_ok = true ∧
      (rk_sf_capture env w w.g_ctx.sf_ctx true).1 = .ok buf := by
  unfold rk_screenshot_capture at h
  simp only [] at h
  split at h
  · simp at h
  · rename_i hi
    split at h
    · simp at h
    · rename_i c
      split at h
      · simp at h
      · rename_i hr
        split at h
        · simp at h
        · rename_i hc
          split at h
          · simp at h
          · rename_i b hb
            refine ⟨c, b, rfl, by simpa using hr, by simpa using hi, by simpa using hc, ?_⟩
            rw [← hb]
            exact (sf_capture_fst env w
              (rk_get_time_us env ((rk_get_time_us env w).2.emit Event.calloc_result)).2
              w.g_ctx.sf_ctx true rfl).symm

theorem capture_success (env : Env) (w : World) (cfg : Option RkScreenshotConfig)
    (result : Bool) :
    (rk_screenshot_capture env w cfg result).err = RKSS_SUCCESS ↔
      (rk_screenshot_capture env w cfg result).result ≠ none := by
  unfold rk_screenshot_capture
  simp only []
  repeat' split
  all_goals first
    | exact transform_success _ _ _ _ _ _
    | (rename_i e he; have := sf_capture_error _ _ _ _ _ he; simp_all)
    | simp_all

/-! ## Encode stage: eligibility and quality mapping -/

/-- C1. In `rk_mpp_encode_jpeg`, for a source of non-negative width and height, each
at most `INT32_MAX - 15`, the zero-copy flag computed before any import is true
exactly when the width and the height are multiples of 16 and the handle is valid. -/
theorem zero_copy_flag_iff (src : RkDmaBuffer)
    (hw0 : 0 ≤ src.width) (hw1 : src.width ≤ INT32_MAX - 15)
    (hh0 : 0 ≤ src.height) (hh1 : src.height ≤ INT32_MAX - 15) :
    zero_copy_flag src = true ↔
      (src.width % 16 = 0 ∧ src.height % 16 = 0 ∧ src.fd ≥ 0) := by
  unfold zero_copy_flag hor_stride_aligned ver_stride_aligned
  rw [align16_eq _ hw0 hw1, align16_eq _ hh0 hh1]
  simp only [Bool.and_eq_true, decide_eq_true_eq]
  omega

/-- C1 at 1920x1088 (eligible), 1920x1081 and 1920x1080 (not eligible). -/
theorem zero_copy_flag_iff_witness :
    zero_copy_flag ⟨8, 8355840, 1920, 1088, 1920, 1, 0⟩ = true ∧
    ¬ zero_copy_flag ⟨8, 8302080, 1920, 1081, 1920, 1, 0⟩ = true ∧
    ¬ zero_copy_flag ⟨8, 8294400, 1920, 1080, 1920, 1, 0⟩ = true :=
  ⟨(zero_copy_flag_iff ⟨8, 8355840, 1920, 1088, 1920, 1, 0⟩
      (by decide) (by decide) (by decide) (by decide)).2 (by decide),
   fun h => absurd ((zero_copy_flag_iff ⟨8, 8302080, 1920, 1081, 1920, 1, 0⟩
      (by decide) (by decide) (by decide) (by decide)).1 h) (by decide),
   fun h => absurd ((zero_copy_flag_iff ⟨8, 8294400, 1920, 1080, 1920, 1, 0⟩
      (by decide) (by decide) (by decide) (by decide)).1 h) (by decide)⟩

/-- C2. For every quality in 0..100 the quantization level computed by
`rk_mpp_encode_jpeg` is `round(quality * 10 / 100)`, halves rounded up, clamped to
`[1, 10]`; quality 85 gives 9, quality 75 gives 8 and quality 90 gives 9. -/
theorem mpp_quant_eq_spec_level (quality : Int) (h0 : 0 ≤ quality) (h1 : quality ≤ 100) :
    mpp_quant quality = spec_level quality ∧
    mpp_quant 85 = 9 ∧ mpp_quant 75 = 8 ∧ mpp_quant 90 = 9 := by
  refine ⟨?_, by decide, by decide, by decide⟩
  rw [mpp_quant_eq quality (by unfold INT32_MIN; omega) (by unfold INT32_MAX; omega)]
  unfold spec_level
  rw [round_tenth, tdiv_of_nonneg _ _ (by omega) (by omega)]

/-- C2 at quality 85: the level is 9 and agrees with the rounded tenth. -/
theorem mpp_quant_eq_spec_level_witness :
    mpp_quant 85 = spec_level 85 ∧ mpp_quant 85 = 9 :=
  ⟨(mpp_quant_eq_spec_level 85 (by decide) (by decide)).1,
   (mpp_quant_eq_spec_level 85 (by decide) (by decide)).2.1⟩

/-- Where neither the product nor the sum overflows, the level is defined and is the
one the wrapped computation gives. -/
theorem mpp_quant_checked_eq (q : Int) (h1 : INT32_MIN ≤ q * 10)
    (h2 : q * 10 + 50 ≤ INT32_MAX) : mpp_quant_checked q = some (mpp_quant q) := by
  unfold INT32_MIN at h1
  unfold INT32_MAX at h2
  have hm : checked_mul32 q 10 = some (q * 10) := by
    unfold checked_mul32 INT32_MIN INT32_MAX
    rw [if_pos ⟨by omega, by omega⟩]
  have ha : checked_add32 (q * 10) 50 = some (q * 10 + 50) := by
    unfold checked_add32 INT32_MIN INT32_MAX
    rw [if_pos ⟨by omega, by omega⟩]
  have hd : -2147483648 ≤ Int.tdiv (q * 10 + 50) 100 ∧
      Int.tdiv (q * 10 + 50) 100 ≤ 2147483647 := by
    rcases le_total 0 (q * 10 + 50) with a | a
    · rw [tdiv_of_nonneg _ _ a (by omega)]; omega
    · rw [tdiv_of_neg _ _ a (by omega)]; omega
  unfold mpp_quant_checked mpp_quant div32 add32 mul32
  rw [hm]
  simp only [Option.some_bind, ha, Option.map_some']
  rw [wrap32_of_fits (q * 10) (by omega) (by omega),
    wrap32_of_fits (q * 10 + 50) (by omega) (by omega),
    wrap32_of_fits _ hd.1 hd.2]

/-- C3 (amended). The quality-to-level mapping of `rk_mpp_encode_jpeg` is non-decreasing
on the qualities for which `quality * 10` and `quality * 10 + 50` both fit a C `int`
(all of 0..100 among them): there the level is defined, and for `q1 ≤ q2` the level of
`q1` is at most the level of `q2`; level(0) = 1 and level(100) = 10. -/
theorem mpp_quant_mono (q1 q2 : Int) (h : q1 ≤ q2)
    (h1 : INT32_MIN ≤ q1 * 10) (h2 : q2 * 10 + 50 ≤ INT32_MAX) :
    (∃ l1 l2 : Int, mpp_quant_checked q1 = some l1 ∧ mpp_quant_checked q2 = some l2 ∧
      l1 ≤ l2 ∧ l1 = mpp_quant q1 ∧ l2 = mpp_quant q2) ∧
    mpp_quant_checked 0 = some 1 ∧ mpp_quant_checked 100 = some 10 := by
  refine ⟨⟨mpp_quant q1, mpp_quant q2, mpp_quant_checked_eq q1 h1 (by omega),
    mpp_quant_checked_eq q2 (by omega) h2, ?_, rfl, rfl⟩, by decide, by decide⟩
  unfold INT32_MIN at h1
  unfold INT32_MAX at h2
  rw [mpp_quant_eq q1 (by unfold INT32_MIN; omega) (by unfold INT32_MAX; omega),
    mpp_quant_eq q2 (by unfold INT32_MIN; omega) (by unfold INT32_MAX; omega)]
  have hmono : Int.tdiv (q1 * 10 + 50) 100 ≤ Int.tdiv (q2 * 10 + 50) 100 := by
    rcases le_total 0 (q1 * 10 + 50) with a | a <;>
    rcases le_total 0 (q2 * 10 + 50) with b | b
    · rw [tdiv_of_nonneg _ _ a (by omega), tdiv_of_nonneg _ _ b (by omega)]; omega
    · rw [tdiv_of_nonneg _ _ a (by omega), tdiv_of_neg _ _ b (by omega)]; omega
    · rw [tdiv_of_neg _ _ a (by omega), tdiv_of_nonneg _ _ b (by omega)]; omega
    · rw [tdiv_of_neg _ _ a (by omega), tdiv_of_neg _ _ b (by omega)]; omega
  omega

/-- C3 (amended) at the qualities 30 and 75, and at the negative quality -7: the levels
are defined and ordered. -/
theorem mpp_quant_mono_witness :
    (∃ l1 l2 : Int, mpp_quant_checked 30 = some l1 ∧ mpp_quant_checked 75 = some l2 ∧
      l1 ≤ l2 ∧ l1 = mpp_quant 30 ∧ l2 = mpp_quant 75) ∧
    (∃ l1 l2 : Int, mpp_quant_checked (-7) = some l1 ∧ mpp_quant_checked 30 = some l2 ∧
      l1 ≤ l2 ∧ l1 = mpp_quant (-7) ∧ l2 = mpp_quant 30) :=
  ⟨(mpp_quant_mono 30 75 (by decide) (by decide) (by decide)).1,
   (mpp_quant_mono (-7) 30 (by decide) (by decide) (by decide)).1⟩

/-- C3 as stated fails at the qualities -214748365 and 0: for both `quality * 10 + 50`
fits a C `int`, but for -214748365 the product `quality * 10`, which the code computes
first, is below `INT32_MIN`; the computation is undefined there, so no level of
-214748365 exists that could be at most the level of 0. -/
theorem mpp_quant_undefined_where_sum_fits :
    (-214748365 : Int) ≤ 0 ∧
    INT32_MIN ≤ (-214748365 : Int) * 10 + 50 ∧ (-214748365 : Int) * 10 + 50 ≤ INT32_MAX ∧
    INT32_MIN ≤ (0 : Int) * 10 + 50 ∧ (0 : Int) * 10 + 50 ≤ INT32_MAX ∧
    (-214748365 : Int) * 10 < INT32_MIN ∧
    mpp_quant_checked (-214748365) = none ∧
    ¬ ∃ l1 l2 : Int, mpp_quant_checked (-214748365) = some l1 ∧
      mpp_quant_checked 0 = some l2 ∧ l1 ≤ l2 := by
  have hn : mpp_quant_checked (-214748365) = none := by decide
  refine ⟨by decide, by decide, by decide, by decide, by decide, by decide, hn, ?_⟩
  rintro ⟨l1, l2, h, _⟩
  rw [hn] at h
  cases h

/-- C4. For every quality (every C `int`, wrapped arithmetic included) the
quantization level `rk_mpp_encode_jpeg` hands to the encoder configuration lies in
`[1, 10]` and is never 0: the call adds at most one configuration to the trace, every
level it adds is in range, and a call that passes the parameter checks adds exactly
`mpp_quant quality`. -/
theorem mpp_quant_handed_in_range (env : Env) (w : World) (enc : Bool)
    (src : Option RkDmaBuffer) (out_data out_size : Bool) (quality : Int) :
    ∃ handed : List Int,
      quant_levels (rk_mpp_encode_jpeg env w enc src out_data out_size quality).world.trace =
        quant_levels w.trace ++ handed ∧
      (∀ q ∈ handed, 1 ≤ q ∧ q ≤ 10 ∧ q ≠ 0) ∧
      ((enc && w.g_ctx.mpp.initialized && src.isSome && out_data && out_size) = true →
        handed = [mpp_quant quality]) := by
  refine ⟨_, quant_levels_encode env w enc src out_data out_size quality, ?_, ?_⟩
  · intro q hq
    have hr := mpp_quant_range quality
    split at hq
    · simp at hq; subst hq; omega
    · simp at hq
  · intro h
    simp [h]

/-- C4 at the most negative quality, `INT32_MIN`, whose product with 10 wraps: the
level handed over is 1. -/
theorem mpp_quant_handed_in_range_witness :
    quant_levels (rk_mpp_encode_jpeg (display_env 1920 1080 1920) ready_world true
      (some ⟨8, 8294400, 1920, 1080, 1920, 1, 0⟩) true true (-2147483648)).world.trace = [1] := by
  obtain ⟨handed, h1, _, h3⟩ := mpp_quant_handed_in_range (display_env 1920 1080 1920)
    ready_world true (some ⟨8, 8294400, 1920, 1080, 1920, 1, 0⟩) true true (-2147483648)
  rw [h1, h3 (by decide)]
  decide

/-! ## Orchestrator: stage selection, request handling, results -/

/-- The gate of stage 2 spelled out. -/
theorem need_scale_iff (c : RkScreenshotConfig) (buf : RkDmaBuffer) :
    need_scale c buf = true ↔
      (c.scale_width > 0 ∧ c.scale_height > 0 ∧
        (c.scale_width ≠ buf.width ∨ c.scale_height ≠ buf.height)) := by
  simp [need_scale, and_assoc]

/-- C5 (amended). After a successful capture stage, `rk_screenshot_capture` makes
transform-stage calls (destination allocation, accelerator operation) if and only if
the scale target is positive in both components and differs from the captured
buffer's size; otherwise the captured buffer goes directly to the output stage. The
rotation plays no part in the decision. -/
theorem transform_iff_need_scale (env : Env) (w : World) (c : RkScreenshotConfig)
    (buf : RkDmaBuffer)
    (hinit : w.g_ctx.initialized = true) (hcal : env.calloc_result_ok = true)
    (hcap : (rk_sf_capture env w w.g_ctx.sf_ctx true).1 = .ok buf) :
    (transform_calls (rk_screenshot_capture env w (some c) true).world.trace ≠
        transform_calls w.trace ↔
      (c.scale_width > 0 ∧ c.scale_height > 0 ∧
        (c.scale_width ≠ buf.width ∨ c.scale_height ≠ buf.height))) ∧
    (¬ (c.scale_width > 0 ∧ c.scale_height > 0 ∧
        (c.scale_width ≠ buf.width ∨ c.scale_height ≠ buf.height)) →
      ∃ w1 ct, rk_screenshot_capture env w (some c) true =
        capture_output env w1 c { zero_result with capture_time_us := ct } buf
          (rk_get_time_us env w).1) := by
  obtain ⟨w1, ct, hred, htc⟩ := capture_reduce env w c buf hinit hcal hcap
  have htr := transform_trace env w1 c { zero_result with capture_time_us := ct } buf
    (rk_get_time_us env w).1
  rw [← need_scale_iff, hred]
  constructor
  · constructor
    · intro hne
      by_contra hn
      exact hne (by rw [htr.1 (by simpa using hn), htc])
    · intro hn
      obtain ⟨x, hx, heq, _⟩ := htr.2 hn
      rw [heq, htc]
      simpa using hx
  · intro hn
    refine ⟨w1, ct, ?_⟩
    unfold capture_transform
    simp [hn]

/-- C5 (amended) on a 1920x1080 capture scaled to 1280x720: the transform stage runs. -/
theorem transform_iff_need_scale_witness :
    transform_calls (rk_screenshot_capture (display_env 1920 1080 1920) ready_world
        (some { default_config with scale_width := 1280, scale_height := 720 })
        true).world.trace ≠ transform_calls ready_world.trace :=
  (transform_iff_need_scale (display_env 1920 1080 1920) ready_world
    { default_config with scale_width := 1280, scale_height := 720 }
    ⟨8, 8294400, 1920, 1080, 1920, 1, 0⟩ (by decide) (by decide) rfl).1.2 (by decide)

/-- C5 as stated fails: on a 1920x1080 capture with rotation 90 and no scale target the
claimed condition holds (non-zero rotation) and no transform-stage call is made. -/
theorem transform_skipped_despite_rotation :
    (rk_sf_capture (display_env 1920 1080 1920) ready_world true true).1 =
        .ok ⟨8, 8294400, 1920, 1080, 1920, 1, 0⟩ ∧
    ¬ (transform_calls (rk_screenshot_capture (display_env 1920 1080 1920) ready_world
          (some { default_config with rotation := 90 }) true).world.trace ≠
        transform_calls ready_world.trace ↔
      (((0 : Int) < 0 ∧ (0 : Int) < 0 ∧ ((0 : Int) ≠ 1920 ∨ (0 : Int) ≠ 1080)) ∨
        (90 : Int) ≠ 0)) :=
  ⟨rfl, by decide⟩

/-- A rotation other than 90, 180 and 270 selects what rotation 0 selects. -/
theorem rga_select_rotation (s d : RkDmaBuffer) (rot : Int)
    (h90 : rot ≠ 90) (h180 : rot ≠ 180) (h270 : rot ≠ 270) :
    rga_select s d rot = rga_select s d 0 := by
  simp [rga_select, h90, h180, h270]

/-- The transform stage sees the rotation only through the selected operation. -/
theorem rga_process_rotation (env : Env) (w : World) (p : Bool) (s d : Option RkDmaBuffer)
    (rot : Int) (h90 : rot ≠ 90) (h180 : rot ≠ 180) (h270 : rot ≠ 270) :
    rk_rga_process env w p s d rot = rk_rga_process env w p s d 0 := by
  unfold rk_rga_process
  cases s <;> cases d <;> simp [rga_select_rotation _ _ rot h90 h180 h270]

/-- Two requests that stages 2 and 3 treat alike are treated alike by the call. -/
theorem capture_congr (env : Env) (w : World) (c c1 : RkScreenshotConfig) (result : Bool)
    (h : ∀ w1 res buf t, capture_transform env w1 c res buf t =
      capture_transform env w1 c1 res buf t) :
    rk_screenshot_capture env w (some c) result =
      rk_screenshot_capture env w (some c1) result := by
  unfold rk_screenshot_capture
  simp only [h]

/-- A scale target that is not positive in both components closes the gate. -/
theorem need_scale_asymmetric (c : RkScreenshotConfig) (buf : RkDmaBuffer)
    (h : ¬ (c.scale_width > 0 ∧ c.scale_height > 0)) : need_scale c buf = false := by
  have := need_scale_iff c buf
  cases hn : need_scale c buf
  · rfl
  · exact absurd ⟨(this.1 hn).1, (this.1 hn).2.1⟩ h

/-- C6 (amended). On an initialized pipeline `rk_screenshot_capture` returns
`RKSS_ERROR_INVALID_PARAM` for a null config or a null result pointer; the request
itself is not validated: a scale target that is not positive in both components (an
asymmetric one included) is processed exactly as no scale target, and a rotation
other than 90, 180 and 270 is processed exactly as rotation 0. -/
theorem capture_request_not_validated (env : Env) (w : World) (c : RkScreenshotConfig)
    (result : Bool) (hinit : w.g_ctx.initialized = true) :
    (rk_screenshot_capture env w none result).err = RKSS_ERROR_INVALID_PARAM ∧
    (rk_screenshot_capture env w (some c) false).err = RKSS_ERROR_INVALID_PARAM ∧
    (¬ (c.scale_width > 0 ∧ c.scale_height > 0) →
      rk_screenshot_capture env w (some c) result =
        rk_screenshot_capture env w
          (some { c with scale_width := 0, scale_height := 0 }) result) ∧
    (c.rotation ≠ 90 → c.rotation ≠ 180 → c.rotation ≠ 270 →
      rk_screenshot_capture env w (some c) result =
        rk_screenshot_capture env w (some { c with rotation := 0 }) result) := by
  refine ⟨by simp [rk_screenshot_capture, hinit], by simp [rk_screenshot_capture, hinit],
    fun h => capture_congr _ _ _ _ _ fun w1 res buf t => ?_,
    fun h90 h180 h270 => capture_congr _ _ _ _ _ fun w1 res buf t => ?_⟩
  · have h1 := need_scale_asymmetric c buf h
    have h2 : need_scale { c with scale_width := 0, scale_height := 0 } buf = false := by
      simp [need_scale]
    unfold capture_transform
    simp only [h1, h2]
    rfl
  · unfold capture_transform
    simp only [rga_process_rotation _ _ _ _ _ c.rotation h90 h180 h270]
    rfl

/-- C6 (amended) on a 1920x1080 capture with the asymmetric scale target 1280x0. -/
theorem capture_request_not_validated_witness :
    rk_screenshot_capture (display_env 1920 1080 1920) ready_world
        (some { default_config with scale_width := 1280 }) true =
      rk_screenshot_capture (display_env 1920 1080 1920) ready_world
        (some { default_config with scale_width := 0, scale_height := 0 }) true :=
  (capture_request_not_validated (display_env 1920 1080 1920) ready_world
    { default_config with scale_width := 1280 } true (by decide)).2.2.1 (by decide)

/-- C6 as stated fails: on an initialized pipeline the asymmetric scale target 1280x0
and the rotation 45 are both accepted rather than answered with
`RKSS_ERROR_INVALID_PARAM`. -/
theorem malformed_request_accepted :
    (rk_screenshot_capture (display_env 1920 1080 1920) ready_world
        (some { default_config with scale_width := 1280, scale_height := 0 }) true).err ≠
      RKSS_ERROR_INVALID_PARAM ∧
    (rk_screenshot_capture (display_env 1920 1080 1920) ready_world
        (some { default_config with scale_width := 1280, scale_height := 720,
                                    rotation := 45 }) true).err ≠
      RKSS_ERROR_INVALID_PARAM := by
  decide

/-- The buffer a successful capture stage hands over. -/
theorem sf_capture_buffer (env : Env) (w : World) (a b : Bool) (buf : RkDmaBuffer)
    (h : (rk_sf_capture env w a b).1 = .ok buf) :
    ∃ gb, env.capture_results = some gb ∧ buf.width = gb.width ∧ buf.height = gb.height ∧
      buf.stride = gb.stride ∧
      buf.size = toU64 (mul32 (mul32 buf.stride buf.height) 4) := by
  unfold rk_sf_capture at h
  simp only [] at h
  repeat' split at h
  all_goals simp at h
  rename_i gb hgb _ _ _ _ _
  subst h
  exact ⟨gb, hgb, rfl, rfl, rfl, rfl⟩

/-- Within the range of a C `int` the size of a captured buffer is `stride * height * 4`. -/
theorem sf_capture_size_fits (stride height : Int)
    (h0 : 0 ≤ stride * height * 4) (h1 : stride * height * 4 ≤ INT32_MAX) :
    (toU64 (mul32 (mul32 stride height) 4) : Int) = stride * height * 4 := by
  unfold INT32_MAX at h1
  unfold mul32 toU64 wrap32
  generalize stride * height = p at *
  omega

/-- Every field of the raw, unscaled result. -/
theorem raw_capture_result (env : Env) (w : World) (c : RkScreenshotConfig)
    (r : RkScreenshotResult) (buf : RkDmaBuffer)
    (hres : (rk_screenshot_capture env w (some c) true).result = some r)
    (hfmt : c.format = RK_FORMAT_RGBA8888)
    (hscale : c.scale_width = 0 ∧ c.scale_height = 0)
    (hcap : (rk_sf_capture env w w.g_ctx.sf_ctx true).1 = .ok buf) :
    r.width = buf.width ∧ r.height = buf.height ∧ r.format = RK_FORMAT_RGBA8888 ∧
    r.process_time_us = 0 ∧ r.encode_time_us = 0 ∧ r.total_time_us = 0 ∧
    r.size = toU64 (mul32 (mul32 buf.stride buf.height) 4) := by
  obtain ⟨c1, b1, hc, _, hinit, hcal, _⟩ := capture_delivers env w (some c) true r hres
  obtain ⟨w1, ct, hred, _⟩ := capture_reduce env w c buf hinit hcal hcap
  rw [hred] at hres
  have ht := transform_result _ _ _ _ _ _ _ hres
  have hn : need_scale c buf = false := need_scale_asymmetric c buf (by omega)
  have hj : c.format ≠ RK_FORMAT_JPEG := by rw [hfmt]; decide
  obtain ⟨gb, _, _, _, _, hsize⟩ := sf_capture_buffer _ _ _ _ _ hcap
  have h1 := ht.1 hn
  refine ⟨h1.1, h1.2.1, by rw [ht.2.2.1, hfmt], h1.2.2.1, ht.2.2.2.2.2 hj, ht.2.2.2.2.1, ?_⟩
  rw [h1.2.2.2 hj, hsize]

/-- C7 at a capture of width 32768, height 32769 and stride 32768: the call succeeds
and delivers a payload size of 131072, the `int` product `stride * height * 4` reduced
modulo 2^32, where the claim says 32768 * 32769 * 4 = 4295098368. -/
theorem raw_capture_size_wraps :
    (rk_screenshot_capture (display_env 32768 32769 32768) ready_world
        (some default_config) true).err = RKSS_SUCCESS ∧
    (rk_screenshot_capture (display_env 32768 32769 32768) ready_world
        (some default_config) true).result.map (fun r => (r.width, r.height, r.size)) =
      some (32768, 32769, 131072) ∧
    (32768 * 32769 * 4 : Int) = 4295098368 := by
  decide

/-- C8. For every successful `rk_screenshot_capture` whose scale target is positive in
both components and differs from the captured size, the result has the width and the
height of the scale target, and with rotation 0 the accelerator is invoked exactly
once, with the resize operation. -/
theorem scaled_capture_dims (env : Env) (w : World) (c : RkScreenshotConfig)
    (buf : RkDmaBuffer)
    (hsucc : (rk_screenshot_capture env w (some c) true).err = RKSS_SUCCESS)
    (hcap : (rk_sf_capture env w w.g_ctx.sf_ctx true).1 = .ok buf)
    (hsw : c.scale_width > 0) (hsh : c.scale_height > 0)
    (hdiff : c.scale_width ≠ buf.width ∨ c.scale_height ≠ buf.height) :
    ∃ r, (rk_screenshot_capture env w (some c) true).result = some r ∧
      r.width = c.scale_width ∧ r.height = c.scale_height ∧
      (c.rotation = 0 →
        rga_ops (rk_screenshot_capture env w (some c) true).world.trace =
          rga_ops w.trace ++ [RgaOp.resize]) := by
  have hne := (capture_success env w (some c) true).1 hsucc
  obtain ⟨r, hr⟩ := Option.ne_none_iff_exists'.1 hne
  obtain ⟨c1, b1, hc, _, hinit, hcal, _⟩ := capture_delivers env w (some c) true r hr
  obtain ⟨w1, ct, hred, htc⟩ := capture_reduce env w c buf hinit hcal hcap
  have hn : need_scale c buf = true := (need_scale_iff c buf).2 ⟨hsw, hsh, hdiff⟩
  refine ⟨r, hr, ?_⟩
  rw [hred] at hr hsucc
  have ht := transform_result _ _ _ _ _ _ _ hr
  refine ⟨(ht.2.1 hn).1, (ht.2.1 hn).2, fun hrot => ?_⟩
  obtain ⟨x, _, heq, hops⟩ := (transform_trace env w1 c _ buf _).2 hn
  obtain ⟨scaled, hsw1, hsh1, hx⟩ := hops hsucc
  rw [hred, ← rga_ops_transform_calls, heq, htc, rga_ops_append, rga_ops_transform_calls, hx,
    hrot]
  have : rga_select buf scaled 0 = RgaOp.resize := by
    unfold rga_select
    rw [hsw1, hsh1]
    have hd : ¬ (buf.width = c.scale_width ∧ buf.height = c.scale_height) := by
      rintro ⟨h1, h2⟩
      rcases hdiff with h | h
      · exact h h1.symm
      · exact h h2.symm
    simp [hd]
  rw [this]

/-- C8 on a 1920x1080 capture scaled to 1280x720 as JPEG of quality 85. -/
theorem scaled_capture_dims_witness :
    ∃ r, (rk_screenshot_capture (display_env 1920 1080 1920) ready_world
        (some { default_config with format := RK_FORMAT_JPEG, quality := 85,
                                    scale_width := 1280, scale_height := 720 })
        true).result = some r ∧ r.width = 1280 ∧ r.height = 720 ∧
      ((0 : Int) = 0 →
        rga_ops (rk_screenshot_capture (display_env 1920 1080 1920) ready_world
          (some { default_config with format := RK_FORMAT_JPEG, quality := 85,
                                      scale_width := 1280, scale_height := 720 })
          true).world.trace = rga_ops ready_world.trace ++ [RgaOp.resize]) :=
  scaled_capture_dims (display_env 1920 1080 1920) ready_world
    { default_config with format := RK_FORMAT_JPEG, quality := 85,
                          scale_width := 1280, scale_height := 720 }
    ⟨8, 8294400, 1920, 1080, 1920, 1, 0⟩ (by decide) rfl (by decide) (by decide) (by decide)

/-- No delivered result carries a total duration: the field keeps its `calloc` value. -/
theorem total_time_never_recorded (env : Env) (w : World) (c : RkScreenshotConfig)
    (result : Bool) (r : RkScreenshotResult)
    (h : (rk_screenshot_capture env w (some c) result).result = some r) :
    r.total_time_us = 0 := by
  obtain ⟨c1, buf, hc, hres, hinit, hcal, hcap⟩ := capture_delivers env w (some c) result r h
  subst hres
  obtain ⟨w1, ct, hred, _⟩ := capture_reduce env w c buf hinit hcal hcap
  rw [hred] at h
  exact (transform_result _ _ _ _ _ _ _ h).2.2.2.2.1

/-- C9 at a raw 1920x1080 capture under a strictly increasing clock: the call succeeds
with `capture_time_us = 300` and `total_time_us = 0`, so the total is below the sum of
the phases. -/
theorem total_time_below_capture_time :
    (∀ m n : Nat, m ≤ n →
      (display_env 1920 1080 1920).clock m ≤ (display_env 1920 1080 1920).clock n) ∧
    (rk_screenshot_capture (display_env 1920 1080 1920) ready_world
        (some default_config) true).err = RKSS_SUCCESS ∧
    (rk_screenshot_capture (display_env 1920 1080 1920) ready_world
        (some default_config) true).result.map
          (fun r => (r.total_time_us, r.capture_time_us, r.process_time_us, r.encode_time_us)) =
      some (0, 300, 0, 0) := by
  refine ⟨fun m n h => ?_, by decide, by decide⟩
  simp only [display_env]
  omega

/-- C10. In every result returned by `rk_screenshot_capture` a phase that was not
executed records a zero duration: `process_time_us = 0` when no transform-stage call
was made, and `encode_time_us = 0` when the requested format is not JPEG. -/
theorem unexecuted_phase_zero (env : Env) (w : World) (c : RkScreenshotConfig)
    (result : Bool) (r : RkScreenshotResult)
    (h : (rk_screenshot_capture env w (some c) result).result = some r) :
    (transform_calls (rk_screenshot_capture env w (some c) result).world.trace =
        transform_calls w.trace → r.process_time_us = 0) ∧
    (c.format ≠ RK_FORMAT_JPEG → r.encode_time_us = 0) := by
  obtain ⟨c1, buf, hc, hres, hinit, hcal, hcap⟩ := capture_delivers env w (some c) result r h
  subst hres
  obtain ⟨w1, ct, hred, htc⟩ := capture_reduce env w c buf hinit hcal hcap
  rw [hred] at h ⊢
  have ht := transform_result _ _ _ _ _ _ _ h
  refine ⟨fun hskip => ?_, fun hj => ht.2.2.2.2.2 hj⟩
  cases hn : need_scale c buf
  · exact (ht.1 hn).2.2.1
  · obtain ⟨x, hx, heq, _⟩ := (transform_trace env w1 c
      { zero_result with capture_time_us := ct } buf (rk_get_time_us env w).1).2 hn
    rw [heq, htc] at hskip
    exact absurd (by simpa using hskip) hx

/-- C10 on a raw, unscaled 1920x1080 capture: both durations are zero. -/
theorem unexecuted_phase_zero_witness :
    ∃ r, (rk_screenshot_capture (display_env 1920 1080 1920) ready_world
        (some default_config) true).result = some r ∧
      r.process_time_us = 0 ∧ r.encode_time_us = 0 := by
  obtain ⟨r, hr⟩ := Option.ne_none_iff_exists'.1
    ((capture_success (display_env 1920 1080 1920) ready_world (some default_config) true).1
      (by decide))
  exact ⟨r, hr,
    (unexecuted_phase_zero (display_env 1920 1080 1920) ready_world default_config true r
      hr).1 (by decide),
    (unexecuted_phase_zero (display_env 1920 1080 1920) ready_world default_config true r
      hr).2 (by decide)⟩

/-! ## Shared buffers: release and mapping -/

/-- The calls one release of a live buffer makes. -/
theorem free_trace (w : World) (b : RkDmaBuffer) :
    (rk_dmabuf_free w (some b)).trace =
      w.trace ++ (if b.vir_addr ≠ 0 then [Event.munmap b.vir_addr b.size] else []) ++
        (if b.fd ≥ 0 then [Event.close b.fd] else []) ++ [Event.free_dmabuf b] := by
  unfold rk_dmabuf_free rk_dmabuf_unmap
  simp only []
  repeat' split
  all_goals simp_all [World.emit]

/-- C13 (amended). Releasing a null buffer is a no-op; releasing a buffer that was
never mapped closes its handle and frees the struct without any unmap; one release of a
live buffer closes its handle exactly once and frees its struct exactly once. -/
theorem dmabuf_free_once (w : World) (b : RkDmaBuffer) :
    rk_dmabuf_free w none = w ∧
    (b.vir_addr = 0 → b.fd ≥ 0 →
      (rk_dmabuf_free w (some b)).trace = w.trace ++ [Event.close b.fd, Event.free_dmabuf b]) ∧
    (b.fd ≥ 0 →
      open_handles b.fd (rk_dmabuf_free w (some b)).trace = open_handles b.fd w.trace - 1) ∧
    released b.fd (rk_dmabuf_free w (some b)).trace = released b.fd w.trace + 1 := by
  refine ⟨rfl, fun hv hf => ?_, fun hf => ?_, ?_⟩
  · rw [free_trace]; simp [hv, hf]
  · rw [free_trace]
    split_ifs <;> simp_all [open_handles, tally, Event.handle_delta] <;> omega
  · rw [free_trace]
    split_ifs <;> simp [released, tally, Event.release_of]

/-- C13 (amended) on a never-mapped 1920x1080 buffer with descriptor 8. -/
theorem dmabuf_free_once_witness :
    (rk_dmabuf_free ready_world (some ⟨8, 8294400, 1920, 1080, 1920, 1, 0⟩)).trace =
      ready_world.trace ++ [Event.close 8, Event.free_dmabuf ⟨8, 8294400, 1920, 1080, 1920, 1, 0⟩] :=
  (dmabuf_free_once ready_world ⟨8, 8294400, 1920, 1080, 1920, 1, 0⟩).2.1 (by decide) (by decide)

/-- C13 as stated fails: releasing the same buffer a second time closes descriptor 8 a
second time, and the state after two releases differs from the state after one. -/
theorem double_release_closes_twice :
    calls (fun e => decide (e = Event.close 8))
      (rk_dmabuf_free (rk_dmabuf_free ready_world
        (some ⟨8, 8294400, 1920, 1080, 1920, 1, 0⟩))
        (some ⟨8, 8294400, 1920, 1080, 1920, 1, 0⟩)).trace = 2 ∧
    rk_dmabuf_free (rk_dmabuf_free ready_world
        (some ⟨8, 8294400, 1920, 1080, 1920, 1, 0⟩))
        (some ⟨8, 8294400, 1920, 1080, 1920, 1, 0⟩) ≠
      rk_dmabuf_free ready_world (some ⟨8, 8294400, 1920, 1080, 1920, 1, 0⟩) := by
  decide

/-- C14. `rk_dmabuf_map` is idempotent on the shared buffers the code builds (a mapped
view implies a valid handle): an already mapped buffer gets its existing view back and
nothing changes; for an unmapped buffer with a valid handle on which the mapping
succeeds, a second map returns the address of the first without a further call; a null
buffer and a buffer with an invalid handle get null and are left unchanged; and the
buffer after the call satisfies the invariant again. -/
theorem dmabuf_map_idempotent (env : Env) (w : World) (b : RkDmaBuffer)
    (hinv : b.view_has_handle = true) :
    (b.vir_addr ≠ 0 → rk_dmabuf_map env w (some b) = (b.vir_addr, some b, w)) ∧
    (b.vir_addr = 0 → b.fd ≥ 0 → (rk_dmabuf_map env w (some b)).1 ≠ 0 →
      ∃ b1, (rk_dmabuf_map env w (some b)).2.1 = some b1 ∧
        rk_dmabuf_map env (rk_dmabuf_map env w (some b)).2.2 (some b1) =
          ((rk_dmabuf_map env w (some b)).1, some b1, (rk_dmabuf_map env w (some b)).2.2)) ∧
    rk_dmabuf_map env w none = (0, none, w) ∧
    (b.fd < 0 → rk_dmabuf_map env w (some b) = (0, some b, w)) ∧
    (∀ b1, (rk_dmabuf_map env w (some b)).2.1 = some b1 → b1.view_has_handle = true) := by
  have hinv1 : b.vir_addr = 0 ∨ b.fd ≥ 0 := by
    simpa [RkDmaBuffer.view_has_handle] using hinv
  refine ⟨fun hv => ?_, fun hv hf hne => ?_, rfl, fun hf => ?_, fun b1 hb1 => ?_⟩
  · simp [rk_dmabuf_map, hv]
  · have hf1 : ¬ b.fd < 0 := by omega
    cases hm : env.mmap b.fd b.size with
    | none => simp [rk_dmabuf_map, hv, hf1, hm] at hne
    | some addr =>
      simp only [rk_dmabuf_map, hv, hf1, hm, ne_eq, not_true_eq_false, if_false] at hne ⊢
      exact ⟨_, rfl, by simp [hne]⟩
  · have hv : b.vir_addr = 0 := by
      rcases hinv1 with h | h
      · exact h
      · omega
    simp [rk_dmabuf_map, hv, hf]
  · unfold rk_dmabuf_map at hb1
    simp only [] at hb1
    repeat' split at hb1
    all_goals simp only [Option.some.injEq] at hb1
    all_goals subst hb1
    all_goals first
      | exact hinv
      | (simp [RkDmaBuffer.view_has_handle]; omega)

/-- C14 on an unmapped 1920x1080 buffer with descriptor 8: the second map returns the
view of the first. -/
theorem dmabuf_map_idempotent_witness :
    ∃ b1, (rk_dmabuf_map (display_env 1920 1080 1920) ready_world
        (some ⟨8, 8294400, 1920, 1080, 1920, 1, 0⟩)).2.1 = some b1 ∧
      rk_dmabuf_map (display_env 1920 1080 1920)
        (rk_dmabuf_map (display_env 1920 1080 1920) ready_world
          (some ⟨8, 8294400, 1920, 1080, 1920, 1, 0⟩)).2.2 (some b1) =
        ((rk_dmabuf_map (display_env 1920 1080 1920) ready_world
          (some ⟨8, 8294400, 1920, 1080, 1920, 1, 0⟩)).1, some b1,
         (rk_dmabuf_map (display_env 1920 1080 1920) ready_world
          (some ⟨8, 8294400, 1920, 1080, 1920, 1, 0⟩)).2.2) :=
  (dmabuf_map_idempotent (display_env 1920 1080 1920) ready_world
    ⟨8, 8294400, 1920, 1080, 1920, 1, 0⟩ (by decide)).2.1 (by decide) (by decide) (by decide)

/-! ## Orchestrator: guards, operation selection, target dimensions -/

/-- After `rk_screenshot_deinit` the pipeline is not initialized. -/
theorem deinit_uninitialized (w : World) : (rk_screenshot_deinit w).g_ctx.initialized = false := by
  unfold rk_screenshot_deinit
  split
  · rename_i h; simpa using h
  · rfl

/-- C18. `rk_screenshot_capture` returns `RKSS_ERROR_NOT_INITIALIZED` whenever the
pipeline is not initialized (at program start, after `rk_screenshot_deinit`), whatever
its arguments, and leaves the world untouched; when initialized it returns
`RKSS_ERROR_INVALID_PARAM` for a null config or a null result pointer, again leaving the
world untouched. -/
theorem capture_guards (env : Env) (w : World) (cfg : Option RkScreenshotConfig)
    (result : Bool) :
    (w.g_ctx.initialized = false →
      (rk_screenshot_capture env w cfg result).err = RKSS_ERROR_NOT_INITIALIZED ∧
      (rk_screenshot_capture env w cfg result).result = none ∧
      (rk_screenshot_capture env w cfg result).world = w) ∧
    (rk_screenshot_capture env initial_world cfg result).err = RKSS_ERROR_NOT_INITIALIZED ∧
    (rk_screenshot_capture env (rk_screenshot_deinit w) cfg result).err =
      RKSS_ERROR_NOT_INITIALIZED ∧
    (rk_screenshot_capture env (rk_screenshot_deinit w) cfg result).world =
      rk_screenshot_deinit w ∧
    (w.g_ctx.initialized = true → (cfg = none ∨ result = false) →
      (rk_screenshot_capture env w cfg result).err = RKSS_ERROR_INVALID_PARAM ∧
      (rk_screenshot_capture env w cfg result).result = none ∧
      (rk_screenshot_capture env w cfg result).world = w) := by
  have key : ∀ w1 : World, w1.g_ctx.initialized = false →
      (rk_screenshot_capture env w1 cfg result).err = RKSS_ERROR_NOT_INITIALIZED ∧
      (rk_screenshot_capture env w1 cfg result).result = none ∧
      (rk_screenshot_capture env w1 cfg result).world = w1 := by
    intro w1 h
    simp [rk_screenshot_capture, h]
  refine ⟨key w, (key initial_world rfl).1, (key _ (deinit_uninitialized w)).1,
    (key _ (deinit_uninitialized w)).2.2, fun hi hn => ?_⟩
  rcases hn with h | h
  · subst h; simp [rk_screenshot_capture, hi]
  · subst h
    cases cfg <;> simp [rk_screenshot_capture, hi]

/-- C18 on a null config with the pipeline initialized, and after a deinit. -/
theorem capture_guards_witness :
    (rk_screenshot_capture (display_env 1920 1080 1920) ready_world none true).err =
      RKSS_ERROR_INVALID_PARAM ∧
    (rk_screenshot_capture (display_env 1920 1080 1920) (rk_screenshot_deinit ready_world)
      (some default_config) true).err = RKSS_ERROR_NOT_INITIALIZED :=
  ⟨((capture_guards (display_env 1920 1080 1920) ready_world none true).2.2.2.2
      (by decide) (Or.inl rfl)).1,
   (capture_guards (display_env 1920 1080 1920) ready_world (some default_config) true).2.2.1⟩

/-- C19. A call of `rk_rga_process` that passes validation issues exactly one
accelerator operation: the rotation by the given angle for 90, 180 and 270, the resize
for rotation 0 with differing sizes, the plain copy for rotation 0 with equal sizes. -/
theorem rga_process_selects (env : Env) (w : World) (s d : RkDmaBuffer) (rotation : Int)
    (hinit : w.g_ctx.rga.initialized = true) (hs : s.fd ≥ 0) (hd : d.fd ≥ 0) :
    rga_ops (rk_rga_process env w true (some s) (some d) rotation).2.trace =
      rga_ops w.trace ++ [rga_select s d rotation] ∧
    (rotation = 90 → rga_select s d rotation = RgaOp.rotate90) ∧
    (rotation = 180 → rga_select s d rotation = RgaOp.rotate180) ∧
    (rotation = 270 → rga_select s d rotation = RgaOp.rotate270) ∧
    (rotation = 0 → (s.width ≠ d.width ∨ s.height ≠ d.height) →
      rga_select s d rotation = RgaOp.resize) ∧
    (rotation = 0 → s.width = d.width → s.height = d.height →
      rga_select s d rotation = RgaOp.copy) := by
  refine ⟨?_, ?_, ?_, ?_, ?_, ?_⟩
  · have hf : ¬ (s.fd < 0 ∨ d.fd < 0) := by omega
    unfold rk_rga_process
    simp only [hinit, hf]
    simp only [Bool.not_true, Bool.or_false, Bool.false_eq_true, if_false]
    split <;> simp [rga_ops, World.emit, Event.rga_op]
  · intro h; simp [rga_select, h]
  · intro h; simp [rga_select, h]
  · intro h; simp [rga_select, h]
  · intro h hne
    have : ¬ (s.width = d.width ∧ s.height = d.height) := by
      rintro ⟨a, b⟩; rcases hne with h1 | h1 <;> contradiction
    simp [rga_select, h, this]
  · intro h a b; simp [rga_select, h, a, b]

/-- C19 on a 1920x1080 source and a 1280x720 destination with rotation 0: one resize. -/
theorem rga_process_selects_witness :
    rga_ops (rk_rga_process (display_env 1920 1080 1920) ready_world true
        (some ⟨8, 8294400, 1920, 1080, 1920, 1, 0⟩)
        (some ⟨9, 3686400, 1280, 720, 1280, 0, 0⟩) 0).2.trace =
      rga_ops ready_world.trace ++
        [rga_select ⟨8, 8294400, 1920, 1080, 1920, 1, 0⟩ ⟨9, 3686400, 1280, 720, 1280, 0, 0⟩ 0] ∧
    rga_select ⟨8, 8294400, 1920, 1080, 1920, 1, 0⟩ ⟨9, 3686400, 1280, 720, 1280, 0, 0⟩ 0 =
      RgaOp.resize :=
  ⟨(rga_process_selects (display_env 1920 1080 1920) ready_world
      ⟨8, 8294400, 1920, 1080, 1920, 1, 0⟩ ⟨9, 3686400, 1280, 720, 1280, 0, 0⟩ 0
      (by decide) (by decide) (by decide)).1,
   (rga_process_selects (display_env 1920 1080 1920) ready_world
      ⟨8, 8294400, 1920, 1080, 1920, 1, 0⟩ ⟨9, 3686400, 1280, 720, 1280, 0, 0⟩ 0
      (by decide) (by decide) (by decide)).2.2.2.2.1 rfl (Or.inl (by decide))⟩

/-- A transform-stage call of a trace is a call of the trace. -/
theorem mem_of_mem_transform_calls (e : Event) (t : List Event)
    (h : e ∈ transform_calls t) : e ∈ t := by
  unfold transform_calls at h
  exact List.mem_of_mem_filter h

/-- On success with the gate open the last transform-stage call is the accelerator
operation from the captured buffer into a destination of the scale target's size. -/
theorem transform_trace_rga (env : Env) (w : World) (c : RkScreenshotConfig)
    (res : RkScreenshotResult) (buf : RkDmaBuffer) (t : Nat)
    (hn : need_scale c buf = true)
    (hs : (capture_transform env w c res buf t).err = RKSS_SUCCESS) :
    ∃ scaled : RkDmaBuffer, scaled.width = c.scale_width ∧ scaled.height = c.scale_height ∧
      Event.rga (rga_select buf scaled c.rotation) buf scaled ∈
        (capture_transform env w c res buf t).world.trace := by
  unfold capture_transform at hs ⊢
  simp only [hn, if_true] at hs ⊢
  split at hs
  · simp at hs
  · rename_i scaled hsc
    obtain ⟨y, hy, hsucc⟩ := transform_calls_rga env
      (rk_dmabuf_alloc env (rk_get_time_us env w).2 c.scale_width c.scale_height).2 true
      buf scaled c.rotation
    have hd := alloc_dims _ _ _ _ _ hsc
    split at hs
    · rename_i hbad
      simp at hs
      exact absurd hs hbad
    · rename_i hok
      simp only [hok, if_false]
      refine ⟨scaled, hd.1, hd.2, ?_⟩
      apply mem_of_mem_transform_calls
      rw [transform_calls_output, transform_calls_free]
      simp only [trace_clock]
      rw [hy, hsucc (by simpa using hok)]
      simp

/-- C20 (amended). When a successful `rk_screenshot_capture` runs the transform stage
with scale target (W, H), the destination handed to the accelerator and the result
both have width W and height H, for every rotation: nothing is swapped. -/
theorem scaled_dims_not_swapped (env : Env) (w : World) (c : RkScreenshotConfig)
    (buf : RkDmaBuffer)
    (hsucc : (rk_screenshot_capture env w (some c) true).err = RKSS_SUCCESS)
    (hcap : (rk_sf_capture env w w.g_ctx.sf_ctx true).1 = .ok buf)
    (hsw : c.scale_width > 0) (hsh : c.scale_height > 0)
    (hdiff : c.scale_width ≠ buf.width ∨ c.scale_height ≠ buf.height) :
    ∃ r scaled, (rk_screenshot_capture env w (some c) true).result = some r ∧
      Event.rga (rga_select buf scaled c.rotation) buf scaled ∈
        (rk_screenshot_capture env w (some c) true).world.trace ∧
      scaled.width = c.scale_width ∧ scaled.height = c.scale_height ∧
      r.width = c.scale_width ∧ r.height = c.scale_height := by
  have hne := (capture_success env w (some c) true).1 hsucc
  obtain ⟨r, hr⟩ := Option.ne_none_iff_exists'.1 hne
  obtain ⟨c1, b1, hc, _, hinit, hcal, _⟩ := capture_delivers env w (some c) true r hr
  obtain ⟨w1, ct, hred, htc⟩ := capture_reduce env w c buf hinit hcal hcap
  have hn : need_scale c buf = true := (need_scale_iff c buf).2 ⟨hsw, hsh, hdiff⟩
  rw [hred] at hr hsucc ⊢
  have ht := transform_result _ _ _ _ _ _ _ hr
  obtain ⟨scaled, h1, h2, hmem⟩ := transform_trace_rga env w1 c _ buf _ hn hsucc
  exact ⟨r, scaled, hr, hmem, h1, h2, (ht.2.1 hn).1, (ht.2.1 hn).2⟩

/-- C20 (amended) on a 1920x1080 capture, target 1280x720, rotation 90. -/
theorem scaled_dims_not_swapped_witness :
    ∃ r scaled, (rk_screenshot_capture (display_env 1920 1080 1920) ready_world
        (some { default_config with scale_width := 1280, scale_height := 720,
                                    rotation := 90 }) true).result = some r ∧
      Event.rga (rga_select ⟨8, 8294400, 1920, 1080, 1920, 1, 0⟩ scaled 90)
          ⟨8, 8294400, 1920, 1080, 1920, 1, 0⟩ scaled ∈
        (rk_screenshot_capture (display_env 1920 1080 1920) ready_world
          (some { default_config with scale_width := 1280, scale_height := 720,
                                      rotation := 90 }) true).world.trace ∧
      scaled.width = 1280 ∧ scaled.height = 720 ∧ r.width = 1280 ∧ r.height = 720 :=
  scaled_dims_not_swapped (display_env 1920 1080 1920) ready_world
    { default_config with scale_width := 1280, scale_height := 720, rotation := 90 }
    ⟨8, 8294400, 1920, 1080, 1920, 1, 0⟩ (by decide) rfl (by decide) (by decide)
    (by decide)

/-- C20 as stated fails: with rotation 90 and target 1280x720 the accelerator rotates
and the result is 1280x720, not the swapped 720x1280. -/
theorem rotated_target_not_swapped :
    (rk_screenshot_capture (display_env 1920 1080 1920) ready_world
        (some { default_config with scale_width := 1280, scale_height := 720,
                                    rotation := 90 }) true).result.map
          (fun r => (r.width, r.height)) = some (1280, 720) ∧
    rga_ops (rk_screenshot_capture (display_env 1920 1080 1920) ready_world
        (some { default_config with scale_width := 1280, scale_height := 720,
                                    rotation := 90 }) true).world.trace = [RgaOp.rotate90] ∧
    ((1280 : Int), (720 : Int)) ≠ (720, 1280) := by
  decide

/-! ## Encode stage: paths, return codes and steps -/

@[simp]
theorem calls_append (p : Event → Bool) (a b : List Event) :
    calls p (a ++ b) = calls p a + calls p b := by
  simp [calls]

@[simp]
theorem calls_emit (p : Event → Bool) (w : World) (e : Event) :
    calls p (w.emit e).trace = calls p w.trace + (if p e then 1 else 0) := by
  cases h : p e <;> simp [calls, World.emit, List.filter_cons, h]

theorem calls_copy_rows (p : Event → Bool) (s : RkDmaBuffer)
    (hp : ∀ e, e.is_encoder_step = false → p e = false) : calls p (copy_rows s) = 0 := by
  have h : ∀ a b c, p (Event.memcpy_frame a b c) = false := fun a b c => hp _ rfl
  unfold copy_rows calls
  simp only
  split_ifs
  · simp [List.filter_cons, h]
  · simp [List.filter_map, Function.comp_def, h]

theorem calls_cleanup (p : Event → Bool) (w : World) (a b c : Bool)
    (hp : ∀ e, e.is_encoder_step = false → p e = false) :
    calls p (mpp_cleanup w a b c).trace = calls p w.trace := by
  unfold mpp_cleanup
  simp only
  split_ifs <;> simp [hp _ (rfl : Event.mpp_reset.is_encoder_step = false),
    hp _ (rfl : Event.mpp_frame_deinit.is_encoder_step = false),
    hp _ (rfl : Event.mpp_buffer_put.is_encoder_step = false),
    hp _ (rfl : Event.mpp_packet_deinit.is_encoder_step = false),
    hp _ (rfl : Event.free_pkt.is_encoder_step = false)]

theorem calls_map (p : Event → Bool) (env : Env) (w : World) (b : Option RkDmaBuffer)
    (hp : ∀ e, e.is_encoder_step = false → p e = false) :
    calls p (rk_dmabuf_map env w b).2.2.trace = calls p w.trace := by
  have h : ∀ x y z, p (Event.mmap x y z) = false := fun x y z => hp _ rfl
  unfold rk_dmabuf_map
  repeat' split
  all_goals simp [h]

theorem calls_unmap (p : Event → Bool) (w : World) (b : Option RkDmaBuffer)
    (hp : ∀ e, e.is_encoder_step = false → p e = false) :
    calls p (rk_dmabuf_unmap w b).2.trace = calls p w.trace := by
  have h : ∀ x y, p (Event.munmap x y) = false := fun x y => hp _ rfl
  unfold rk_dmabuf_unmap
  repeat' split
  all_goals simp [h]

/-- The encoder steps and the return code of lines 181-247. -/
theorem submit_steps (p : Event → Bool) (env : Env) (w : World) (s : RkDmaBuffer)
    (src : Option RkDmaBuffer) (fb : Bool)
    (hp : ∀ e, e.is_encoder_step = false → p e = false) :
    calls p (encode_submit env w s src fb).world.trace =
      calls p w.trace + (if p Event.encode_put_frame then 1 else 0) +
        (if env.put_frame_ok then
          (if p Event.encode_get_packet then 1 else 0) +
            (match env.get_packet_ok, env.packet with
              | true, some bytes => if p (Event.malloc_out bytes.length) then 1 else 0
              | _, _ => 0)
        else 0) := by
  have h1 : ∀ a b c d, p (Event.mpp_frame_init a b c d) = false := fun a b c d => hp _ rfl
  have h2 : ∀ a, p (Event.mpp_packet_init a) = false := fun a => hp _ rfl
  unfold encode_submit
  simp only
  repeat' split
  all_goals simp_all [calls_cleanup p _ _ _ _ hp]

theorem submit_err (env : Env) (w : World) (s : RkDmaBuffer)
    (src : Option RkDmaBuffer) (fb : Bool) :
    (encode_submit env w s src fb).err =
      (if env.put_frame_ok then
        (match env.get_packet_ok, env.packet with
          | true, some _ => if env.malloc_out_ok then RKSS_SUCCESS else RKSS_ERROR_NO_MEMORY
          | _, _ => RKSS_ERROR_ENCODE_FAILED)
       else RKSS_ERROR_ENCODE_FAILED) := by
  unfold encode_submit
  simp only
  repeat' split
  all_goals simp_all

theorem map_fst (env : Env) (w w1 : World) (b : Option RkDmaBuffer) :
    (rk_dmabuf_map env w1 b).1 = (rk_dmabuf_map env w b).1 ∧
    (rk_dmabuf_map env w1 b).2.1 = (rk_dmabuf_map env w b).2.1 := by
  unfold rk_dmabuf_map
  repeat' split
  all_goals simp_all

theorem unmap_fst (w w1 : World) (b : Option RkDmaBuffer) :
    (rk_dmabuf_unmap w1 b).1 = (rk_dmabuf_unmap w b).1 := by
  unfold rk_dmabuf_unmap
  repeat' split
  all_goals simp_all

/-- What `encode_submit` returns does not depend on the world it starts from. -/
theorem submit_indep (env : Env) (w w1 : World) (s : RkDmaBuffer)
    (src : Option RkDmaBuffer) (fb : Bool) :
    (encode_submit env w1 s src fb).err = (encode_submit env w s src fb).err ∧
    (encode_submit env w1 s src fb).out_data = (encode_submit env w s src fb).out_data ∧
    (encode_submit env w1 s src fb).out_size = (encode_submit env w s src fb).out_size ∧
    (encode_submit env w1 s src fb).src = (encode_submit env w s src fb).src := by
  unfold encode_submit
  simp only
  repeat' split
  all_goals simp_all

/-- What the copy path returns does not depend on the world it starts from. -/
theorem copy_indep (env : Env) (w w1 : World) (s : RkDmaBuffer) :
    (encode_copy env w1 s).err = (encode_copy env w s).err ∧
    (encode_copy env w1 s).out_data = (encode_copy env w s).out_data ∧
    (encode_copy env w1 s).out_size = (encode_copy env w s).out_size ∧
    (encode_copy env w1 s).src = (encode_copy env w s).src := by
  unfold encode_copy
  simp only
  have hm := map_fst env (w.emit (Event.mpp_buffer_get (frame_size s)))
    (w1.emit (Event.mpp_buffer_get (frame_size s))) (some s)
  split
  · simp
  · rw [hm.1, hm.2]
    split
    · simp
    · have hu := unmap_fst
        { (rk_dmabuf_map env (w.emit (Event.mpp_buffer_get (frame_size s))) (some s)).2.2 with
          trace := (rk_dmabuf_map env (w.emit (Event.mpp_buffer_get (frame_size s)))
            (some s)).2.2.trace ++ copy_rows s }
        { (rk_dmabuf_map env (w1.emit (Event.mpp_buffer_get (frame_size s))) (some s)).2.2 with
          trace := (rk_dmabuf_map env (w1.emit (Event.mpp_buffer_get (frame_size s)))
            (some s)).2.2.trace ++ copy_rows s }
        (rk_dmabuf_map env (w.emit (Event.mpp_buffer_get (frame_size s))) (some s)).2.1
      rw [hu]
      exact submit_indep _ _ _ _ _ _

/-- The return code of the copy path. -/
theorem copy_err (env : Env) (w : World) (s : RkDmaBuffer) :
    (encode_copy env w s).err =
      (if env.mpp_get.1 && env.mpp_get.2 then
        (if (rk_dmabuf_map env w (some s)).1 = 0 then RKSS_ERROR_ENCODE_FAILED
         else if env.put_frame_ok then
          (match env.get_packet_ok, env.packet with
            | true, some _ => if env.malloc_out_ok then RKSS_SUCCESS else RKSS_ERROR_NO_MEMORY
            | _, _ => RKSS_ERROR_ENCODE_FAILED)
         else RKSS_ERROR_ENCODE_FAILED)
       else RKSS_ERROR_NO_MEMORY) := by
  unfold encode_copy
  simp only
  rw [(map_fst env w (w.emit (Event.mpp_buffer_get (frame_size s))) (some s)).1]
  split
  · rename_i h
    have : (env.mpp_get.1 && env.mpp_get.2) = false := by
      cases h1 : env.mpp_get.1 <;> cases h2 : env.mpp_get.2 <;> simp_all
    simp [this]
  · rename_i h
    have : (env.mpp_get.1 && env.mpp_get.2) = true := by
      cases h1 : env.mpp_get.1 <;> cases h2 : env.mpp_get.2 <;> simp_all
    simp only [this, if_true]
    split
    · rfl
    · exact submit_err _ _ _ _ _

/-- The encoder steps of the copy path. -/
theorem copy_steps (p : Event → Bool) (env : Env) (w : World) (s : RkDmaBuffer)
    (hp : ∀ e, e.is_encoder_step = false → p e = false) :
    calls p (encode_copy env w s).world.trace =
      calls p w.trace + (if p (Event.mpp_buffer_get (frame_size s)) then 1 else 0) +
        (if (env.mpp_get.1 && env.mpp_get.2) = true ∧ (rk_dmabuf_map env w (some s)).1 ≠ 0 then
          (if p Event.encode_put_frame then 1 else 0) +
          (if env.put_frame_ok then
            (if p Event.encode_get_packet then 1 else 0) +
              (match env.get_packet_ok, env.packet with
                | true, some bytes => if p (Event.malloc_out bytes.length) then 1 else 0
                | _, _ => 0)
          else 0)
        else 0) := by
  have h1 : p Event.free_pkt = false := hp _ rfl
  have h2 : p Event.mpp_buffer_put = false := hp _ rfl
  unfold encode_copy
  simp only
  rw [(map_fst env w (w.emit (Event.mpp_buffer_get (frame_size s))) (some s)).1]
  split
  · rename_i h
    have : (env.mpp_get.1 && env.mpp_get.2) = false := by
      cases h1 : env.mpp_get.1 <;> cases h2 : env.mpp_get.2 <;> simp_all
    simp [this, h1]
  · rename_i h
    have : (env.mpp_get.1 && env.mpp_get.2) = true := by
      cases h1 : env.mpp_get.1 <;> cases h2 : env.mpp_get.2 <;> simp_all
    simp only [this, true_and]
    split
    · rename_i hm
      simp [hm, h1, h2, calls_map p env _ _ hp]
    · rename_i hm
      rw [submit_steps p env _ _ _ _ hp, calls_unmap p _ _ hp]
      simp [hm, calls_map p env _ _ hp, calls_copy_rows p s hp]
      omega

/-- The body of `rk_mpp_encode_jpeg` once the parameter checks have passed, with the
copy path named. -/
theorem encode_cases (env : Env) (w : World) (s : RkDmaBuffer) (quality : Int)
    (hinit : w.g_ctx.mpp.initialized = true) :
    rk_mpp_encode_jpeg env w true (some s) true true quality =
      (if env.mpp_control_ok then
        (if env.malloc_pkt_ok then
          (if zero_copy_flag s then
            (if env.mpp_import.1 && env.mpp_import.2 then
              encode_submit env ((encode_entry env w s quality).emit
                (Event.mpp_buffer_import s.fd s.size)) s (some s) true
             else
              encode_copy env ((encode_entry env w s quality).emit
                (Event.mpp_buffer_import s.fd s.size)) s)
           else encode_copy env (encode_entry env w s quality) s)
         else ⟨RKSS_ERROR_NO_MEMORY, none, none, some s, encode_entry env w s quality⟩)
       else ⟨RKSS_ERROR_ENCODE_FAILED, none, none, some s,
          ((rk_get_time_us env w).2.emit (Event.mpp_enc_cfg s.width s.height
            (hor_stride_bytes s) (ver_stride_aligned s) (mpp_quant quality))).emit
              Event.mpp_control⟩) := by
  unfold rk_mpp_encode_jpeg encode_copy encode_entry
  simp only [hinit]
  cases env.mpp_control_ok <;> cases env.malloc_pkt_ok <;> cases zero_copy_flag s <;>
    cases env.mpp_import.1 <;> cases env.mpp_import.2 <;> simp

/-- C15 (amended). In `rk_mpp_encode_jpeg`, when the source is zero-copy eligible but
the back end rejects the import, the call does not fail at the import: it is the copy
path run after the rejected import, its return code, outputs and source are those of the
copy path started from any world, and it succeeds exactly when the pool allocation, the
mapping, the submission, the retrieval and the allocation of the output payload all
succeed. -/
theorem import_failure_falls_back (env : Env) (w : World) (s : RkDmaBuffer) (quality : Int)
    (hinit : w.g_ctx.mpp.initialized = true)
    (hctl : env.mpp_control_ok = true) (hpkt : env.malloc_pkt_ok = true)
    (helig : zero_copy_flag s = true)
    (hrej : (env.mpp_import.1 && env.mpp_import.2) = false) :
    rk_mpp_encode_jpeg env w true (some s) true true quality =
      encode_copy env ((encode_entry env w s quality).emit
        (Event.mpp_buffer_import s.fd s.size)) s ∧
    (∀ w0 : World,
      (rk_mpp_encode_jpeg env w true (some s) true true quality).err =
        (encode_copy env w0 s).err ∧
      (rk_mpp_encode_jpeg env w true (some s) true true quality).out_data =
        (encode_copy env w0 s).out_data ∧
      (rk_mpp_encode_jpeg env w true (some s) true true quality).out_size =
        (encode_copy env w0 s).out_size ∧
      (rk_mpp_encode_jpeg env w true (some s) true true quality).src =
        (encode_copy env w0 s).src) ∧
    ((rk_mpp_encode_jpeg env w true (some s) true true quality).err = RKSS_SUCCESS ↔
      (env.mpp_get.1 = true ∧ env.mpp_get.2 = true ∧
       (rk_dmabuf_map env w (some s)).1 ≠ 0 ∧ env.put_frame_ok = true ∧
       env.get_packet_ok = true ∧ env.packet ≠ none ∧ env.malloc_out_ok = true)) := by
  have h := encode_cases env w s quality hinit
  simp only [hctl, hpkt, helig, hrej, if_true] at h
  simp only [Bool.false_eq_true, if_false] at h
  refine ⟨h, fun w0 => ?_, ?_⟩
  · rw [h]
    exact copy_indep env w0 _ s
  · rw [h, copy_err, (map_fst env w _ (some s)).1]
    cases env.mpp_get.1 <;> cases env.mpp_get.2 <;> cases env.put_frame_ok <;>
      cases env.get_packet_ok <;> cases env.packet <;> cases env.malloc_out_ok <;>
      by_cases hm : (rk_dmabuf_map env w (some s)).1 = 0 <;> simp [hm]

/-- A source that is not eligible for zero-copy takes the same copy path. -/
theorem ineligible_takes_copy (env : Env) (w : World) (s : RkDmaBuffer) (quality : Int)
    (hinit : w.g_ctx.mpp.initialized = true)
    (hctl : env.mpp_control_ok = true) (hpkt : env.malloc_pkt_ok = true)
    (helig : zero_copy_flag s = false) :
    rk_mpp_encode_jpeg env w true (some s) true true quality =
      encode_copy env (encode_entry env w s quality) s := by
  have h := encode_cases env w s quality hinit
  simpa [hctl, hpkt, helig] using h

/-- C15 at an eligible 1920x1088 source whose import the back end rejects: the call
succeeds on the copy path. -/
theorem import_failure_falls_back_witness :
    (rk_mpp_encode_jpeg { display_env 1920 1088 1920 with mpp_import := (false, false) }
        ready_world true (some ⟨8, 8355840, 1920, 1088, 1920, 1, 0⟩) true true 90).err =
      RKSS_SUCCESS :=
  (import_failure_falls_back { display_env 1920 1088 1920 with mpp_import := (false, false) }
    ready_world ⟨8, 8355840, 1920, 1088, 1920, 1, 0⟩ 90 (by decide) (by decide) (by decide)
    (by decide) (by decide)).2.2.2 (by decide)

/-- C15 as stated fails when the output payload cannot be allocated: for an eligible
1920x1088 source whose import is rejected, the pool allocation, the mapping, the
submission and the retrieval all succeed, and the call returns `RKSS_ERROR_NO_MEMORY`. -/
theorem fallback_fails_on_payload_alloc :
    zero_copy_flag ⟨8, 8355840, 1920, 1088, 1920, 1, 0⟩ = true ∧
    (display_env 1920 1088 1920).mpp_get = (true, true) ∧
    (display_env 1920 1088 1920).put_frame_ok = true ∧
    (display_env 1920 1088 1920).get_packet_ok = true ∧
    (display_env 1920 1088 1920).packet ≠ none ∧
    (rk_dmabuf_map { display_env 1920 1088 1920 with
        mpp_import := (false, false), malloc_out_ok := false } ready_world
      (some ⟨8, 8355840, 1920, 1088, 1920, 1, 0⟩)).1 ≠ 0 ∧
    (rk_mpp_encode_jpeg { display_env 1920 1088 1920 with
        mpp_import := (false, false), malloc_out_ok := false }
      ready_world true (some ⟨8, 8355840, 1920, 1088, 1920, 1, 0⟩) true true 90).err =
      RKSS_ERROR_NO_MEMORY := by
  decide

/-- The encoder steps of a call of `rk_mpp_encode_jpeg` that passed its checks. -/
theorem encode_steps (p : Event → Bool) (env : Env) (w : World) (s : RkDmaBuffer)
    (quality : Int) (hinit : w.g_ctx.mpp.initialized = true)
    (hp : ∀ e, e.is_encoder_step = false → p e = false) :
    calls p (rk_mpp_encode_jpeg env w true (some s) true true quality).world.trace =
      calls p w.trace +
      (if env.mpp_control_ok then
        (if p (Event.malloc_pkt (frame_size s)) then 1 else 0) +
        (if env.malloc_pkt_ok then
          (if zero_copy_flag s = true ∧ (env.mpp_import.1 && env.mpp_import.2) = true then 0
           else (if p (Event.mpp_buffer_get (frame_size s)) then 1 else 0)) +
          (if (zero_copy_flag s = true ∧ (env.mpp_import.1 && env.mpp_import.2) = true) ∨
              ((env.mpp_get.1 && env.mpp_get.2) = true ∧
                (rk_dmabuf_map env w (some s)).1 ≠ 0) then
            (if p Event.encode_put_frame then 1 else 0) +
            (if env.put_frame_ok then
              (if p Event.encode_get_packet then 1 else 0) +
                (match env.get_packet_ok, env.packet with
                  | true, some bytes => if p (Event.malloc_out bytes.length) then 1 else 0
                  | _, _ => 0)
            else 0)
          else 0)
        else 0)
      else 0) := by
  have h1 : ∀ a b c d e, p (Event.mpp_enc_cfg a b c d e) = false := fun a b c d e => hp _ rfl
  have h2 : p Event.mpp_control = false := hp _ rfl
  have h3 : ∀ a b, p (Event.mpp_buffer_import a b) = false := fun a b => hp _ rfl
  rw [encode_cases env w s quality hinit]
  by_cases hc : env.mpp_control_ok = true
  · simp only [hc, if_true]
    by_cases hk : env.malloc_pkt_ok = true
    · simp only [hk, if_true]
      by_cases hz : zero_copy_flag s = true
      · simp only [hz, if_true, true_and]
        by_cases hi : (env.mpp_import.1 && env.mpp_import.2) = true
        · simp only [hi, if_true, true_or]
          rw [submit_steps p env _ _ _ _ hp]
          simp [encode_entry, h1, h2, h3]
          omega
        · simp only [hi, Bool.false_eq_true, if_false, false_or]
          rw [copy_steps p env _ _ hp, (map_fst env w _ (some s)).1]
          simp [encode_entry, h1, h2, h3]
          omega
      · simp only [hz, Bool.false_eq_true, if_false, false_and, false_or]
        rw [copy_steps p env _ _ hp, (map_fst env w _ (some s)).1]
        simp [encode_entry, h1, h2, h3]
        omega
    · simp [hk, encode_entry, h1, h2]
  · simp [hc, h1, h2]

/-- The return code of a call of `rk_mpp_encode_jpeg` that passed its checks. -/
theorem encode_err (env : Env) (w : World) (s : RkDmaBuffer)
    (quality : Int) (hinit : w.g_ctx.mpp.initialized = true) :
    (rk_mpp_encode_jpeg env w true (some s) true true quality).err =
      (if env.mpp_control_ok then
        (if env.malloc_pkt_ok then
          (if (zero_copy_flag s = true ∧ (env.mpp_import.1 && env.mpp_import.2) = true) ∨
              ((env.mpp_get.1 && env.mpp_get.2) = true ∧
                (rk_dmabuf_map env w (some s)).1 ≠ 0) then
            (if env.put_frame_ok then
              (match env.get_packet_ok, env.packet with
                | true, some _ =>
                  if env.malloc_out_ok then RKSS_SUCCESS else RKSS_ERROR_NO_MEMORY
                | _, _ => RKSS_ERROR_ENCODE_FAILED)
             else RKSS_ERROR_ENCODE_FAILED)
           else if (env.mpp_get.1 && env.mpp_get.2) = true then RKSS_ERROR_ENCODE_FAILED
           else RKSS_ERROR_NO_MEMORY)
         else RKSS_ERROR_NO_MEMORY)
       else RKSS_ERROR_ENCODE_FAILED) := by
  rw [encode_cases env w s quality hinit]
  by_cases hc : env.mpp_control_ok = true
  · simp only [hc, if_true]
    by_cases hk : env.malloc_pkt_ok = true
    · simp only [hk, if_true]
      by_cases hz : zero_copy_flag s = true
      · simp only [hz, if_true, true_and]
        by_cases hi : (env.mpp_import.1 && env.mpp_import.2) = true
        · simp only [hi, if_true, true_or]
          exact submit_err _ _ _ _ _
        · simp only [hi, Bool.false_eq_true, if_false, false_or]
          rw [copy_err, (map_fst env w _ (some s)).1]
          by_cases hg : (env.mpp_get.1 && env.mpp_get.2) = true <;>
            by_cases hm : (rk_dmabuf_map env w (some s)).1 = 0 <;> simp [hg, hm]
      · simp only [hz, Bool.false_eq_true, if_false, false_and, false_or]
        rw [copy_err, (map_fst env w _ (some s)).1]
        by_cases hg : (env.mpp_get.1 && env.mpp_get.2) = true <;>
          by_cases hm : (rk_dmabuf_map env w (some s)).1 = 0 <;> simp [hg, hm]
    · simp [hk]
  · simp [hc]

/-- A call of `rk_mpp_encode_jpeg` that fails a parameter check does nothing. -/
theorem encode_rejects (env : Env) (w : World) (enc : Bool) (src : Option RkDmaBuffer)
    (od os : Bool) (quality : Int)
    (h : ¬ (enc = true ∧ w.g_ctx.mpp.initialized = true ∧ src.isSome = true ∧
      od = true ∧ os = true)) :
    (rk_mpp_encode_jpeg env w enc src od os quality).world = w ∧
    (rk_mpp_encode_jpeg env w enc src od os quality).err ≠ RKSS_SUCCESS := by
  unfold rk_mpp_encode_jpeg
  cases enc <;> cases hi : w.g_ctx.mpp.initialized <;> cases src <;> cases od <;> cases os <;>
    simp_all

theorem encoder_step_split (e : Event) (h : e.is_encoder_step = false) :
    e.is_submission = false ∧ e.is_retrieval = false ∧ e.is_packet_alloc = false ∧
      e.is_pool_alloc = false ∧ e.is_payload_alloc = false := by
  simp only [Event.is_encoder_step, Bool.or_eq_false_iff] at h
  exact ⟨h.1.1.1.1, h.1.1.1.2, h.1.1.2, h.1.2, h.2⟩

/-- C16. The failure taxonomy of `rk_mpp_encode_jpeg`: a call that reaches a failing
frame submission or a failing packet retrieval returns `RKSS_ERROR_ENCODE_FAILED`; a call
that reaches a failing allocation (output packet buffer, pool frame buffer or output
payload) returns `RKSS_ERROR_NO_MEMORY`; a call that returns `RKSS_SUCCESS` made exactly
one submission and one retrieval and both succeeded; no call makes more than one
submission or more than one retrieval. -/
theorem encode_failure_taxonomy (env : Env) (w : World) (enc : Bool)
    (src : Option RkDmaBuffer) (out_data out_size : Bool) (quality : Int) :
    (calls Event.is_submission w.trace <
        calls Event.is_submission
          (rk_mpp_encode_jpeg env w enc src out_data out_size quality).world.trace →
      env.put_frame_ok = false →
      (rk_mpp_encode_jpeg env w enc src out_data out_size quality).err =
        RKSS_ERROR_ENCODE_FAILED) ∧
    (calls Event.is_retrieval w.trace <
        calls Event.is_retrieval
          (rk_mpp_encode_jpeg env w enc src out_data out_size quality).world.trace →
      (env.get_packet_ok = false ∨ env.packet = none) →
      (rk_mpp_encode_jpeg env w enc src out_data out_size quality).err =
        RKSS_ERROR_ENCODE_FAILED) ∧
    (calls Event.is_packet_alloc w.trace <
        calls Event.is_packet_alloc
          (rk_mpp_encode_jpeg env w enc src out_data out_size quality).world.trace →
      env.malloc_pkt_ok = false →
      (rk_mpp_encode_jpeg env w enc src out_data out_size quality).err =
        RKSS_ERROR_NO_MEMORY) ∧
    (calls Event.is_pool_alloc w.trace <
        calls Event.is_pool_alloc
          (rk_mpp_encode_jpeg env w enc src out_data out_size quality).world.trace →
      (env.mpp_get.1 && env.mpp_get.2) = false →
      (rk_mpp_encode_jpeg env w enc src out_data out_size quality).err =
        RKSS_ERROR_NO_MEMORY) ∧
    (calls Event.is_payload_alloc w.trace <
        calls Event.is_payload_alloc
          (rk_mpp_encode_jpeg env w enc src out_data out_size quality).world.trace →
      env.malloc_out_ok = false →
      (rk_mpp_encode_jpeg env w enc src out_data out_size quality).err =
        RKSS_ERROR_NO_MEMORY) ∧
    ((rk_mpp_encode_jpeg env w enc src out_data out_size quality).err = RKSS_SUCCESS →
      calls Event.is_submission
          (rk_mpp_encode_jpeg env w enc src out_data out_size quality).world.trace =
        calls Event.is_submission w.trace + 1 ∧
      calls Event.is_retrieval
          (rk_mpp_encode_jpeg env w enc src out_data out_size quality).world.trace =
        calls Event.is_retrieval w.trace + 1 ∧
      env.put_frame_ok = true ∧ env.get_packet_ok = true ∧ env.packet ≠ none) ∧
    calls Event.is_submission
        (rk_mpp_encode_jpeg env w enc src out_data out_size quality).world.trace ≤
      calls Event.is_submission w.trace + 1 ∧
    calls Event.is_retrieval
        (rk_mpp_encode_jpeg env w enc src out_data out_size quality).world.trace ≤
      calls Event.is_retrieval w.trace + 1 := by
  by_cases hchk : enc = true ∧ w.g_ctx.mpp.initialized = true ∧ src.isSome = true ∧
      out_data = true ∧ out_size = true
  · obtain ⟨he, hinit, hsrc, hod, hos⟩ := hchk
    obtain ⟨s, rfl⟩ := Option.isSome_iff_exists.1 hsrc
    subst he hod hos
    rw [encode_steps Event.is_submission env w s quality hinit
        (fun e he => (encoder_step_split e he).1),
      encode_steps Event.is_retrieval env w s quality hinit
        (fun e he => (encoder_step_split e he).2.1),
      encode_steps Event.is_packet_alloc env w s quality hinit
        (fun e he => (encoder_step_split e he).2.2.1),
      encode_steps Event.is_pool_alloc env w s quality hinit
        (fun e he => (encoder_step_split e he).2.2.2.1),
      encode_steps Event.is_payload_alloc env w s quality hinit
        (fun e he => (encoder_step_split e he).2.2.2.2),
      encode_err env w s quality hinit]
    simp only [Event.is_submission, Event.is_retrieval, Event.is_packet_alloc,
      Event.is_pool_alloc, Event.is_payload_alloc, Bool.false_eq_true, if_false, if_true,
      add_zero, zero_add]
    generalize calls Event.is_submission w.trace = n1
    generalize calls Event.is_retrieval w.trace = n2
    generalize calls Event.is_packet_alloc w.trace = n3
    generalize calls Event.is_pool_alloc w.trace = n4
    generalize calls Event.is_payload_alloc w.trace = n5
    generalize (env.mpp_import.1 && env.mpp_import.2) = bi
    generalize (env.mpp_get.1 && env.mpp_get.2) = bg
    generalize zero_copy_flag s = bz
    generalize env.mpp_control_ok = bc
    generalize env.malloc_pkt_ok = bk
    generalize env.put_frame_ok = bp
    generalize env.get_packet_ok = br
    generalize env.malloc_out_ok = bo
    generalize env.packet = pk
    cases bc
    · simp
    cases bk
    · simp
    cases bz <;> cases bi <;> cases bg <;>
      by_cases hM : (rk_dmabuf_map env w (some s)).1 = 0 <;> simp [hM] <;>
      (cases bp <;> (try simp) <;> cases br <;> (try simp) <;> cases pk <;> (try simp))
  · obtain ⟨hw, herr⟩ := encode_rejects env w enc src out_data out_size quality hchk
    rw [hw]
    simp [herr]

/-- C16 at a 1920x1080 source when the frame submission fails: the call returns
`RKSS_ERROR_ENCODE_FAILED`. -/
theorem encode_failure_taxonomy_witness :
    (rk_mpp_encode_jpeg { display_env 1920 1080 1920 with put_frame_ok := false }
      ready_world true (some ⟨8, 8294400, 1920, 1080, 1920, 1, 0⟩) true true 90).err =
      RKSS_ERROR_ENCODE_FAILED :=
  (encode_failure_taxonomy { display_env 1920 1080 1920 with put_frame_ok := false }
    ready_world true (some ⟨8, 8294400, 1920, 1080, 1920, 1, 0⟩) true true 90).1
    (by decide) (by decide)

set_option maxRecDepth 100000 in
/-- C17 fails in the code for a source of width 1080, height 1920 and stride 1088, which
takes the copy path with a destination stride of 1088 pixels: with every source byte
equal to its offset, the destination byte at row 1, offset 0 (index 4352) holds the
source byte at `1 * width * 4 = 4320`, where the claim places the source byte at
`1 * stride * 4 = 4352`. -/
theorem copy_ignores_source_stride :
    zero_copy_flag ⟨8, 8355840, 1080, 1920, 1088, 1, 0⟩ = false ∧
    hor_stride_aligned ⟨8, 8355840, 1080, 1920, 1088, 1, 0⟩ = 1088 ∧
    frame_after (fun i => i.toNat) (fun _ => 0)
        (copy_rows ⟨8, 8355840, 1080, 1920, 1088, 1, 0⟩) (1 * 1088 * 4 + 0) = 4320 ∧
    (fun i : Int => i.toNat) (1 * 1088 * 4 + 0) = 4352 := by
  decide

/-! ## Resource accounting of a capture -/

@[simp]
theorem tally_append (f : Event → Int) (a b : List Event) :
    tally f (a ++ b) = tally f a + tally f b := by
  simp [tally]

@[simp]
theorem tally_emit (f : Event → Int) (w : World) (e : Event) :
    tally f (w.emit e).trace = tally f w.trace + f e := by
  simp [tally, World.emit]

theorem tally_copy_rows (f : Event → Int) (s : RkDmaBuffer)
    (hf : ∀ e, e.is_resource = false → f e = 0) : tally f (copy_rows s) = 0 := by
  have h : ∀ a b c, f (Event.memcpy_frame a b c) = 0 := fun a b c => hf _ rfl
  unfold copy_rows tally
  simp only
  split_ifs
  · simp [h]
  · simp [Function.comp_def, h]

theorem tally_cleanup (f : Event → Int) (w : World) (a b c : Bool)
    (hf : ∀ e, e.is_resource = false → f e = 0) :
    tally f (mpp_cleanup w a b c).trace = tally f w.trace := by
  unfold mpp_cleanup
  simp only
  split_ifs <;> simp [hf _ (rfl : Event.mpp_reset.is_resource = false),
    hf _ (rfl : Event.mpp_frame_deinit.is_resource = false),
    hf _ (rfl : Event.mpp_buffer_put.is_resource = false),
    hf _ (rfl : Event.mpp_packet_deinit.is_resource = false),
    hf _ (rfl : Event.free_pkt.is_resource = false)]

theorem tally_map (f : Event → Int) (env : Env) (w : World) (b : Option RkDmaBuffer)
    (hf : ∀ e, e.is_resource = false → f e = 0) :
    tally f (rk_dmabuf_map env w b).2.2.trace = tally f w.trace := by
  have h : ∀ x y z, f (Event.mmap x y z) = 0 := fun x y z => hf _ rfl
  unfold rk_dmabuf_map
  repeat' split
  all_goals simp [h]

theorem tally_unmap (f : Event → Int) (w : World) (b : Option RkDmaBuffer)
    (hf : ∀ e, e.is_resource = false → f e = 0) :
    tally f (rk_dmabuf_unmap w b).2.trace = tally f w.trace := by
  have h : ∀ x y, f (Event.munmap x y) = 0 := fun x y => hf _ rfl
  unfold rk_dmabuf_unmap
  repeat' split
  all_goals simp [h]

theorem tally_submit (f : Event → Int) (env : Env) (w : World) (s : RkDmaBuffer)
    (src : Option RkDmaBuffer) (fb : Bool)
    (hf : ∀ e, e.is_resource = false → f e = 0) :
    tally f (encode_submit env w s src fb).world.trace = tally f w.trace := by
  have h1 : ∀ a b c d, f (Event.mpp_frame_init a b c d) = 0 := fun a b c d => hf _ rfl
  have h2 : ∀ a, f (Event.mpp_packet_init a) = 0 := fun a => hf _ rfl
  have h3 : f Event.encode_put_frame = 0 := hf _ rfl
  have h4 : f Event.encode_get_packet = 0 := hf _ rfl
  have h5 : ∀ a, f (Event.malloc_out a) = 0 := fun a => hf _ rfl
  unfold encode_submit
  simp only
  repeat' split
  all_goals simp_all [tally_cleanup f _ _ _ _ hf]

theorem tally_encode (f : Event → Int) (env : Env) (w : World) (enc : Bool)
    (src : Option RkDmaBuffer) (od os : Bool) (quality : Int)
    (hf : ∀ e, e.is_resource = false → f e = 0) :
    tally f (rk_mpp_encode_jpeg env w enc src od os quality).world.trace = tally f w.trace := by
  have h1 : ∀ a b c d e, f (Event.mpp_enc_cfg a b c d e) = 0 := fun a b c d e => hf _ rfl
  have h2 : f Event.mpp_control = 0 := hf _ rfl
  have h3 : ∀ a b, f (Event.mpp_buffer_import a b) = 0 := fun a b => hf _ rfl
  have h4 : ∀ a, f (Event.malloc_pkt a) = 0 := fun a => hf _ rfl
  have h5 : ∀ a, f (Event.mpp_buffer_get a) = 0 := fun a => hf _ rfl
  have h6 : f Event.mpp_buffer_put = 0 := hf _ rfl
  have h7 : f Event.free_pkt = 0 := hf _ rfl
  unfold rk_mpp_encode_jpeg
  simp only []
  repeat' split
  all_goals simp_all [tally_submit f env _ _ _ _ hf, tally_unmap f _ _ hf,
    tally_map f env _ _ hf, tally_copy_rows f _ hf]

theorem tally_rga (f : Event → Int) (env : Env) (w : World) (p : Bool)
    (s d : Option RkDmaBuffer) (rot : Int)
    (hf : ∀ e, e.is_resource = false → f e = 0) :
    tally f (rk_rga_process env w p s d rot).2.trace = tally f w.trace := by
  have h : ∀ a b c, f (Event.rga a b c) = 0 := fun a b c => hf _ rfl
  unfold rk_rga_process
  simp only []
  repeat' split
  all_goals simp [h]

/-- The accounting of one release. -/
theorem tally_free (f : Event → Int) (w : World) (b : RkDmaBuffer)
    (hf : ∀ e, e.is_resource = false → f e = 0) :
    tally f (rk_dmabuf_free w (some b)).trace =
      tally f w.trace + (if b.fd ≥ 0 then f (Event.close b.fd) else 0) +
        f (Event.free_dmabuf b) := by
  have h : ∀ x y, f (Event.munmap x y) = 0 := fun x y => hf _ rfl
  rw [free_trace]
  split_ifs <;> simp [tally, h] <;> ring

/-- The accounting of the capture stage. -/
theorem tally_sf_capture (f : Event → Int) (env : Env) (w : World) (a b : Bool)
    (hf : Accounts f) :
    tally f (rk_sf_capture env w a b).2.trace =
      tally f w.trace +
        (match (rk_sf_capture env w a b).1 with
          | .ok buf => f (Event.dup buf.fd)
          | .error _ => 0) := by
  obtain ⟨h1, h2, h3, _, _, _⟩ := hf
  have hd : f Event.capture_display = 0 := h1 _ rfl
  unfold rk_sf_capture
  simp only []
  repeat' split
  all_goals simp_all
  all_goals first
    | (rename_i heq; subst heq; rfl)
    | linarith [h3 env.dup_fd (by omega)]

theorem sf_capture_fd (env : Env) (w : World) (a b : Bool) (buf : RkDmaBuffer)
    (h : (rk_sf_capture env w a b).1 = .ok buf) : 0 ≤ buf.fd ∧ buf.vir_addr = 0 := by
  unfold rk_sf_capture at h
  simp only [] at h
  repeat' split at h
  all_goals simp at h
  subst h
  simp
  omega

theorem tally_heap (f : Event → Int) (env : Env) (w : World) (hf : Accounts f) :
    tally f (open_dma_heap env w).2.trace = tally f w.trace := by
  have h : ∀ a, f (Event.heap_open a) = 0 := fun a => hf.1 _ rfl
  unfold open_dma_heap
  simp only []
  repeat' split
  all_goals simp [h, World.emit, tally]

/-- The accounting of the destination allocation. -/
theorem tally_alloc (f : Event → Int) (env : Env) (w : World) (width height : Int)
    (hf : Accounts f) :
    tally f (rk_dmabuf_alloc env w width height).2.trace =
      tally f w.trace +
        (match (rk_dmabuf_alloc env w width height).1 with
          | some b => f (Event.heap_alloc b.size (some b.fd))
          | none => 0) := by
  have hh := tally_heap f env w hf
  obtain ⟨h1, h2, h3, h4, h5, _⟩ := hf
  unfold rk_dmabuf_alloc
  simp only []
  generalize (toU64 width * toU64 height * 4) % 18446744073709551616 = size
  repeat' split
  all_goals simp_all
  all_goals first
    | (rename_i heq; subst heq; rfl)
    | (rename_i _ fd _ _ _ _; have := h5 size fd; omega)

theorem alloc_fields (env : Env) (w : World) (width height : Int) (b : RkDmaBuffer)
    (h : (rk_dmabuf_alloc env w width height).1 = some b) : b.vir_addr = 0 := by
  unfold rk_dmabuf_alloc at h
  simp only [] at h
  repeat' split at h
  all_goals simp_all
  all_goals (subst h; rfl)

/-- The accounting of the epilogue: the release of the last buffer. -/
theorem tally_finish (f : Event → Int) (env : Env) (w : World) (c : RkScreenshotConfig)
    (res : RkScreenshotResult) (pb : RkDmaBuffer) (t : Nat) (hf : Accounts f) :
    tally f (capture_finish env w c res pb t).world.trace =
      tally f w.trace + (if pb.fd ≥ 0 then f (Event.close pb.fd) else 0) +
        f (Event.free_dmabuf pb) := by
  simp [capture_finish, tally_free f _ _ hf.1]

/-- The accounting of stage 3: the last buffer is released on every path, and the
result struct as well when the stage fails. -/
theorem tally_output (f : Event → Int) (env : Env) (w : World) (c : RkScreenshotConfig)
    (res : RkScreenshotResult) (pb : RkDmaBuffer) (t : Nat) (hf : Accounts f) :
    tally f (capture_output env w c res pb t).world.trace =
      tally f w.trace + (if pb.fd ≥ 0 then f (Event.close pb.fd) else 0) +
        f (Event.free_dmabuf pb) +
        (if (capture_output env w c res pb t).err = RKSS_SUCCESS then 0
         else f Event.free_result) := by
  have h1 : ∀ a, f (Event.malloc_payload a) = 0 := fun a => hf.1 _ rfl
  have h2 : ∀ a b, f (Event.memcpy_payload a b) = 0 := fun a b => hf.1 _ rfl
  have h6 := hf.2.2.2.2.2
  unfold capture_output
  simp only []
  split
  · obtain ⟨v, hv⟩ := encode_src env (rk_get_time_us env w).2 true pb true true c.quality
    rw [hv]
    simp only [Option.getD_some]
    split
    · rename_i herr
      simp [herr, tally_free f _ _ hf.1, tally_encode f env _ _ _ _ _ _ hf.1, h6]
    · simp [capture_finish, tally_free f _ _ hf.1, tally_encode f env _ _ _ _ _ _ hf.1, h6]
  · obtain ⟨v, hv⟩ := map_src env w pb
    rw [hv]
    simp only [Option.getD_some]
    split
    · simp [tally_free f _ _ hf.1, tally_map f env _ _ hf.1, h6]
    · split
      · simp [tally_free f _ _ hf.1, tally_map f env _ _ hf.1, h6, h1]
      · simp [capture_finish, tally_free f _ _ hf.1, tally_map f env _ _ hf.1, h6, h1, h2]

theorem alloc_fst (env : Env) (w w1 : World) (width height : Int)
    (h : w1.g_heap_fd = w.g_heap_fd) :
    (rk_dmabuf_alloc env w1 width height).1 = (rk_dmabuf_alloc env w width height).1 := by
  unfold rk_dmabuf_alloc open_dma_heap
  simp only [h, World.emit]
  repeat' split
  all_goals rfl

theorem rga_fst (env : Env) (w w1 : World) (p : Bool) (s d : Option RkDmaBuffer) (rot : Int)
    (h : w1.g_ctx.rga.initialized = w.g_ctx.rga.initialized) :
    (rk_rga_process env w1 p s d rot).1 = (rk_rga_process env w p s d rot).1 := by
  unfold rk_rga_process
  simp only [h]
  repeat' split
  all_goals rfl

theorem alloc_g_ctx (env : Env) (w : World) (width height : Int) :
    (rk_dmabuf_alloc env w width height).2.g_ctx = w.g_ctx := by
  unfold rk_dmabuf_alloc open_dma_heap
  simp only [World.emit]
  repeat' split
  all_goals rfl

theorem sf_capture_globals (env : Env) (w : World) (a b : Bool) :
    (rk_sf_capture env w a b).2.g_ctx = w.g_ctx ∧
    (rk_sf_capture env w a b).2.g_heap_fd = w.g_heap_fd := by
  unfold rk_sf_capture
  simp only [World.emit, rk_get_time_us]
  repeat' split
  all_goals exact ⟨rfl, rfl⟩

/-- The accounting of stages 2 and 3. -/
theorem tally_transform (f : Event → Int) (env : Env) (w : World) (c : RkScreenshotConfig)
    (res : RkScreenshotResult) (buf : RkDmaBuffer) (t : Nat) (hf : Accounts f) :
    tally f (capture_transform env w c res buf t).world.trace =
      tally f w.trace + (if buf.fd ≥ 0 then f (Event.close buf.fd) else 0) +
        f (Event.free_dmabuf buf) +
        (if need_scale c buf then
          (match (rk_dmabuf_alloc env w c.scale_width c.scale_height).1 with
            | none => 0
            | some sc => f (Event.heap_alloc sc.size (some sc.fd)) +
                (if sc.fd ≥ 0 then f (Event.close sc.fd) else 0) + f (Event.free_dmabuf sc))
         else 0) +
        (if (capture_transform env w c res buf t).err = RKSS_SUCCESS then 0
         else f Event.free_result) := by
  have ha := tally_alloc f env (rk_get_time_us env w).2 c.scale_width c.scale_height hf
  rw [← alloc_fst env w (rk_get_time_us env w).2 c.scale_width c.scale_height rfl]
  unfold capture_transform
  simp only []
  split
  · rename_i hn
    split
    · rename_i hnone
      rw [hnone] at ha
      simp only [hnone]
      simp [tally_free f _ _ hf.1, ha]
    · rename_i sc hsome
      rw [hsome] at ha
      split
      · rename_i hbad
        simp [hbad, tally_free f _ _ hf.1, tally_rga f env _ _ _ _ _ hf.1, ha]
        ring
      · rw [tally_output f env _ _ _ _ _ hf, tally_free f _ _ hf.1]
        simp [tally_rga f env _ _ _ _ _ hf.1, ha]
        ring
  · rename_i hn
    rw [tally_output f env _ _ _ _ _ hf]
    simp [hn]

/-- An opened descriptor and its close cancel in the accounting of a buffer whose
handle may be invalid. -/
theorem accounts_heap_cancel (f : Event → Int) (hf : Accounts f) (len : Nat) (g : Int) :
    f (Event.heap_alloc len (some g)) + (if g ≥ 0 then f (Event.close g) else 0) = 0 := by
  obtain ⟨_, h2, _, _, h5, _⟩ := hf
  have := h5 len g
  split_ifs with hg
  · exact this
  · have := (h2 g (by omega)).2
    omega

/-- The accounting of a whole call: the result struct, and one release per buffer
obtained; every descriptor opened is closed again. -/
theorem tally_capture (f : Event → Int) (env : Env) (w : World)
    (cfg : Option RkScreenshotConfig) (result : Bool) (hf : Accounts f) :
    tally f (rk_screenshot_capture env w cfg result).world.trace =
      tally f w.trace +
        (if w.g_ctx.initialized = true ∧ cfg.isSome = true ∧ result = true ∧
            env.calloc_result_ok = true then
          f Event.calloc_result +
            (if (rk_screenshot_capture env w cfg result).err = RKSS_SUCCESS then 0
             else f Event.free_result)
         else 0) +
        ((obtained_buffers env w cfg result).map (fun b => f (Event.free_dmabuf b))).sum := by
  unfold rk_screenshot_capture obtained_buffers
  by_cases hi : w.g_ctx.initialized = true
  swap
  · simp [hi]
  cases cfg with
  | none => simp [hi]
  | some c =>
    by_cases hr : result = true
    swap
    · simp [hi, hr]
    by_cases hc : env.calloc_result_ok = true
    swap
    · simp [hi, hr, hc]
    simp only [hi, hr, hc, Bool.not_true, Bool.false_eq_true, if_false, Bool.or_false,
      Option.isSome_some, and_self, if_true]
    have hfst := sf_capture_fst env w
      (rk_get_time_us env ((rk_get_time_us env w).2.emit Event.calloc_result)).2
      w.g_ctx.sf_ctx true rfl
    have hsf := tally_sf_capture f env
      (rk_get_time_us env ((rk_get_time_us env w).2.emit Event.calloc_result)).2
      w.g_ctx.sf_ctx true hf
    have hglob := sf_capture_globals env
      (rk_get_time_us env ((rk_get_time_us env w).2.emit Event.calloc_result)).2
      w.g_ctx.sf_ctx true
    rw [← hfst]
    split
    · rename_i e he
      have hne := sf_capture_error _ _ _ _ _ he
      rw [he] at hsf
      simp [hne, hsf]
      ring
    · rename_i buf hb
      rw [hb] at hsf
      have hfd := (sf_capture_fd _ _ _ _ _ hb).1
      rw [tally_transform f env _ _ _ _ _ hf]
      rw [alloc_fst env w (rk_get_time_us env (rk_sf_capture env
        (rk_get_time_us env ((rk_get_time_us env w).2.emit Event.calloc_result)).2
        w.g_ctx.sf_ctx true).2).2 c.scale_width c.scale_height hglob.2]
      simp only [trace_clock, hsf, tally_emit]
      have hcancel := hf.2.2.1 buf.fd hfd
      simp only [ge_iff_le, hfd, if_true]
      split
      · rename_i hn
        cases hal : (rk_dmabuf_alloc env w c.scale_width c.scale_height).1 with
        | none =>
          simp only [Option.toList, List.map_cons, List.map_nil, List.sum_cons,
            List.sum_nil]
          split_ifs <;> linear_combination hcancel
        | some sc =>
          have h2 := accounts_heap_cancel f hf sc.size sc.fd
          simp only [Option.toList, List.map_cons, List.map_nil, List.sum_cons,
            List.sum_nil]
          split_ifs at h2 ⊢ <;> linear_combination hcancel + h2
      · simp only [List.map_cons, List.map_nil, List.sum_cons, List.sum_nil]
        split_ifs <;> linear_combination hcancel

theorem accounts_handle_delta (fd : Int) : Accounts (Event.handle_delta fd) := by
  refine ⟨fun e he => ?_, fun g hg => ?_, fun g hg => ?_, fun len => rfl, fun len g => ?_,
    fun b v => rfl⟩
  · cases e <;> simp_all [Event.is_resource, Event.handle_delta]
  · have : ¬ (0 ≤ g) := by omega
    simp [Event.handle_delta, this]
  · simp only [Event.handle_delta]
    split_ifs <;> omega
  · simp only [Event.handle_delta]
    split_ifs <;> omega

theorem accounts_release_of (fd : Int) : Accounts (Event.release_of fd) := by
  refine ⟨fun e he => ?_, fun g _ => ⟨rfl, rfl⟩, fun g _ => rfl, fun len => rfl,
    fun len g => rfl, fun b v => rfl⟩
  cases e <;> simp_all [Event.is_resource, Event.release_of]

theorem accounts_result_delta : Accounts Event.result_delta := by
  refine ⟨fun e he => ?_, fun g _ => ⟨rfl, rfl⟩, fun g _ => rfl, fun len => rfl,
    fun len g => rfl, fun b v => rfl⟩
  cases e <;> simp_all [Event.is_resource, Event.result_delta]

/-- C12. On every return path of `rk_screenshot_capture`, each buffer obtained during the
call (the captured buffer and, when allocated, the scaled buffer) has been passed to
`rk_dmabuf_free` exactly once; the number of open descriptors of every value is what it
was before the call; and the number of live result structs grows by one on success and
is unchanged on every failure. -/
theorem capture_releases_buffers (env : Env) (w : World) (cfg : Option RkScreenshotConfig)
    (result : Bool) :
    (∀ fd : Int,
      released fd (rk_screenshot_capture env w cfg result).world.trace =
        released fd w.trace +
          ((obtained_buffers env w cfg result).filter (fun b => decide (b.fd = fd))).length) ∧
    (∀ fd : Int,
      open_handles fd (rk_screenshot_capture env w cfg result).world.trace =
        open_handles fd w.trace) ∧
    live_results (rk_screenshot_capture env w cfg result).world.trace =
      live_results w.trace +
        (if (rk_screenshot_capture env w cfg result).err = RKSS_SUCCESS then 1 else 0) := by
  refine ⟨fun fd => ?_, fun fd => ?_, ?_⟩
  · unfold released
    rw [tally_capture _ env w cfg result (accounts_release_of fd)]
    have hsum : ∀ l : List RkDmaBuffer,
        (l.map (fun b => Event.release_of fd (Event.free_dmabuf b))).sum =
          ((l.filter (fun b => decide (b.fd = fd))).length : Int) := by
      intro l
      induction l with
      | nil => rfl
      | cons b l ih =>
        by_cases hb : b.fd = fd
        · rw [List.map_cons, List.sum_cons, ih]
          simp [List.filter_cons, hb, Event.release_of]; ring
        · rw [List.map_cons, List.sum_cons, ih]
          simp [List.filter_cons, hb, Event.release_of]
    rw [hsum]
    simp [Event.release_of]
  · unfold open_handles
    rw [tally_capture _ env w cfg result (accounts_handle_delta fd)]
    simp [Event.handle_delta]
  · unfold live_results
    rw [tally_capture _ env w cfg result accounts_result_delta]
    have hz : ∀ l : List RkDmaBuffer,
        (l.map (fun b => Event.result_delta (Event.free_dmabuf b))).sum = 0 := by
      intro l
      induction l with
      | nil => rfl
      | cons b l ih => simp [Event.result_delta, ih]
    rw [hz]
    by_cases hs : (rk_screenshot_capture env w cfg result).err = RKSS_SUCCESS
    · have hne := (capture_success env w cfg result).1 hs
      obtain ⟨r, hr⟩ := Option.ne_none_iff_exists'.1 hne
      obtain ⟨c, buf, hc, hres, hinit, hcal, _⟩ := capture_delivers env w cfg result r hr
      subst hc; subst hres
      simp [hs, hinit, hcal, Event.result_delta]
    · simp only [hs, if_false]
      split_ifs <;> simp [Event.result_delta]

/-! ## Orchestrator: delivered results and propagated return codes -/

theorem free_g_ctx (w : World) (b : Option RkDmaBuffer) :
    (rk_dmabuf_free w b).g_ctx = w.g_ctx := by
  unfold rk_dmabuf_free rk_dmabuf_unmap
  simp only [World.emit]
  repeat' split
  all_goals rfl

theorem rga_mpp (env : Env) (w : World) (p : Bool) (s d : Option RkDmaBuffer) (rot : Int) :
    (rk_rga_process env w p s d rot).2.g_ctx.mpp = w.g_ctx.mpp := by
  unfold rk_rga_process
  simp only [World.emit, rk_get_time_us]
  repeat' split
  all_goals rfl

/-- A successful submission stores the packet and its length. -/
theorem submit_payload (env : Env) (w : World) (s : RkDmaBuffer)
    (src : Option RkDmaBuffer) (fb : Bool) :
    (encode_submit env w s src fb).err = RKSS_SUCCESS →
      ∃ bytes, (encode_submit env w s src fb).out_data = some (some bytes) ∧
        (encode_submit env w s src fb).out_size = some bytes.length := by
  unfold encode_submit
  simp only []
  repeat' split
  all_goals simp_all

theorem copy_payload (env : Env) (w : World) (s : RkDmaBuffer) :
    (encode_copy env w s).err = RKSS_SUCCESS →
      ∃ bytes, (encode_copy env w s).out_data = some (some bytes) ∧
        (encode_copy env w s).out_size = some bytes.length := by
  unfold encode_copy
  simp only []
  split
  · simp
  · split
    · simp
    · exact submit_payload _ _ _ _ _

/-- A successful call of `rk_mpp_encode_jpeg` stores a non-null payload and its length. -/
theorem encode_payload (env : Env) (w : World) (enc : Bool) (src : Option RkDmaBuffer)
    (od os : Bool) (quality : Int)
    (h : (rk_mpp_encode_jpeg env w enc src od os quality).err = RKSS_SUCCESS) :
    ∃ bytes, (rk_mpp_encode_jpeg env w enc src od os quality).out_data = some (some bytes) ∧
      (rk_mpp_encode_jpeg env w enc src od os quality).out_size = some bytes.length := by
  by_cases hchk : enc = true ∧ w.g_ctx.mpp.initialized = true ∧ src.isSome = true ∧
      od = true ∧ os = true
  · obtain ⟨he, hinit, hsrc, hod, hos⟩ := hchk
    obtain ⟨s, rfl⟩ := Option.isSome_iff_exists.1 hsrc
    subst he hod hos
    revert h
    rw [encode_cases env w s quality hinit]
    split_ifs
    · exact submit_payload _ _ _ _ _
    · exact copy_payload _ _ _
    · exact copy_payload _ _ _
    · simp
    · simp
  · exact absurd h (encode_rejects env w enc src od os quality hchk).2

/-- The return code of the encode stage depends on the world only through the
initialisation flag of the encoder. -/
theorem encode_err_indep (env : Env) (w w1 : World) (s : RkDmaBuffer) (quality : Int)
    (h : w1.g_ctx.mpp.initialized = w.g_ctx.mpp.initialized) :
    (rk_mpp_encode_jpeg env w1 true (some s) true true quality).err =
      (rk_mpp_encode_jpeg env w true (some s) true true quality).err := by
  cases hi : w.g_ctx.mpp.initialized
  · have h1 : w1.g_ctx.mpp.initialized = false := h.trans hi
    simp [rk_mpp_encode_jpeg, hi, h1]
  · rw [encode_err env w s quality hi, encode_err env w1 s quality (h.trans hi),
      (map_fst env w w1 (some s)).1]

/-- What stage 3 delivers, and the return code it passes on. -/
theorem output_outcome (env : Env) (w : World) (c : RkScreenshotConfig)
    (res : RkScreenshotResult) (pb : RkDmaBuffer) (t : Nat) :
    ((capture_output env w c res pb t).err = RKSS_SUCCESS →
      ∃ r bytes, (capture_output env w c res pb t).result = some r ∧
        r.data = some bytes ∧ r.size = bytes.length ∧
        r.width = pb.width ∧ r.height = pb.height ∧ r.format = c.format) ∧
    (∀ w0 : World, w0.g_ctx.mpp.initialized = w.g_ctx.mpp.initialized →
      c.format = RK_FORMAT_JPEG →
      (rk_mpp_encode_jpeg env w0 true (some pb) true true c.quality).err ≠ RKSS_SUCCESS →
      (capture_output env w c res pb t).err =
        (rk_mpp_encode_jpeg env w0 true (some pb) true true c.quality).err) := by
  refine ⟨fun hs => ?_, fun w0 h0 hj hne => ?_⟩
  · unfold capture_output at hs ⊢
    simp only [] at hs ⊢
    split at hs
    · rename_i hj
      simp only [hj, if_true] at hs ⊢
      split at hs
      · rename_i he
        exact absurd hs he
      · rename_i he
        simp only [he, if_false]
        have he1 : (rk_mpp_encode_jpeg env (rk_get_time_us env w).2 true (some pb) true true
            c.quality).err = RKSS_SUCCESS := by simpa using he
        obtain ⟨bytes, hd, hz⟩ := encode_payload _ _ _ _ _ _ _ he1
        obtain ⟨v, hv⟩ := encode_src env (rk_get_time_us env w).2 true pb true true c.quality
        refine ⟨_, bytes, rfl, ?_, ?_, ?_, ?_, ?_⟩
        · simp [hd]
        · simp [hz]
        · simp [hv]
        · simp [hv]
        · simp [hj]
    · rename_i hj
      simp only [hj, if_false] at hs ⊢
      obtain ⟨v, hv⟩ := map_src env w pb
      split at hs
      · simp at hs
      · rename_i hvir
        simp only [hvir, if_false]
        split at hs
        · simp at hs
        · rename_i hm
          simp only [hm, if_false]
          refine ⟨_, _, rfl, rfl, ?_, ?_, ?_, rfl⟩
          · simp [capture_finish]
          · simp [capture_finish, hv]
          · simp [capture_finish, hv]
  · have hind := encode_err_indep env w0 (rk_get_time_us env w).2 pb c.quality
      (by rw [h0]; rfl)
    unfold capture_output
    simp only [hj, if_true]
    rw [← hind] at hne ⊢
    simp only [hne, ne_eq, not_false_eq_true, if_true]

/-- What stages 2 and 3 deliver, and the return codes they pass on. -/
theorem transform_outcome (env : Env) (w : World) (c : RkScreenshotConfig)
    (res : RkScreenshotResult) (buf : RkDmaBuffer) (t : Nat) :
    ((capture_transform env w c res buf t).err = RKSS_SUCCESS →
      ∃ r bytes, (capture_transform env w c res buf t).result = some r ∧
        r.data = some bytes ∧ r.size = bytes.length ∧
        r.width = (if need_scale c buf then c.scale_width else buf.width) ∧
        r.height = (if need_scale c buf then c.scale_height else buf.height) ∧
        r.format = c.format) ∧
    (∀ scaled : RkDmaBuffer, need_scale c buf = true →
      (rk_dmabuf_alloc env w c.scale_width c.scale_height).1 = some scaled →
      (rk_rga_process env w true (some buf) (some scaled) c.rotation).1 ≠ RKSS_SUCCESS →
      (capture_transform env w c res buf t).err =
        (rk_rga_process env w true (some buf) (some scaled) c.rotation).1) ∧
    (∀ (w0 : World) (pb : RkDmaBuffer),
      w0.g_ctx.mpp.initialized = w.g_ctx.mpp.initialized →
      c.format = RK_FORMAT_JPEG →
      ((need_scale c buf = false ∧ pb = buf) ∨
        (need_scale c buf = true ∧
          (rk_dmabuf_alloc env w c.scale_width c.scale_height).1 = some pb ∧
          (rk_rga_process env w true (some buf) (some pb) c.rotation).1 = RKSS_SUCCESS)) →
      (rk_mpp_encode_jpeg env w0 true (some pb) true true c.quality).err ≠ RKSS_SUCCESS →
      (capture_transform env w c res buf t).err =
        (rk_mpp_encode_jpeg env w0 true (some pb) true true c.quality).err) := by
  have hal := alloc_fst env w (rk_get_time_us env w).2 c.scale_width c.scale_height rfl
  have hg := alloc_g_ctx env (rk_get_time_us env w).2 c.scale_width c.scale_height
  unfold capture_transform
  simp only []
  cases hn : need_scale c buf
  · simp only [Bool.false_eq_true, if_false]
    have ho := output_outcome env w c res buf t
    refine ⟨ho.1, fun scaled h => by simp at h, fun w0 pb h0 hj hpb hne => ?_⟩
    rcases hpb with ⟨_, rfl⟩ | ⟨h, _⟩
    · exact ho.2 w0 h0 hj hne
    · simp at h
  · simp only [if_true]
    cases ha : (rk_dmabuf_alloc env w c.scale_width c.scale_height).1 with
    | none =>
      rw [← hal] at ha
      simp only [ha]
      simp
    | some sc =>
      have ha1 := ha
      rw [← hal] at ha1
      have hd := alloc_dims _ _ _ _ _ ha
      have hr := rga_fst env w (rk_dmabuf_alloc env (rk_get_time_us env w).2 c.scale_width
        c.scale_height).2 true (some buf) (some sc) c.rotation (by rw [hg]; rfl)
      simp only [ha1]
      rw [hr]
      by_cases hs : (rk_rga_process env w true (some buf) (some sc) c.rotation).1 = RKSS_SUCCESS
      · simp only [hs, ne_eq, not_true_eq_false, if_false]
        refine ⟨fun h => ?_, fun scaled _ hsc hbad => ?_, fun w0 pb h0 hj hpb hne => ?_⟩
        · obtain ⟨r, bytes, h1, h2, h3, h4, h5, h6⟩ := (output_outcome _ _ _ _ _ _).1 h
          exact ⟨r, bytes, h1, h2, h3, by rw [h4, hd.1], by rw [h5, hd.2], h6⟩
        · cases hsc
          exact absurd hs hbad
        · rcases hpb with ⟨h, _⟩ | ⟨_, hpb, _⟩
          · simp at h
          · cases hpb
            refine (output_outcome _ _ _ _ _ _).2 w0 ?_ hj hne
            rw [h0, free_g_ctx]
            show _ = (rk_rga_process env _ true (some buf) (some sc)
              c.rotation).2.g_ctx.mpp.initialized
            rw [rga_mpp, hg]
            rfl
      · simp only [hs, ne_eq, not_false_eq_true, if_true]
        refine ⟨fun h => (h.elim), fun scaled _ hsc _ => ?_, fun w0 pb h0 hj hpb hne => ?_⟩
        · cases hsc
          rfl
        · rcases hpb with ⟨h, _⟩ | ⟨_, hpb, hok⟩
          · simp at h
          · cases hpb
            exact absurd hok hs

/-- A call whose capture stage produced a buffer is stages 2 and 3 run in a world with
the globals of the start. -/
theorem capture_reduce_globals (env : Env) (w : World) (c : RkScreenshotConfig)
    (buf : RkDmaBuffer)
    (hinit : w.g_ctx.initialized = true) (hcal : env.calloc_result_ok = true)
    (hcap : (rk_sf_capture env w w.g_ctx.sf_ctx true).1 = .ok buf) :
    ∃ w1 ct, rk_screenshot_capture env w (some c) true =
        capture_transform env w1 c { zero_result with capture_time_us := ct } buf
          (rk_get_time_us env w).1 ∧
      w1.g_ctx = w.g_ctx ∧ w1.g_heap_fd = w.g_heap_fd := by
  unfold rk_screenshot_capture
  simp only [hinit, hcal]
  have h1 := sf_capture_fst env w
    (rk_get_time_us env ((rk_get_time_us env w).2.emit Event.calloc_result)).2
    w.g_ctx.sf_ctx true rfl
  have h2 := sf_capture_globals env
    (rk_get_time_us env ((rk_get_time_us env w).2.emit Event.calloc_result)).2
    w.g_ctx.sf_ctx true
  rw [hcap] at h1
  simp only [Bool.not_true, Bool.false_eq_true, if_false]
  split
  · rename_i e he
    rw [h1] at he
    simp at he
  · rename_i b hb
    rw [h1] at hb
    simp at hb
    subst hb
    exact ⟨_, _, rfl, h2.1, h2.2⟩

/-- C11. Whenever `rk_screenshot_capture` returns a code other than `RKSS_SUCCESS`, nothing
is stored through `result`. Whenever it returns `RKSS_SUCCESS`, a result is stored whose
data is a non-null payload of `size` bytes, whose width and height are those of the
processed buffer (the scale target when the transform ran, the capture otherwise) and
whose format is the requested one. The return code of a failing capture stage, of a
failing transform and of a failing encode is the return code of the call. -/
theorem capture_all_or_nothing (env : Env) (w : World) (cfg : Option RkScreenshotConfig)
    (result : Bool) :
    ((rk_screenshot_capture env w cfg result).err ≠ RKSS_SUCCESS →
      (rk_screenshot_capture env w cfg result).result = none) ∧
    ((rk_screenshot_capture env w cfg result).err = RKSS_SUCCESS →
      ∃ c buf r bytes, cfg = some c ∧
        (rk_sf_capture env w w.g_ctx.sf_ctx true).1 = .ok buf ∧
        (rk_screenshot_capture env w cfg result).result = some r ∧
        r.data = some bytes ∧ r.size = bytes.length ∧
        r.width = (if need_scale c buf then c.scale_width else buf.width) ∧
        r.height = (if need_scale c buf then c.scale_height else buf.height) ∧
        r.format = c.format) ∧
    (∀ c : RkScreenshotConfig, cfg = some c → result = true →
      w.g_ctx.initialized = true → env.calloc_result_ok = true →
      (∀ e : RkScreenshotError,
        (rk_sf_capture env w w.g_ctx.sf_ctx true).1 = .error e →
        (rk_screenshot_capture env w cfg result).err = e) ∧
      (∀ buf scaled : RkDmaBuffer,
        (rk_sf_capture env w w.g_ctx.sf_ctx true).1 = .ok buf →
        need_scale c buf = true →
        (rk_dmabuf_alloc env w c.scale_width c.scale_height).1 = some scaled →
        (rk_rga_process env w true (some buf) (some scaled) c.rotation).1 ≠ RKSS_SUCCESS →
        (rk_screenshot_capture env w cfg result).err =
          (rk_rga_process env w true (some buf) (some scaled) c.rotation).1) ∧
      (∀ buf pb : RkDmaBuffer,
        (rk_sf_capture env w w.g_ctx.sf_ctx true).1 = .ok buf →
        c.format = RK_FORMAT_JPEG →
        ((need_scale c buf = false ∧ pb = buf) ∨
          (need_scale c buf = true ∧
            (rk_dmabuf_alloc env w c.scale_width c.scale_height).1 = some pb ∧
            (rk_rga_process env w true (some buf) (some pb) c.rotation).1 = RKSS_SUCCESS)) →
        (rk_mpp_encode_jpeg env w true (some pb) true true c.quality).err ≠ RKSS_SUCCESS →
        (rk_screenshot_capture env w cfg result).err =
          (rk_mpp_encode_jpeg env w true (some pb) true true c.quality).err)) := by
  refine ⟨fun hne => ?_, fun hs => ?_, fun c hc hres hinit hcal => ⟨fun e he => ?_,
    fun buf scaled hcap hn hal hbad => ?_, fun buf pb hcap hj hpb hne => ?_⟩⟩
  · by_contra hr
    exact hne ((capture_success env w cfg result).2 hr)
  · have hnn := (capture_success env w cfg result).1 hs
    obtain ⟨r0, hr0⟩ := Option.ne_none_iff_exists'.1 hnn
    obtain ⟨c, buf, hc, hres, hinit, hcal, hcap⟩ := capture_delivers env w cfg result r0 hr0
    subst hc hres
    obtain ⟨w1, ct, hred, _, _⟩ := capture_reduce_globals env w c buf hinit hcal hcap
    rw [hred] at hs ⊢
    obtain ⟨r, bytes, h⟩ := (transform_outcome env w1 c _ buf _).1 hs
    exact ⟨c, buf, r, bytes, rfl, hcap, h⟩
  · subst hc hres
    have h1 := sf_capture_fst env w
      (rk_get_time_us env ((rk_get_time_us env w).2.emit Event.calloc_result)).2
      w.g_ctx.sf_ctx true rfl
    rw [he] at h1
    unfold rk_screenshot_capture
    simp only [hinit, hcal, Bool.not_true, Bool.false_eq_true, if_false, h1]
  · subst hc hres
    obtain ⟨w1, ct, hred, hg, hh⟩ := capture_reduce_globals env w c buf hinit hcal hcap
    rw [hred]
    have ha := alloc_fst env w w1 c.scale_width c.scale_height hh
    have hr := rga_fst env w w1 true (some buf) (some scaled) c.rotation (by rw [hg])
    rw [← hr] at hbad ⊢
    exact (transform_outcome env w1 c _ buf _).2.1 scaled hn (ha.trans hal) hbad
  · subst hc hres
    obtain ⟨w1, ct, hred, hg, hh⟩ := capture_reduce_globals env w c buf hinit hcal hcap
    rw [hred]
    have ha := alloc_fst env w w1 c.scale_width c.scale_height hh
    have hr := rga_fst env w w1 true (some buf) (some pb) c.rotation (by rw [hg])
    refine (transform_outcome env w1 c _ buf _).2.2 w pb (by rw [hg]) hj ?_ hne
    rcases hpb with h | ⟨h1, h2, h3⟩
    · exact Or.inl h
    · exact Or.inr ⟨h1, ha.trans h2, hr.trans h3⟩

/-- C11 on a 1920x1080 JPEG capture whose frame submission fails: the call returns the
code of the encode stage, `RKSS_ERROR_ENCODE_FAILED`, and stores no result. -/
theorem capture_all_or_nothing_witness :
    (rk_screenshot_capture { display_env 1920 1080 1920 with put_frame_ok := false }
        ready_world (some { default_config with format := RK_FORMAT_JPEG, quality := 85 })
        true).err = RKSS_ERROR_ENCODE_FAILED ∧
    (rk_screenshot_capture { display_env 1920 1080 1920 with put_frame_ok := false }
        ready_world (some { default_config with format := RK_FORMAT_JPEG, quality := 85 })
        true).result = none := by
  have h := capture_all_or_nothing { display_env 1920 1080 1920 with put_frame_ok := false }
    ready_world (some { default_config with format := RK_FORMAT_JPEG, quality := 85 }) true
  have he := (h.2.2 _ rfl rfl (by decide) (by decide)).2.2
    ⟨8, 8294400, 1920, 1080, 1920, 1, 0⟩ ⟨8, 8294400, 1920, 1080, 1920, 1, 0⟩ rfl
    (by decide) (Or.inl ⟨by decide, rfl⟩) (by decide)
  have hc : (rk_mpp_encode_jpeg { display_env 1920 1080 1920 with put_frame_ok := false }
      ready_world true (some ⟨8, 8294400, 1920, 1080, 1920, 1, 0⟩) true true 85).err =
      RKSS_ERROR_ENCODE_FAILED := by decide
  exact ⟨he.trans hc, h.1 (by rw [he.trans hc]; decide)⟩

/-! ## Encode stage: the source buffer -/

theorem mapping_cleanup (w : World) (a b c : Bool) :
    calls Event.is_mapping (mpp_cleanup w a b c).trace = calls Event.is_mapping w.trace := by
  unfold mpp_cleanup
  simp only
  split_ifs <;> simp [Event.is_mapping]

theorem mapping_submit (env : Env) (w : World) (s : RkDmaBuffer)
    (src : Option RkDmaBuffer) (fb : Bool) :
    calls Event.is_mapping (encode_submit env w s src fb).world.trace =
      calls Event.is_mapping w.trace := by
  unfold encode_submit
  simp only
  repeat' split
  all_goals simp [mapping_cleanup, Event.is_mapping]

theorem mapping_copy_rows (s : RkDmaBuffer) : calls Event.is_mapping (copy_rows s) = 0 := by
  unfold copy_rows calls
  simp only
  split_ifs
  · simp [List.filter_cons, Event.is_mapping]
  · simp [List.filter_map, Function.comp_def, Event.is_mapping]

/-- The source after the copy path: untouched when nothing was mapped, unmapped once a
view existed. -/
theorem copy_source (env : Env) (w : World) (s : RkDmaBuffer) :
    ((encode_copy env w s).src = some s ∨
      (encode_copy env w s).src = some { s with vir_addr := 0 }) ∧
    (calls Event.is_mapping w.trace < calls Event.is_mapping (encode_copy env w s).world.trace →
      (encode_copy env w s).src = some { s with vir_addr := 0 }) := by
  unfold encode_copy
  simp only
  split
  · simp [Event.is_mapping]
  · unfold rk_dmabuf_map rk_dmabuf_unmap
    simp only
    repeat' split
    all_goals simp_all [submit_src, mapping_submit, Event.is_mapping, calls_append,
      mapping_copy_rows]
    all_goals (rename_i heq _ _; subst heq; simp_all)

/-- C21. `rk_mpp_encode_jpeg` leaves its source as it found it, up to the mapped view:
on every return path the source is the input buffer, with its view possibly dropped, so
that fd, size, width, height, stride and format are unchanged; the call closes no
descriptor and releases no buffer struct; whenever the call mapped the source, the
source is unmapped when the call returns, whatever the return code; and when the
source is eligible and the import succeeds, the source is exactly the input. -/
theorem encode_keeps_source (env : Env) (w : World) (enc : Bool) (s : RkDmaBuffer)
    (od os : Bool) (quality : Int) :
    ((rk_mpp_encode_jpeg env w enc (some s) od os quality).src = some s ∨
      (rk_mpp_encode_jpeg env w enc (some s) od os quality).src =
        some { s with vir_addr := 0 }) ∧
    (∀ fd : Int,
      open_handles fd (rk_mpp_encode_jpeg env w enc (some s) od os quality).world.trace =
        open_handles fd w.trace) ∧
    (∀ fd : Int,
      released fd (rk_mpp_encode_jpeg env w enc (some s) od os quality).world.trace =
        released fd w.trace) ∧
    (calls Event.is_mapping w.trace <
        calls Event.is_mapping
          (rk_mpp_encode_jpeg env w enc (some s) od os quality).world.trace →
      (rk_mpp_encode_jpeg env w enc (some s) od os quality).src =
        some { s with vir_addr := 0 }) ∧
    (zero_copy_flag s = true → (env.mpp_import.1 && env.mpp_import.2) = true →
      (rk_mpp_encode_jpeg env w enc (some s) od os quality).src = some s) := by
  refine ⟨?_, fun fd => tally_encode _ env w enc (some s) od os quality
      (accounts_handle_delta fd).1,
    fun fd => tally_encode _ env w enc (some s) od os quality (accounts_release_of fd).1,
    ?_⟩
  all_goals
    by_cases hchk : enc = true ∧ w.g_ctx.mpp.initialized = true ∧ od = true ∧ os = true
  · obtain ⟨he, hinit, hod, hos⟩ := hchk
    subst he hod hos
    rw [encode_cases env w s quality hinit]
    split_ifs
    · exact Or.inl (submit_src _ _ _ _ _)
    · exact (copy_source _ _ _).1
    · exact (copy_source _ _ _).1
    · exact Or.inl rfl
    · exact Or.inl rfl
  · left
    unfold rk_mpp_encode_jpeg
    cases enc <;> cases hi : w.g_ctx.mpp.initialized <;> cases od <;> cases os <;> simp_all
  · obtain ⟨he, hinit, hod, hos⟩ := hchk
    subst he hod hos
    have hentry : calls Event.is_mapping (encode_entry env w s quality).trace =
        calls Event.is_mapping w.trace := by
      simp [encode_entry, Event.is_mapping]
    rw [encode_cases env w s quality hinit]
    split_ifs with h1 h2 h3 h4
    · refine ⟨fun h => ?_, fun _ _ => submit_src _ _ _ _ _⟩
      rw [mapping_submit] at h
      simp [hentry, Event.is_mapping] at h
    · refine ⟨fun h => (copy_source _ _ _).2 ?_, fun _ hi => ?_⟩
      · simpa [hentry, Event.is_mapping] using h
      · exact absurd hi h4
    · refine ⟨fun h => (copy_source _ _ _).2 ?_, fun hz _ => ?_⟩
      · simpa [hentry] using h
      · exact absurd hz h3
    · refine ⟨fun h => ?_, fun _ _ => rfl⟩
      simp [hentry] at h
    · refine ⟨fun h => ?_, fun _ _ => rfl⟩
      simp [Event.is_mapping] at h
  · have hw := (encode_rejects env w enc (some s) od os quality
      (fun h => hchk ⟨h.1, h.2.1, h.2.2.2.1, h.2.2.2.2⟩)).1
    refine ⟨fun h => ?_, fun _ _ => ?_⟩
    · rw [hw] at h
      exact absurd h (lt_irrefl _)
    · unfold rk_mpp_encode_jpeg
      cases enc <;> cases hi : w.g_ctx.mpp.initialized <;> cases od <;> cases os <;> simp_all

/-- C21 on an unaligned 1920x1080 source: the call maps it for the copy and hands it
back unmapped, with every other field as it was. -/
theorem encode_keeps_source_witness :
    (rk_mpp_encode_jpeg (display_env 1920 1080 1920) ready_world true
      (some ⟨8, 8294400, 1920, 1080, 1920, 1, 0⟩) true true 90).src =
      some ⟨8, 8294400, 1920, 1080, 1920, 1, 0⟩ :=
  ((encode_keeps_source (display_env 1920 1080 1920) ready_world true
    ⟨8, 8294400, 1920, 1080, 1920, 1, 0⟩ true true 90).2.2.2.1 (by decide))

/-! ## Alignment -/

/-- The ceiling of a sixteenth, in integer division. -/
theorem ceil_sixteenth (n : Int) : Int.ceil ((n : ℚ) / 16) = (n + 15) / 16 := by
  rw [Int.ceil_eq_iff]
  have h1 : (n + 15) / 16 * 16 ≤ n + 15 := Int.ediv_mul_le _ (by norm_num)
  have h2 : n + 15 < ((n + 15) / 16 + 1) * 16 := Int.lt_ediv_add_one_mul_self _ (by norm_num)
  have h3 : n ≤ (n + 15) / 16 * 16 := by omega
  have h4 : (n + 15) / 16 * 16 - 16 < n := by omega
  have h3q : ((n : Int) : ℚ) ≤ (((n + 15) / 16 * 16 : Int) : ℚ) := by exact_mod_cast h3
  have h4q : ((((n + 15) / 16 * 16 - 16 : Int)) : ℚ) < ((n : Int) : ℚ) := by exact_mod_cast h4
  push_cast at h3q h4q
  constructor <;> linarith

/-- C22. For `0 ≤ n ≤ INT32_MAX - 15` the alignment `((n + 15) / 16) * 16` computed by
`rk_mpp_encode_jpeg` equals the spec's `ceil(n / 16) * 16`; it is a multiple of 16, at
least `n`, below every other multiple of 16 that is at least `n`, exceeds `n` by less than
16, and equals `n` exactly when `n` is a multiple of 16. -/
theorem align16_is_ceil (n : Int) (h0 : 0 ≤ n) (h1 : n ≤ INT32_MAX - 15) :
    align16 n = spec_aligned n ∧
    16 ∣ align16 n ∧ n ≤ align16 n ∧
    (∀ m : Int, 16 ∣ m → n ≤ m → align16 n ≤ m) ∧
    align16 n - n < 16 ∧
    (align16 n = n ↔ n % 16 = 0) := by
  rw [align16_eq n h0 h1]
  refine ⟨by unfold spec_aligned; rw [ceil_sixteenth], ⟨(n + 15) / 16, by ring⟩, by omega,
    fun m hm hn => ?_, by omega, by omega⟩
  obtain ⟨k, rfl⟩ := hm
  omega

/-- C22 at the heights 1080 and 1088: 1080 is aligned to 1088, 1088 to itself. -/
theorem align16_is_ceil_witness :
    align16 1080 = spec_aligned 1080 ∧ align16 1080 = 1088 ∧
    (align16 1088 = 1088 ↔ (1088 : Int) % 16 = 0) :=
  ⟨(align16_is_ceil 1080 (by decide) (by decide)).1, by decide,
   (align16_is_ceil 1088 (by decide) (by decide)).2.2.2.2.2⟩

/-! ## Shared buffers: allocation -/

/-- The `size_t` product `(size_t)width * height * 4` for positive C `int`s. -/
theorem alloc_size_eq (width height : Int) (hw : 0 < width) (hw1 : width ≤ INT32_MAX)
    (hh : 0 < height) (hh1 : height ≤ INT32_MAX) :
    (((toU64 width * toU64 height * 4) % 18446744073709551616 : Nat) : Int) =
      width * height * 4 ∧
    0 < (toU64 width * toU64 height * 4) % 18446744073709551616 := by
  unfold INT32_MAX at hw1 hh1
  have h1 : toU64 width = width.toNat := by
    unfold toU64
    rw [Int.emod_eq_of_lt (by omega) (by omega)]
  have h2 : toU64 height = height.toNat := by
    unfold toU64
    rw [Int.emod_eq_of_lt (by omega) (by omega)]
  rw [h1, h2]
  obtain ⟨a, rfl⟩ := Int.eq_ofNat_of_zero_le hw.le
  obtain ⟨b, rfl⟩ := Int.eq_ofNat_of_zero_le hh.le
  simp only [Int.toNat_ofNat]
  have ha : a ≤ 2147483647 := by exact_mod_cast hw1
  have hb : b ≤ 2147483647 := by exact_mod_cast hh1
  have ha0 : 0 < a := by exact_mod_cast hw
  have hb0 : 0 < b := by exact_mod_cast hh
  have hab : a * b ≤ 2147483647 * 2147483647 := Nat.mul_le_mul ha hb
  have hab0 : 0 < a * b := Nat.mul_pos ha0 hb0
  have hlt : a * b * 4 < 18446744073709551616 := by omega
  rw [Nat.mod_eq_of_lt hlt]
  refine ⟨by push_cast; ring, by omega⟩

/-- C23. For positive C `int` dimensions and a DMA-HEAP whose successful allocations
return a valid descriptor, every buffer returned by `rk_dmabuf_alloc` has size
`width * height * 4 > 0`, stride `width`, the requested width and height, format
RGBA8888, a valid handle and no mapped view, so that `width * height * 4 ≤ size`,
`stride ≥ width` and a valid handle implies a positive size. When the heap cannot be
opened, the allocation fails or the struct cannot be allocated, no buffer is returned;
whenever no buffer is returned, no buffer handle is left open. -/
theorem dmabuf_alloc_buffer (env : Env) (w : World) (width height : Int)
    (hw : 0 < width) (hw1 : width ≤ INT32_MAX) (hh : 0 < height) (hh1 : height ≤ INT32_MAX)
    (hfd : ∀ (len : Nat) (fd : Int), env.heap_alloc len = some fd → 0 ≤ fd) :
    (∀ b : RkDmaBuffer, (rk_dmabuf_alloc env w width height).1 = some b →
      (b.size : Int) = width * height * 4 ∧ 0 < b.size ∧ b.stride = width ∧
      b.width = width ∧ b.height = height ∧ b.format = RK_FORMAT_RGBA8888 ∧
      0 ≤ b.fd ∧ b.vir_addr = 0 ∧
      b.width * b.height * 4 ≤ (b.size : Int) ∧ b.stride ≥ b.width ∧
      (0 ≤ b.fd → 0 < b.size)) ∧
    (((w.g_heap_fd < 0 ∧ env.open_cma < 0 ∧ env.open_system < 0) ∨
        env.heap_alloc (width * height * 4).toNat = none ∨
        env.alloc_calloc_ok = false) →
      (rk_dmabuf_alloc env w width height).1 = none) ∧
    ((rk_dmabuf_alloc env w width height).1 = none →
      ∀ fd : Int,
        open_handles fd (rk_dmabuf_alloc env w width height).2.trace =
          open_handles fd w.trace) := by
  obtain ⟨hsz, hpos⟩ := alloc_size_eq width height hw hw1 hh hh1
  have hnat : (width * height * 4).toNat =
      (toU64 width * toU64 height * 4) % 18446744073709551616 := by
    rw [← hsz]
    rfl
  refine ⟨fun b hb => ?_, fun hfail => ?_, fun hnone fd => ?_⟩
  · unfold rk_dmabuf_alloc at hb
    simp only [] at hb
    split at hb
    · simp at hb
    · split at hb
      · simp at hb
      · rename_i g hg
        split at hb
        · simp at hb
        · simp only [Option.some.injEq] at hb
          subst hb
          exact ⟨hsz, hpos, rfl, rfl, rfl, rfl, hfd _ _ hg, rfl, by rw [hsz], le_refl _,
            fun _ => hpos⟩
  · rw [hnat] at hfail
    unfold rk_dmabuf_alloc open_dma_heap
    simp only [World.emit]
    rcases hfail with ⟨h1, h2, h3⟩ | h | h
    · have a1 : ¬ (w.g_heap_fd ≥ 0) := by omega
      have a2 : ¬ (env.open_cma ≥ 0) := by omega
      have a3 : ¬ (env.open_system ≥ 0) := by omega
      simp [a1, a2, a3]
    · repeat' split
      all_goals simp_all
    · repeat' split
      all_goals simp_all
  · unfold open_handles
    rw [tally_alloc _ env w width height (accounts_handle_delta fd), hnone]
    simp

/-- C23 on the 1280x720 destination of a scaled capture: the buffer has 3686400 bytes,
stride 1280 and the handle 9 returned by the heap. -/
theorem dmabuf_alloc_buffer_witness :
    (rk_dmabuf_alloc (display_env 1920 1080 1920) ready_world 1280 720).1 =
      some ⟨9, 3686400, 1280, 720, 1280, 0, 0⟩ ∧
    ((3686400 : Nat) : Int) = 1280 * 720 * 4 ∧ (0 : Int) ≤ 9 :=
  ⟨by decide,
   ((dmabuf_alloc_buffer (display_env 1920 1080 1920) ready_world 1280 720 (by decide)
      (by decide) (by decide) (by decide)
      (fun len fd h => by
        have h9 : fd = 9 := by
          simp only [display_env, Option.some.injEq] at h
          exact h.symm
        omega)).1 ⟨9, 3686400, 1280, 720, 1280, 0, 0⟩ (by decide)).1,
   ((dmabuf_alloc_buffer (display_env 1920 1080 1920) ready_world 1280 720 (by decide)
      (by decide) (by decide) (by decide)
      (fun len fd h => by
        have h9 : fd = 9 := by
          simp only [display_env, Option.some.injEq] at h
          exact h.symm
        omega)).1 ⟨9, 3686400, 1280, 720, 1280, 0, 0⟩ (by decide)).2.2.2.2.2.2.1⟩

/-! ## Encode stage: releases -/

/-- The calls of the clean-up label. -/
theorem cleanup_calls (p : Event → Bool) (w : World) (a b c : Bool) :
    calls p (mpp_cleanup w a b c).trace =
      calls p w.trace +
        (if (w.g_ctx.mpp.api && w.g_ctx.mpp.ctx) = true ∧ p Event.mpp_reset = true then 1
         else 0) +
        (if a = true ∧ p Event.mpp_frame_deinit = true then 1 else 0) +
        (if b = true ∧ p Event.mpp_buffer_put = true then 1 else 0) +
        (if c = true ∧ p Event.mpp_packet_deinit = true then 1 else 0) +
        (if p Event.free_pkt then 1 else 0) := by
  unfold mpp_cleanup
  simp only
  cases h0 : (w.g_ctx.mpp.api && w.g_ctx.mpp.ctx) <;> cases a <;> cases b <;> cases c <;>
    simp [h0]

/-- The calls of lines 181-247: set-up, submission, retrieval, payload and clean-up. -/
theorem submit_calls (p : Event → Bool) (env : Env) (w : World) (s : RkDmaBuffer)
    (src : Option RkDmaBuffer) (fb : Bool) :
    calls p (encode_submit env w s src fb).world.trace =
      calls p w.trace +
        (if p (Event.mpp_frame_init s.width s.height (hor_stride_aligned s)
          (ver_stride_aligned s)) then 1 else 0) +
        (if p (Event.mpp_packet_init (frame_size s)) then 1 else 0) +
        (if p Event.encode_put_frame then 1 else 0) +
        (if env.put_frame_ok then
          (if p Event.encode_get_packet then 1 else 0) +
            (match env.get_packet_ok, env.packet with
              | true, some bytes => if p (Event.malloc_out bytes.length) then 1 else 0
              | _, _ => 0)
         else 0) +
        (if (w.g_ctx.mpp.api && w.g_ctx.mpp.ctx) = true ∧ p Event.mpp_reset = true then 1
         else 0) +
        (if p Event.mpp_frame_deinit then 1 else 0) +
        (if fb = true ∧ p Event.mpp_buffer_put = true then 1 else 0) +
        (if (env.put_frame_ok = false ∨ env.packet.isSome = true) ∧
            p Event.mpp_packet_deinit = true then 1 else 0) +
        (if p Event.free_pkt then 1 else 0) := by
  have e1 : ∀ (v : World) (e : Event), (v.emit e).g_ctx = v.g_ctx := fun _ _ => rfl
  have e2 : ∀ v : World, (rk_get_time_us env v).2.g_ctx = v.g_ctx := fun _ => rfl
  unfold encode_submit
  simp only
  cases hput : env.put_frame_ok
  · simp only [Bool.not_false, if_true, cleanup_calls, calls_emit, e1,
      Bool.false_eq_true, if_false]
    simp
  · cases hg : env.get_packet_ok <;> cases hp : env.packet <;>
      cases ho : env.malloc_out_ok <;>
      simp [cleanup_calls, e1, e2] <;> ring

theorem map_g_ctx (env : Env) (w : World) (b : Option RkDmaBuffer) :
    (rk_dmabuf_map env w b).2.2.g_ctx = w.g_ctx := by
  unfold rk_dmabuf_map
  simp only [World.emit]
  repeat' split
  all_goals rfl

theorem unmap_g_ctx (w : World) (b : Option RkDmaBuffer) :
    (rk_dmabuf_unmap w b).2.g_ctx = w.g_ctx := by
  unfold rk_dmabuf_unmap
  simp only [World.emit]
  repeat' split
  all_goals rfl

theorem encode_calls_map (p : Event → Bool) (env : Env) (w : World) (b : Option RkDmaBuffer)
    (hp : ∀ e, e.is_encode = false → p e = false) :
    calls p (rk_dmabuf_map env w b).2.2.trace = calls p w.trace := by
  have h : ∀ x y z, p (Event.mmap x y z) = false := fun x y z => hp _ rfl
  unfold rk_dmabuf_map
  repeat' split
  all_goals simp [h]

theorem encode_calls_unmap (p : Event → Bool) (w : World) (b : Option RkDmaBuffer)
    (hp : ∀ e, e.is_encode = false → p e = false) :
    calls p (rk_dmabuf_unmap w b).2.trace = calls p w.trace := by
  have h : ∀ x y, p (Event.munmap x y) = false := fun x y => hp _ rfl
  unfold rk_dmabuf_unmap
  repeat' split
  all_goals simp [h]

theorem encode_calls_copy_rows (p : Event → Bool) (s : RkDmaBuffer)
    (hm : ∀ a b c, p (Event.memcpy_frame a b c) = false) : calls p (copy_rows s) = 0 := by
  unfold copy_rows calls
  simp only
  split_ifs
  · simp [List.filter_cons, hm]
  · simp [List.filter_map, Function.comp_def, hm]

/-- The calls of the copy path, for a test that ignores the copies themselves: those
of a submission with a pool buffer, and the pool allocation. -/
theorem copy_calls (p : Event → Bool) (env : Env) (w : World) (s : RkDmaBuffer)
    (hp : ∀ e, e.is_encode = false → p e = false)
    (hm : ∀ a b c, p (Event.memcpy_frame a b c) = false) :
    calls p (encode_copy env w s).world.trace =
      (if (env.mpp_get.1 && env.mpp_get.2) = true ∧ (rk_dmabuf_map env w (some s)).1 ≠ 0 then
        calls p (encode_submit env w s (some s) true).world.trace +
          (if p (Event.mpp_buffer_get (frame_size s)) then 1 else 0)
       else
        calls p w.trace + (if p (Event.mpp_buffer_get (frame_size s)) then 1 else 0) +
          (if (env.mpp_get.1 && env.mpp_get.2) = true ∧ p Event.mpp_buffer_put = true then 1
           else 0) +
          (if p Event.free_pkt then 1 else 0)) := by
  unfold encode_copy
  simp only
  rw [(map_fst env w (w.emit (Event.mpp_buffer_get (frame_size s))) (some s)).1]
  cases hget : (env.mpp_get.1 && env.mpp_get.2)
  · have h1 : (!env.mpp_get.1 || !env.mpp_get.2) = true := by
      cases h1 : env.mpp_get.1 <;> cases h2 : env.mpp_get.2 <;> simp_all
    simp [h1]
  · have h1 : (!env.mpp_get.1 || !env.mpp_get.2) = false := by
      cases h1 : env.mpp_get.1 <;> cases h2 : env.mpp_get.2 <;> simp_all
    simp only [h1, Bool.false_eq_true, if_false, true_and]
    by_cases hmap : (rk_dmabuf_map env w (some s)).1 = 0
    · simp [hmap, encode_calls_map p env _ _ hp]
    · simp only [hmap, if_false, ne_eq, not_false_eq_true, if_true]
      rw [submit_calls, submit_calls, encode_calls_unmap p _ _ hp, unmap_g_ctx]
      simp only [calls_append, encode_calls_copy_rows p s hm, encode_calls_map p env _ _ hp,
        calls_emit, map_g_ctx]
      have e1 : (w.emit (Event.mpp_buffer_get (frame_size s))).g_ctx = w.g_ctx := rfl
      rw [e1]
      ring

/-- The calls of a call of `rk_mpp_encode_jpeg` that passed its checks, for a test that
ignores the copies: either those of a submission plus the configuration and the
allocations before it, or the configuration, the allocations made and their release. -/
theorem encode_calls (p : Event → Bool) (env : Env) (w : World) (s : RkDmaBuffer)
    (quality : Int) (hinit : w.g_ctx.mpp.initialized = true)
    (hp : ∀ e, e.is_encode = false → p e = false)
    (hm : ∀ a b c, p (Event.memcpy_frame a b c) = false) :
    calls p (rk_mpp_encode_jpeg env w true (some s) true true quality).world.trace =
      (if env.mpp_control_ok = true ∧ env.malloc_pkt_ok = true ∧
          ((zero_copy_flag s = true ∧ (env.mpp_import.1 && env.mpp_import.2) = true) ∨
            ((env.mpp_get.1 && env.mpp_get.2) = true ∧
              (rk_dmabuf_map env w (some s)).1 ≠ 0)) then
        calls p (encode_submit env w s (some s) true).world.trace +
          (if p (Event.mpp_enc_cfg s.width s.height (hor_stride_bytes s)
            (ver_stride_aligned s) (mpp_quant quality)) then 1 else 0) +
          (if p Event.mpp_control then 1 else 0) +
          (if p (Event.malloc_pkt (frame_size s)) then 1 else 0) +
          (if zero_copy_flag s = true ∧ p (Event.mpp_buffer_import s.fd s.size) = true then 1
           else 0) +
          (if ¬ (zero_copy_flag s = true ∧ (env.mpp_import.1 && env.mpp_import.2) = true) ∧
              p (Event.mpp_buffer_get (frame_size s)) = true then 1 else 0)
       else
        calls p w.trace +
          (if p (Event.mpp_enc_cfg s.width s.height (hor_stride_bytes s)
            (ver_stride_aligned s) (mpp_quant quality)) then 1 else 0) +
          (if p Event.mpp_control then 1 else 0) +
          (if env.mpp_control_ok = true ∧ p (Event.malloc_pkt (frame_size s)) = true then 1
           else 0) +
          (if env.mpp_control_ok = true ∧ env.malloc_pkt_ok = true then
            (if zero_copy_flag s = true ∧ p (Event.mpp_buffer_import s.fd s.size) = true
              then 1 else 0) +
            (if p (Event.mpp_buffer_get (frame_size s)) then 1 else 0) +
            (if (env.mpp_get.1 && env.mpp_get.2) = true ∧ p Event.mpp_buffer_put = true
              then 1 else 0) +
            (if p Event.free_pkt then 1 else 0)
           else 0)) := by
  have e1 : ∀ (v : World) (e : Event), (v.emit e).g_ctx = v.g_ctx := fun _ _ => rfl
  have e2 : (encode_entry env w s quality).g_ctx = w.g_ctx := rfl
  have e3 : calls p (encode_entry env w s quality).trace =
      calls p w.trace +
        (if p (Event.mpp_enc_cfg s.width s.height (hor_stride_bytes s)
          (ver_stride_aligned s) (mpp_quant quality)) then 1 else 0) +
        (if p Event.mpp_control then 1 else 0) +
        (if p (Event.malloc_pkt (frame_size s)) then 1 else 0) := by
    simp [encode_entry]
  rw [encode_cases env w s quality hinit]
  cases hc : env.mpp_control_ok
  · simp
  cases hk : env.malloc_pkt_ok
  · simp [e3]
  simp only [if_true, true_and]
  cases hz : zero_copy_flag s <;> cases hi : (env.mpp_import.1 && env.mpp_import.2)
  all_goals simp only [Bool.false_eq_true, if_false, if_true, false_and, true_and, false_or,
    true_or, and_true, not_false_eq_true, not_true_eq_false, and_false]
  · rw [copy_calls p env _ s hp hm, (map_fst env w _ (some s)).1]
    by_cases hcp : (env.mpp_get.1 && env.mpp_get.2) = true ∧ (rk_dmabuf_map env w (some s)).1 ≠ 0
    · rw [if_pos hcp, if_pos hcp, submit_calls, submit_calls, e2, e3]
      ring
    · rw [if_neg hcp, if_neg hcp, e3]
      ring
  · rw [copy_calls p env _ s hp hm, (map_fst env w _ (some s)).1]
    by_cases hcp : (env.mpp_get.1 && env.mpp_get.2) = true ∧ (rk_dmabuf_map env w (some s)).1 ≠ 0
    · rw [if_pos hcp, if_pos hcp, submit_calls, submit_calls, e2, e3]
      ring
    · rw [if_neg hcp, if_neg hcp, e3]
      ring
  · rw [copy_calls p env _ s hp hm, (map_fst env w _ (some s)).1]
    by_cases hcp : (env.mpp_get.1 && env.mpp_get.2) = true ∧ (rk_dmabuf_map env w (some s)).1 ≠ 0
    · rw [if_pos hcp, if_pos hcp, submit_calls, submit_calls, e1, e2, calls_emit, e3]
      ring
    · rw [if_neg hcp, if_neg hcp, calls_emit, e3]
      ring
  · rw [submit_calls, submit_calls, e1, e2, calls_emit, e3]
    ring

/-- The releases of a call of `rk_mpp_encode_jpeg` that passed its checks, on an encoder
whose `api` and `ctx` are set: the output packet buffer is freed once when it was
allocated; one frame buffer is put back when one was imported or taken from the pool;
the frame is released as often as it is created, the context is reset as often as a
frame is submitted; the packet is released as often as it is created, except that it is
not released when the retrieval is reached and leaves the packet pointer null. -/
theorem encode_releases (env : Env) (w : World) (s : RkDmaBuffer) (quality : Int)
    (hinit : w.g_ctx.mpp.initialized = true)
    (hapi : (w.g_ctx.mpp.api && w.g_ctx.mpp.ctx) = true) :
    calls Event.is_packet_free
        (rk_mpp_encode_jpeg env w true (some s) true true quality).world.trace =
      calls Event.is_packet_free w.trace +
        (if env.mpp_control_ok = true ∧ env.malloc_pkt_ok = true then 1 else 0) ∧
    calls Event.is_buffer_put
        (rk_mpp_encode_jpeg env w true (some s) true true quality).world.trace =
      calls Event.is_buffer_put w.trace +
        (if env.mpp_control_ok = true ∧ env.malloc_pkt_ok = true ∧
            ((zero_copy_flag s = true ∧ (env.mpp_import.1 && env.mpp_import.2) = true) ∨
              (env.mpp_get.1 && env.mpp_get.2) = true) then 1 else 0) ∧
    calls Event.is_frame_deinit
          (rk_mpp_encode_jpeg env w true (some s) true true quality).world.trace +
        calls Event.is_frame_init w.trace =
      calls Event.is_frame_init
          (rk_mpp_encode_jpeg env w true (some s) true true quality).world.trace +
        calls Event.is_frame_deinit w.trace ∧
    calls Event.is_reset
          (rk_mpp_encode_jpeg env w true (some s) true true quality).world.trace +
        calls Event.is_submission w.trace =
      calls Event.is_submission
          (rk_mpp_encode_jpeg env w true (some s) true true quality).world.trace +
        calls Event.is_reset w.trace ∧
    calls Event.is_packet_deinit
          (rk_mpp_encode_jpeg env w true (some s) true true quality).world.trace +
        calls Event.is_packet_init w.trace +
        (if (env.mpp_control_ok = true ∧ env.malloc_pkt_ok = true ∧
            ((zero_copy_flag s = true ∧ (env.mpp_import.1 && env.mpp_import.2) = true) ∨
              ((env.mpp_get.1 && env.mpp_get.2) = true ∧
                (rk_dmabuf_map env w (some s)).1 ≠ 0))) ∧
            env.put_frame_ok = true ∧ env.packet = none then 1 else 0) =
      calls Event.is_packet_init
          (rk_mpp_encode_jpeg env w true (some s) true true quality).world.trace +
        calls Event.is_packet_deinit w.trace := by
  have h1 : ∀ e : Event, e.is_encode = false → e.is_packet_free = false := by
    intro e; cases e <;> simp [Event.is_encode, Event.is_packet_free]
  have h2 : ∀ e : Event, e.is_encode = false → e.is_buffer_put = false := by
    intro e; cases e <;> simp [Event.is_encode, Event.is_buffer_put]
  have h3 : ∀ e : Event, e.is_encode = false → e.is_frame_deinit = false := by
    intro e; cases e <;> simp [Event.is_encode, Event.is_frame_deinit]
  have h4 : ∀ e : Event, e.is_encode = false → e.is_frame_init = false := by
    intro e; cases e <;> simp [Event.is_encode, Event.is_frame_init]
  have h5 : ∀ e : Event, e.is_encode = false → e.is_reset = false := by
    intro e; cases e <;> simp [Event.is_encode, Event.is_reset]
  have h6 : ∀ e : Event, e.is_encode = false → e.is_submission = false := by
    intro e; cases e <;> simp [Event.is_encode, Event.is_submission]
  have h7 : ∀ e : Event, e.is_encode = false → e.is_packet_deinit = false := by
    intro e; cases e <;> simp [Event.is_encode, Event.is_packet_deinit]
  have h8 : ∀ e : Event, e.is_encode = false → e.is_packet_init = false := by
    intro e; cases e <;> simp [Event.is_encode, Event.is_packet_init]
  rw [encode_calls _ env w s quality hinit h1 (fun _ _ _ => rfl),
    encode_calls _ env w s quality hinit h2 (fun _ _ _ => rfl),
    encode_calls _ env w s quality hinit h3 (fun _ _ _ => rfl),
    encode_calls _ env w s quality hinit h4 (fun _ _ _ => rfl),
    encode_calls _ env w s quality hinit h5 (fun _ _ _ => rfl),
    encode_calls _ env w s quality hinit h6 (fun _ _ _ => rfl),
    encode_calls _ env w s quality hinit h7 (fun _ _ _ => rfl),
    encode_calls _ env w s quality hinit h8 (fun _ _ _ => rfl)]
  simp only [submit_calls, hapi]
  have hmat : ∀ (gp : Bool) (pk : Option (List Nat)),
      (match gp, pk with
        | true, some _ => (0 : Nat)
        | _, _ => 0) = 0 := by
    intro gp pk
    cases gp <;> cases pk <;> rfl
  generalize (rk_dmabuf_map env w (some s)).1 = m
  generalize zero_copy_flag s = z
  generalize (env.mpp_import.1 && env.mpp_import.2) = i
  generalize (env.mpp_get.1 && env.mpp_get.2) = g
  generalize env.mpp_control_ok = c
  generalize env.malloc_pkt_ok = k
  generalize env.put_frame_ok = pf
  generalize env.get_packet_ok = gp
  generalize env.packet = pk
  simp only [Event.is_packet_free, Event.is_buffer_put, Event.is_frame_deinit,
    Event.is_frame_init, Event.is_reset, Event.is_submission, Event.is_packet_deinit,
    Event.is_packet_init, Bool.false_eq_true, if_false, and_false, and_true, if_true,
    hmat, add_zero, zero_add]
  cases c
  · simp
    omega
  cases k
  · simp
    omega
  simp only [true_and, if_true]
  by_cases hA : (z = true ∧ i = true) ∨ (g = true ∧ m ≠ 0)
  · have hB : (z = true ∧ i = true) ∨ g = true := by tauto
    simp only [hA, hB, if_true, true_and]
    cases pf <;> cases pk <;> simp <;> omega
  · simp only [hA, if_false, false_and]
    cases z <;> cases i <;> cases g <;> simp_all <;> omega

/-- C24 fails in the code when the retrieval leaves the packet pointer null. For an
eligible 1920x1088 source, a successful import and submission, and an
`encode_get_packet` after which `packet` is null, the call returns
`RKSS_ERROR_ENCODE_FAILED` having created one packet and released none; the output
packet buffer, the frame buffer and the frame are each released once, and the context
is reset once. -/
theorem packet_leaks_on_null_retrieval :
    ({ display_env 1920 1088 1920 with packet := none } : Env).put_frame_ok = true ∧
    (rk_mpp_encode_jpeg { display_env 1920 1088 1920 with packet := none } ready_world true
      (some ⟨8, 8355840, 1920, 1088, 1920, 1, 0⟩) true true 90).err =
        RKSS_ERROR_ENCODE_FAILED ∧
    calls Event.is_packet_init
      (rk_mpp_encode_jpeg { display_env 1920 1088 1920 with packet := none } ready_world true
        (some ⟨8, 8355840, 1920, 1088, 1920, 1, 0⟩) true true 90).world.trace = 1 ∧
    calls Event.is_packet_deinit
      (rk_mpp_encode_jpeg { display_env 1920 1088 1920 with packet := none } ready_world true
        (some ⟨8, 8355840, 1920, 1088, 1920, 1, 0⟩) true true 90).world.trace = 0 ∧
    calls Event.is_packet_free
      (rk_mpp_encode_jpeg { display_env 1920 1088 1920 with packet := none } ready_world true
        (some ⟨8, 8355840, 1920, 1088, 1920, 1, 0⟩) true true 90).world.trace = 1 ∧
    calls Event.is_buffer_put
      (rk_mpp_encode_jpeg { display_env 1920 1088 1920 with packet := none } ready_world true
        (some ⟨8, 8355840, 1920, 1088, 1920, 1, 0⟩) true true 90).world.trace = 1 ∧
    calls Event.is_frame_init
      (rk_mpp_encode_jpeg { display_env 1920 1088 1920 with packet := none } ready_world true
        (some ⟨8, 8355840, 1920, 1088, 1920, 1, 0⟩) true true 90).world.trace = 1 ∧
    calls Event.is_frame_deinit
      (rk_mpp_encode_jpeg { display_env 1920 1088 1920 with packet := none } ready_world true
        (some ⟨8, 8355840, 1920, 1088, 1920, 1, 0⟩) true true 90).world.trace = 1 ∧
    calls Event.is_reset
      (rk_mpp_encode_jpeg { display_env 1920 1088 1920 with packet := none } ready_world true
        (some ⟨8, 8355840, 1920, 1088, 1920, 1, 0⟩) true true 90).world.trace = 1 := by
  decide

/-! ## Lifecycle -/

/-- Tearing down a pipeline that is not initialized changes nothing. -/
theorem deinit_of_uninitialized (w : World) (h : w.g_ctx.initialized = false) :
    rk_screenshot_deinit w = w := by
  simp [rk_screenshot_deinit, h]

/-- C25. The lifecycle is idempotent in both directions. `rk_screenshot_init` on an
initialized pipeline returns `RKSS_SUCCESS` and leaves every global as it was;
`rk_screenshot_deinit` on an uninitialized pipeline changes nothing, and a second
`rk_screenshot_deinit` changes nothing after the first. On an uninitialized pipeline,
when a stage's init fails, `rk_screenshot_init` returns that stage's code, the capture
and transform stages set up before it are deinitialized again, and the pipeline is left
uninitialized. -/
theorem lifecycle_idempotent (ienv : InitEnv) (w : World) :
    (w.g_ctx.initialized = true → rk_screenshot_init ienv w = (RKSS_SUCCESS, w)) ∧
    (w.g_ctx.initialized = false → rk_screenshot_deinit w = w) ∧
    rk_screenshot_deinit (rk_screenshot_deinit w) = rk_screenshot_deinit w ∧
    (w.g_ctx.initialized = false →
      ((rk_sf_init w true).1 ≠ RKSS_SUCCESS →
        (rk_screenshot_init ienv w).1 = (rk_sf_init w true).1 ∧
        (rk_screenshot_init ienv w).2.g_ctx.initialized = false) ∧
      ((rk_rga_init ienv (rk_sf_init w true).2 true).1 ≠ RKSS_SUCCESS →
        (rk_screenshot_init ienv w).1 = (rk_rga_init ienv (rk_sf_init w true).2 true).1 ∧
        (rk_screenshot_init ienv w).2.g_sf_ctx.initialized = false ∧
        (rk_screenshot_init ienv w).2.g_ctx.rga.initialized = false ∧
        (rk_screenshot_init ienv w).2.g_ctx.initialized = false) ∧
      ((rk_rga_init ienv (rk_sf_init w true).2 true).1 = RKSS_SUCCESS →
        (rk_mpp_init ienv (rk_rga_init ienv (rk_sf_init w true).2 true).2 true).1 ≠
          RKSS_SUCCESS →
        (rk_screenshot_init ienv w).1 =
          (rk_mpp_init ienv (rk_rga_init ienv (rk_sf_init w true).2 true).2 true).1 ∧
        (rk_screenshot_init ienv w).2.g_sf_ctx.initialized = false ∧
        (rk_screenshot_init ienv w).2.g_ctx.rga.initialized = false ∧
        (rk_screenshot_init ienv w).2.g_ctx.mpp.initialized = false ∧
        (rk_screenshot_init ienv w).2.g_ctx.initialized = false) ∧
      ((rk_screenshot_init ienv w).1 = RKSS_SUCCESS ↔
        (ienv.rga_version_ok = true ∧ ienv.mpp_create_ok = true ∧
          ienv.mpp_init_ok = true ∧ ienv.mpp_enc_cfg_init_ok = true)) ∧
      ((rk_screenshot_init ienv w).1 = RKSS_SUCCESS →
        (rk_screenshot_init ienv w).2.g_ctx.initialized = true ∧
        rk_screenshot_init ienv (rk_screenshot_init ienv w).2 =
          (RKSS_SUCCESS, (rk_screenshot_init ienv w).2))) := by
  refine ⟨fun h => by simp [rk_screenshot_init, h], deinit_of_uninitialized w,
    deinit_of_uninitialized _ (deinit_uninitialized w), fun h => ?_⟩
  unfold rk_screenshot_init rk_mpp_init rk_rga_init rk_sf_init rk_sf_deinit rk_rga_deinit
  cases hs : w.g_sf_ctx.initialized <;> cases h1 : ienv.rga_version_ok <;>
    cases h2 : ienv.mpp_create_ok <;> cases h3 : ienv.mpp_init_ok <;>
    cases h4 : ienv.mpp_enc_cfg_init_ok <;> simp [h, hs]

/-- C25 from program start: with vendor libraries that succeed, `rk_screenshot_init`
reaches the ready state and a second call changes nothing; with an accelerator that is
not available it returns `RKSS_ERROR_RGA_FAILED` and leaves the capture stage
deinitialized. -/
theorem lifecycle_idempotent_witness :
    rk_screenshot_init vendor_ok initial_world = (RKSS_SUCCESS, ready_world) ∧
    rk_screenshot_init vendor_ok ready_world = (RKSS_SUCCESS, ready_world) ∧
    (rk_screenshot_init { vendor_ok with rga_version_ok := false } initial_world).1 =
      RKSS_ERROR_RGA_FAILED ∧
    (rk_screenshot_init { vendor_ok with rga_version_ok := false }
      initial_world).2.g_sf_ctx.initialized = false :=
  ⟨by decide, (lifecycle_idempotent vendor_ok ready_world).1 (by decide), by decide,
   (((lifecycle_idempotent { vendor_ok with rga_version_ok := false } initial_world).2.2.2
      (by decide)).2.1 (by decide)).2.1⟩

/-! ## Orchestrator: what the request is read for -/

/-- Stage 3 reads the format and the quality of the request, nothing else. -/
theorem output_congr (env : Env) (w : World) (c1 c2 : RkScreenshotConfig)
    (res : RkScreenshotResult) (pb : RkDmaBuffer) (t : Nat)
    (hf : c1.format = c2.format) (hq : c1.quality = c2.quality) :
    capture_output env w c1 res pb t = capture_output env w c2 res pb t := by
  unfold capture_output capture_finish
  simp only [hf, hq]

/-- Stages 2 and 3 read the format, the quality, the scale target and the rotation of
the request, nothing else. -/
theorem transform_congr (env : Env) (w : World) (c1 c2 : RkScreenshotConfig)
    (res : RkScreenshotResult) (buf : RkDmaBuffer) (t : Nat)
    (hf : c1.format = c2.format) (hq : c1.quality = c2.quality)
    (hsw : c1.scale_width = c2.scale_width) (hsh : c1.scale_height = c2.scale_height)
    (hr : c1.rotation = c2.rotation) :
    capture_transform env w c1 res buf t = capture_transform env w c2 res buf t := by
  unfold capture_transform need_scale
  simp only [hsw, hsh, hr, output_congr env _ c1 c2 _ _ _ hf hq]

/-- With the gate closed, stages 2 and 3 do not read the rotation. -/
theorem transform_rotation_skip (env : Env) (w : World) (c : RkScreenshotConfig)
    (res : RkScreenshotResult) (buf : RkDmaBuffer) (t : Nat) (rot : Int)
    (hn : need_scale c buf = false) :
    capture_transform env w { c with rotation := rot } res buf t =
      capture_transform env w c res buf t := by
  have hn1 : need_scale { c with rotation := rot } buf = false := hn
  unfold capture_transform
  simp only [hn, hn1, Bool.false_eq_true, if_false]
  exact output_congr env w _ _ _ _ _ rfl rfl

/-- C26. When the transform step is skipped (the gate `need_scale` is closed for the
captured buffer: the scale target is absent or equals the captured size), the rotation
of the request is never read: for every rotation value the whole outcome of
`rk_screenshot_capture`, return code, result and calls made, is that of rotation 0. -/
theorem rotation_ignored_when_skipped (env : Env) (w : World) (c : RkScreenshotConfig)
    (result : Bool) (rot : Int)
    (hskip : ∀ buf : RkDmaBuffer,
      (rk_sf_capture env w w.g_ctx.sf_ctx true).1 = .ok buf → need_scale c buf = false) :
    rk_screenshot_capture env w (some { c with rotation := rot }) result =
      rk_screenshot_capture env w (some { c with rotation := 0 }) result := by
  have h1 := sf_capture_fst env w
    (rk_get_time_us env ((rk_get_time_us env w).2.emit Event.calloc_result)).2
    w.g_ctx.sf_ctx true rfl
  unfold rk_screenshot_capture
  simp only []
  cases hcap : (rk_sf_capture env
      (rk_get_time_us env ((rk_get_time_us env w).2.emit Event.calloc_result)).2
      w.g_ctx.sf_ctx true).1 with
  | error e => simp only []
  | ok buf =>
    rw [h1] at hcap
    have hn := hskip buf hcap
    simp only [transform_rotation_skip env _ c _ buf _ rot hn,
      transform_rotation_skip env _ c _ buf _ 0 hn]

/-- C26 on a 1920x1080 capture without a scale target: rotation 90 gives the outcome
of rotation 0. -/
theorem rotation_ignored_when_skipped_witness :
    rk_screenshot_capture (display_env 1920 1080 1920) ready_world
        (some { default_config with rotation := 90 }) true =
      rk_screenshot_capture (display_env 1920 1080 1920) ready_world
        (some { default_config with rotation := 0 }) true :=
  rotation_ignored_when_skipped (display_env 1920 1080 1920) ready_world default_config
    true 90 (fun buf _ => need_scale_asymmetric default_config buf (by decide))

theorem sf_capture_no_timeout (env : Env) (w : World) (a b : Bool) (e : RkScreenshotError)
    (h : (rk_sf_capture env w a b).1 = .error e) : e ≠ RKSS_ERROR_TIMEOUT := by
  unfold rk_sf_capture at h
  simp only [] at h
  repeat' split at h
  all_goals simp_all
  all_goals (subst h; decide)

theorem rga_no_timeout (env : Env) (w : World) (p : Bool) (s d : Option RkDmaBuffer)
    (rot : Int) : (rk_rga_process env w p s d rot).1 ≠ RKSS_ERROR_TIMEOUT := by
  unfold rk_rga_process
  simp only []
  repeat' split
  all_goals simp

theorem encode_no_timeout (env : Env) (w : World) (enc : Bool) (src : Option RkDmaBuffer)
    (od os : Bool) (quality : Int) :
    (rk_mpp_encode_jpeg env w enc src od os quality).err ≠ RKSS_ERROR_TIMEOUT := by
  by_cases hchk : enc = true ∧ w.g_ctx.mpp.initialized = true ∧ src.isSome = true ∧
      od = true ∧ os = true
  · obtain ⟨he, hinit, hsrc, hod, hos⟩ := hchk
    obtain ⟨s, rfl⟩ := Option.isSome_iff_exists.1 hsrc
    subst he hod hos
    rw [encode_err env w s quality hinit]
    cases env.get_packet_ok <;> cases env.packet <;> split_ifs <;> simp
  · unfold rk_mpp_encode_jpeg
    cases enc <;> cases hi : w.g_ctx.mpp.initialized <;> cases src <;> cases od <;> cases os <;>
      simp_all

theorem output_no_timeout (env : Env) (w : World) (c : RkScreenshotConfig)
    (res : RkScreenshotResult) (pb : RkDmaBuffer) (t : Nat) :
    (capture_output env w c res pb t).err ≠ RKSS_ERROR_TIMEOUT := by
  unfold capture_output capture_finish
  simp only []
  repeat' split
  all_goals first
    | exact encode_no_timeout _ _ _ _ _ _ _
    | simp

theorem transform_no_timeout (env : Env) (w : World) (c : RkScreenshotConfig)
    (res : RkScreenshotResult) (buf : RkDmaBuffer) (t : Nat) :
    (capture_transform env w c res buf t).err ≠ RKSS_ERROR_TIMEOUT := by
  unfold capture_transform
  simp only []
  repeat' split
  all_goals first
    | exact output_no_timeout _ _ _ _ _ _
    | exact rga_no_timeout _ _ _ _ _ _
    | simp

/-- C28. The outcome of `rk_screenshot_capture` depends on the request only through
format, quality, scale target and rotation: two requests that agree on these five
fields have the same outcome in full (return code, result with payload, size, width,
height and format, and calls made), whatever their width, height, timeout, crop, flip
and enhancement fields; and no call returns `RKSS_ERROR_TIMEOUT`. -/
theorem capture_reads_five_fields (env : Env) (w : World) (c1 c2 : RkScreenshotConfig)
    (result : Bool)
    (hf : c1.format = c2.format) (hq : c1.quality = c2.quality)
    (hsw : c1.scale_width = c2.scale_width) (hsh : c1.scale_height = c2.scale_height)
    (hr : c1.rotation = c2.rotation) :
    rk_screenshot_capture env w (some c1) result =
      rk_screenshot_capture env w (some c2) result ∧
    (∀ (cfg : Option RkScreenshotConfig) (res : Bool),
      (rk_screenshot_capture env w cfg res).err ≠ RKSS_ERROR_TIMEOUT) := by
  refine ⟨capture_congr env w c1 c2 result
    (fun w1 res buf t => transform_congr env w1 c1 c2 res buf t hf hq hsw hsh hr),
    fun cfg res => ?_⟩
  unfold rk_screenshot_capture
  simp only []
  repeat' split
  all_goals first
    | exact transform_no_timeout _ _ _ _ _ _
    | (rename_i e he; exact sf_capture_no_timeout _ _ _ _ e he)
    | simp

/-- C28 on two requests for a 1280x720 JPEG that differ in width, height, timeout, crop,
flip and enhancement: same outcome. -/
theorem capture_reads_five_fields_witness :
    rk_screenshot_capture (display_env 1920 1080 1920) ready_world
        (some { default_config with format := RK_FORMAT_JPEG, scale_width := 1280,
                                    scale_height := 720 }) true =
      rk_screenshot_capture (display_env 1920 1080 1920) ready_world
        (some { default_config with format := RK_FORMAT_JPEG, scale_width := 1280,
                                    scale_height := 720, width := 640, height := 480,
                                    timeout_ms := 1, crop_x := 10, crop_y := 10,
                                    crop_width := 100, crop_height := 100,
                                    flip_vertical := true, flip_horizontal := true,
                                    enable_npu_enhance := true }) true :=
  (capture_reads_five_fields (display_env 1920 1080 1920) ready_world
    { default_config with format := RK_FORMAT_JPEG, scale_width := 1280,
                          scale_height := 720 }
    { default_config with format := RK_FORMAT_JPEG, scale_width := 1280,
                          scale_height := 720, width := 640, height := 480,
                          timeout_ms := 1, crop_x := 10, crop_y := 10,
                          crop_width := 100, crop_height := 100,
                          flip_vertical := true, flip_horizontal := true,
                          enable_npu_enhance := true }
    true rfl rfl rfl rfl rfl).1

/-! ## Encode stage: bounds of the copy -/

theorem toU64_of_fits (x : Int) (h0 : 0 ≤ x) (h1 : x ≤ 2147483647) : toU64 x = x.toNat := by
  unfold toU64
  rw [Int.emod_eq_of_lt h0 (by omega)]

/-- Within the range of C `int` the copy of lines 162-177 stays in bounds. For a source
of positive width `w ≤ 536870896` and height `h` with `w * h * 4 ≤ INT32_MAX`, every
`memcpy` of the copy path writes inside the destination frame buffer and only bytes of
logical rows and columns, and reads inside the first `w * h * 4` bytes of the source. -/
theorem copy_rows_in_bounds (s : RkDmaBuffer)
    (hw : 0 < s.width) (hw1 : s.width ≤ 536870896) (hh : 0 < s.height)
    (hfit : s.width * s.height * 4 ≤ INT32_MAX)
    (d so : Int) (len : Nat) (hmem : Event.memcpy_frame d so len ∈ copy_rows s) :
    0 ≤ d ∧ d + len ≤ (frame_size s : Int) ∧
    0 ≤ so ∧ so + len ≤ s.width * s.height * 4 ∧
    (∀ i : Int, d ≤ i → i < d + len →
      i / hor_stride_bytes s < s.height ∧ i % hor_stride_bytes s < 4 * s.width) := by
  unfold INT32_MAX at hfit
  have hh1 : s.height ≤ 2147483647 - 15 := by nlinarith
  have ha : hor_stride_aligned s = (s.width + 15) / 16 * 16 :=
    align16_eq s.width hw.le (by unfold INT32_MAX; omega)
  have hv : ver_stride_aligned s = (s.height + 15) / 16 * 16 :=
    align16_eq s.height hh.le (by unfold INT32_MAX; omega)
  have hb : hor_stride_bytes s = (s.width + 15) / 16 * 16 * 4 := by
    unfold hor_stride_bytes mul32
    rw [ha, wrap32_of_fits _ (by omega) (by omega)]
  have hs4 : mul32 s.width 4 = s.width * 4 := by
    unfold mul32
    rw [wrap32_of_fits _ (by omega) (by omega)]
  have hhs : mul32 s.height (s.width * 4) = s.height * (s.width * 4) := by
    unfold mul32
    rw [wrap32_of_fits _ (by nlinarith) (by nlinarith)]
  have hfs : (frame_size s : Int) = hor_stride_bytes s * ver_stride_aligned s := by
    unfold frame_size
    rw [toU64_of_fits _ (by rw [hb]; omega) (by rw [hb]; omega),
      toU64_of_fits _ (by rw [hv]; omega) (by rw [hv]; omega)]
    have h1 : 0 ≤ hor_stride_bytes s := by rw [hb]; omega
    have h2 : 0 ≤ ver_stride_aligned s := by rw [hv]; omega
    have h3 : hor_stride_bytes s ≤ 2147483647 := by rw [hb]; omega
    have h4 : ver_stride_aligned s ≤ 2147483647 := by rw [hv]; omega
    obtain ⟨a, ha1⟩ := Int.eq_ofNat_of_zero_le h1
    obtain ⟨b, hb1⟩ := Int.eq_ofNat_of_zero_le h2
    rw [ha1] at h3 ⊢
    rw [hb1] at h4 ⊢
    simp only [Int.toNat_ofNat]
    have ha2 : a ≤ 2147483647 := by exact_mod_cast h3
    have hb2 : b ≤ 2147483647 := by exact_mod_cast h4
    have hab : a * b ≤ 2147483647 * 2147483647 := Nat.mul_le_mul ha2 hb2
    rw [Nat.mod_eq_of_lt (by omega)]
    push_cast
    ring
  generalize hA : hor_stride_bytes s = A at *
  generalize hV : ver_stride_aligned s = V at *
  have hAw : s.width * 4 ≤ A := by omega
  have hVh : s.height ≤ V := by omega
  have hA0 : 0 < A := by omega
  unfold copy_rows at hmem
  simp only [hs4, hhs, hA] at hmem
  split at hmem
  · rename_i heq
    simp only [List.mem_singleton, Event.memcpy_frame.injEq] at hmem
    obtain ⟨rfl, rfl, rfl⟩ := hmem
    rw [toU64_of_fits _ (by nlinarith) (by nlinarith)]
    have hnn : (0 : Int) ≤ s.height * (s.width * 4) := by nlinarith
    rw [Int.toNat_of_nonneg hnn, hfs]
    refine ⟨le_refl _, ?_, le_refl _, by nlinarith, fun i hi0 hi1 => ?_⟩
    · rw [heq]
      nlinarith
    · rw [heq]
      have hW0 : (0 : Int) < s.width * 4 := by omega
      refine ⟨Int.ediv_lt_of_lt_mul hW0 (by linarith), ?_⟩
      have := Int.emod_lt_of_pos i hW0
      omega
  · simp only [List.mem_map, List.mem_range, Event.memcpy_frame.injEq] at hmem
    obtain ⟨y0, hy, rfl, rfl, rfl⟩ := hmem
    simp at hy
    obtain ⟨y, hy, rfl⟩ := hy
    rw [toU64_of_fits _ (by omega) (by omega)]
    have hW0 : (0 : Int) ≤ s.width * 4 := by omega
    rw [Int.toNat_of_nonneg hW0, hfs]
    have hyh : (y : Int) < s.height := by omega
    have hy0 : (0 : Int) ≤ (y : Int) := Int.ofNat_nonneg y
    refine ⟨by positivity, by nlinarith, by positivity, by nlinarith, fun i hi0 hi1 => ?_⟩
    have hr0 : 0 ≤ i - (y : Int) * A := by linarith
    have hr1 : i - (y : Int) * A < A := by linarith
    have hi : i = (i - (y : Int) * A) + (y : Int) * A := by ring
    have hdiv : i / A = (y : Int) := by
      rw [hi, Int.add_mul_ediv_right _ _ (by omega), Int.ediv_eq_zero_of_lt hr0 hr1]
      simp
    have hmod : i % A = i - (y : Int) * A := by
      rw [hi, Int.add_mul_emod_self, Int.emod_eq_of_lt hr0 hr1]
      ring
    rw [hdiv, hmod]
    exact ⟨hyh, by linarith⟩

/-- C27 fails in the code for a source of width 32768 and height 16385 (stride 32768,
2147614720 bytes): the width is aligned and the height is not, so the copy path takes
the single-`memcpy` branch, whose length `height * src_stride` is computed in C `int`
and wraps; the one copy has length 18446744071562199040, far beyond the destination
frame buffer of 2149580800 bytes and beyond the source. -/
theorem copy_length_wraps :
    zero_copy_flag ⟨8, 2147614720, 32768, 16385, 32768, 1, 0⟩ = false ∧
    (32768 : Int) * 16385 * 4 = 2147614720 ∧
    frame_size ⟨8, 2147614720, 32768, 16385, 32768, 1, 0⟩ = 2149580800 ∧
    copy_rows ⟨8, 2147614720, 32768, 16385, 32768, 1, 0⟩ =
      [Event.memcpy_frame 0 0 18446744071562199040] := by
  decide

/-! ## Default request -/

theorem is_encode_map (env : Env) (w : World) (b : Option RkDmaBuffer) :
    calls Event.is_encode (rk_dmabuf_map env w b).2.2.trace = calls Event.is_encode w.trace := by
  unfold rk_dmabuf_map
  repeat' split
  all_goals simp [Event.is_encode]

theorem is_encode_free (w : World) (b : Option RkDmaBuffer) :
    calls Event.is_encode (rk_dmabuf_free w b).trace = calls Event.is_encode w.trace := by
  unfold rk_dmabuf_free rk_dmabuf_unmap
  simp only []
  repeat' split
  all_goals simp [Event.is_encode]

theorem is_encode_sf_capture (env : Env) (w : World) (a b : Bool) :
    calls Event.is_encode (rk_sf_capture env w a b).2.trace = calls Event.is_encode w.trace := by
  unfold rk_sf_capture
  simp only []
  repeat' split
  all_goals simp [Event.is_encode, rk_get_time_us]

/-- A request for a raw image makes no encoder call in stage 3. -/
theorem is_encode_output (env : Env) (w : World) (c : RkScreenshotConfig)
    (res : RkScreenshotResult) (pb : RkDmaBuffer) (t : Nat)
    (hfmt : c.format ≠ RK_FORMAT_JPEG) :
    calls Event.is_encode (capture_output env w c res pb t).world.trace =
      calls Event.is_encode w.trace := by
  unfold capture_output capture_finish
  simp only [hfmt, if_false]
  repeat' split
  all_goals simp [is_encode_free, is_encode_map, Event.is_encode, rk_get_time_us]

/-- A raw request whose gate is closed makes neither a transform call nor an encoder
call. -/
theorem raw_unscaled_stages (env : Env) (w : World) (c : RkScreenshotConfig)
    (result : Bool) (cfg : Option RkScreenshotConfig) (hcfg : cfg = some c)
    (hfmt : c.format ≠ RK_FORMAT_JPEG) (hgate : ∀ buf, need_scale c buf = false) :
    transform_calls (rk_screenshot_capture env w cfg result).world.trace =
      transform_calls w.trace ∧
    calls Event.is_encode (rk_screenshot_capture env w cfg result).world.trace =
      calls Event.is_encode w.trace := by
  subst hcfg
  unfold rk_screenshot_capture
  simp only []
  split
  · exact ⟨rfl, rfl⟩
  · split
    · exact ⟨rfl, rfl⟩
    · split
      · exact ⟨rfl, rfl⟩
      · split
        · simp [transform_calls_sf_capture, is_encode_sf_capture, Event.is_encode,
            Event.is_transform]
        · rename_i buf hb
          have ht := (transform_trace env
            (rk_get_time_us env (rk_sf_capture env (rk_get_time_us env
              ((rk_get_time_us env w).2.emit Event.calloc_result)).2 w.g_ctx.sf_ctx true).2).2
            c { zero_result with capture_time_us := toI64 (sub64 (rk_get_time_us env
              (rk_sf_capture env (rk_get_time_us env
                ((rk_get_time_us env w).2.emit Event.calloc_result)).2 w.g_ctx.sf_ctx
                true).2).1 (rk_get_time_us env
                  ((rk_get_time_us env w).2.emit Event.calloc_result)).1) } buf
            (rk_get_time_us env w).1).1 (hgate buf)
          refine ⟨?_, ?_⟩
          · rw [ht]
            simp [transform_calls_sf_capture, Event.is_transform]
          · unfold capture_transform
            simp only [hgate buf, Bool.false_eq_true, if_false]
            rw [is_encode_output _ _ _ _ _ _ hfmt]
            simp [is_encode_sf_capture, Event.is_encode]

/-- C29. `rk_screenshot_get_default_config` overwrites every field of a non-null
request, whatever it held: width 1920, height 1080, format RGBA8888, quality 90 and
every other field zero (rotation 0, scale target 0x0, timeout 0); a capture with the
default request makes no transform-stage call and no encoder call; on a null pointer
the function does nothing. -/
theorem default_config_request (c : RkScreenshotConfig) (env : Env) (w : World)
    (result : Bool) :
    rk_screenshot_get_default_config (some c) = some default_config ∧
    default_config =
      { width := 1920, height := 1080, format := RK_FORMAT_RGBA8888, quality := 90,
        rotation := 0, flip_vertical := false, flip_horizontal := false,
        crop_x := 0, crop_y := 0, crop_width := 0, crop_height := 0,
        scale_width := 0, scale_height := 0, enable_npu_enhance := false,
        timeout_ms := 0, reserved := [0, 0, 0, 0, 0, 0, 0, 0] } ∧
    rk_screenshot_get_default_config none = none ∧
    transform_calls (rk_screenshot_capture env w
        (rk_screenshot_get_default_config (some c)) result).world.trace =
      transform_calls w.trace ∧
    calls Event.is_encode (rk_screenshot_capture env w
        (rk_screenshot_get_default_config (some c)) result).world.trace =
      calls Event.is_encode w.trace := by
  refine ⟨rfl, rfl, rfl, ?_⟩
  exact raw_unscaled_stages env w default_config result _ rfl (by decide)
    (fun buf => need_scale_asymmetric default_config buf (by decide))

/-! ## Shared buffers: the invariant of built buffers -/

/-- Every buffer the code builds satisfies the invariant: the buffers of
`rk_dmabuf_alloc` and `rk_sf_capture` are unmapped, and `rk_dmabuf_unmap` drops the
view. -/
theorem built_buffers_view_has_handle (env : Env) (w : World) :
    (∀ (width height : Int) (b : RkDmaBuffer),
      (rk_dmabuf_alloc env w width height).1 = some b → b.view_has_handle = true) ∧
    (∀ (x y : Bool) (b : RkDmaBuffer),
      (rk_sf_capture env w x y).1 = .ok b → b.view_has_handle = true) ∧
    (∀ b b1 : RkDmaBuffer, (rk_dmabuf_unmap w (some b)).1 = some b1 →
      b1.view_has_handle = true) := by
  refine ⟨fun width height b hb => ?_, fun x y b hb => ?_, fun b b1 hb => ?_⟩
  · simp [RkDmaBuffer.view_has_handle, alloc_fields env w width height b hb]
  · simp [RkDmaBuffer.view_has_handle, (sf_capture_fd env w x y b hb).2]
  · unfold rk_dmabuf_unmap at hb
    simp only [] at hb
    split at hb
    · simp only [Option.some.injEq] at hb
      subst hb
      simp [RkDmaBuffer.view_has_handle, *]
    · simp only [Option.some.injEq] at hb
      subst hb
      simp [RkDmaBuffer.view_has_handle]

end RkScreenshot
